import Mathlib

/-!
# VktFrameProfilerLayer: a shallow embedding

Embedding of `VulkanServer/VKT/Profiling/vktFrameProfilerLayer.cpp`.

Conventions of the embedding.

* `UINT64` values are natural numbers; the one place where the source can
  overflow (`rawClocks.end++`) reduces modulo `2 ^ 64` explicitly.
* Pointers to wrapped queues and command buffers are natural numbers (their
  addresses); `nullptr` results and arguments are `Option`.
* `std` maps are association lists with unique keys; the list order stands for
  the iteration order of the container.
* A heap-allocated `SampleIdToProfilerResultMap` is owned by exactly one
  `(thread, queue)` slot of `mEntriesWithProfilingResults`, so the embedding
  stores the map itself in that slot and writes it back after the loop that
  mutates it through the pointer.
* `double` values are `Double`: a rational, an infinity or NaN.  Every
  arithmetic operation computes the exact result and then applies a rounding
  function `rnd : ℚ → Double`, which is a parameter of the embedding.
  `exactRounding` gives exact arithmetic, `roundNearestEven` is IEEE-754
  binary64 round-to-nearest, ties-to-even.
-/

namespace Vkt

/-! ## Function identifiers -/

/-- The `FuncId` values named in this file; every other id is `other n`. -/
inductive FuncId where
  | vkCmdBindPipeline | vkCmdSetViewport | vkCmdSetScissor | vkCmdSetLineWidth
  | vkCmdSetDepthBias | vkCmdSetBlendConstants | vkCmdSetDepthBounds
  | vkCmdSetStencilCompareMask | vkCmdSetStencilWriteMask | vkCmdSetStencilReference
  | vkCmdBindDescriptorSets | vkCmdBindIndexBuffer | vkCmdBindVertexBuffers
  | vkCmdDraw | vkCmdDrawIndexed | vkCmdDrawIndirect | vkCmdDrawIndexedIndirect
  | vkCmdDispatch | vkCmdDispatchIndirect | vkCmdCopyBuffer | vkCmdCopyImage
  | vkCmdBlitImage | vkCmdCopyBufferToImage | vkCmdCopyImageToBuffer
  | vkCmdUpdateBuffer | vkCmdFillBuffer | vkCmdClearColorImage
  | vkCmdClearDepthStencilImage | vkCmdClearAttachments | vkCmdResolveImage
  | vkCmdPipelineBarrier | vkCmdWaitEvents | vkCmdSetEvent | vkCmdResetEvent
  | vkCmdBeginQuery | vkCmdEndQuery | vkCmdWriteTimestamp | vkCmdPushConstants
  | vkCmdResetQueryPool | vkCmdCopyQueryPoolResults | vkCmdBeginRenderPass
  | vkCmdNextSubpass | vkCmdEndRenderPass | vkCmdExecuteCommands
  | other (id : Nat)
  deriving DecidableEq, Repr

/-! ## Association-list maps -/

/-- The `find` of a map: the value stored under `k`, if any. -/
def mapFind {K V : Type} [DecidableEq K] : List (K × V) → K → Option V
  | [], _ => none
  | (k', v) :: rest, k => if k' = k then some v else mapFind rest k

/-- The `m[k] = v` of a map: replaces the value under `k`, or adds the pair.  A
new key goes to the end of the list, so the list holds the keys in the order in
which they were first set.  The containers of the code iterate in the order of
their own type (the typedefs are in headers that the sources do not include);
what a lookup returns does not depend on that order. -/
def mapSet {K V : Type} [DecidableEq K] : List (K × V) → K → V → List (K × V)
  | [], k, v => [(k, v)]
  | (k', v') :: rest, k, v =>
    if k' = k then (k, v) :: rest else (k', v') :: mapSet rest k v

/-- The `m.insert(make_pair(k, v))` of a map: adds the pair unless `k` is present. -/
def mapInsert {K V : Type} [DecidableEq K] (m : List (K × V)) (k : K) (v : V) : List (K × V) :=
  match mapFind m k with
  | some _ => m
  | none => mapSet m k v

/-- The `m.count(k)` of a map with unique keys. -/
def mapCount {K V : Type} [DecidableEq K] (m : List (K × V)) (k : K) : Nat :=
  match mapFind m k with
  | some _ => 1
  | none => 0

/-! ## Doubles -/

/-- A `double`: a finite value, an infinity, or NaN.  Zero carries no sign: the
only operation that tells the two zeros apart is a division by zero, and every
divisor in this file is the conversion of an integer, which is never `-0.0`. -/
inductive Double where
  | fin (v : ℚ)
  | posInf
  | negInf
  | nan
  deriving DecidableEq

/-- Exact arithmetic: no rounding, every rational is representable. -/
def exactRounding (q : ℚ) : Double := Double.fin q

/-- Rounds a rational to the nearest integer, ties to the even one. -/
def roundHalfEven (x : ℚ) : ℤ :=
  let f := ⌊x⌋
  if x - f < 1 / 2 then f
  else if 1 / 2 < x - f then f + 1
  else if f % 2 = 0 then f else f + 1

/-- The binary exponent of the unit in the last place of a binary64 value of
magnitude `a`: 53 significant bits, exponents of subnormals clamped. -/
def ulpExponent (a : ℚ) : ℤ := max (Int.log 2 a) (-1022) - 52

/-- Rounds `q` to the nearest multiple of its unit in the last place, ties to the
even multiple: binary64 rounding with an unbounded exponent range. -/
def roundToUlp (q : ℚ) : ℚ :=
  let e := ulpExponent |q|
  (roundHalfEven (q / 2 ^ e) : ℚ) * 2 ^ e

/-- IEEE-754 binary64 rounding, round-to-nearest ties-to-even: the significand
is rounded at the exponent of the exact value, and a result of magnitude
`2 ^ 1024` or more overflows to an infinity. -/
def roundNearestEven (q : ℚ) : Double :=
  let v : ℚ := roundToUlp q
  if (2 : ℚ) ^ (1024 : ℤ) ≤ |v| then (if 0 < q then Double.posInf else Double.negInf)
  else Double.fin v

namespace Double

/-- Conversion of a 64-bit integer (`static_cast<double>`). -/
def ofInt (rnd : ℚ → Double) (n : ℤ) : Double := rnd n

/-- The sum `a + b`. -/
def add (rnd : ℚ → Double) : Double → Double → Double
  | fin a, fin b => rnd (a + b)
  | nan, _ => nan
  | _, nan => nan
  | posInf, negInf => nan
  | negInf, posInf => nan
  | posInf, _ => posInf
  | negInf, _ => negInf
  | fin _, posInf => posInf
  | fin _, negInf => negInf

/-- The difference `a - b`. -/
def sub (rnd : ℚ → Double) : Double → Double → Double
  | fin a, fin b => rnd (a - b)
  | nan, _ => nan
  | _, nan => nan
  | posInf, posInf => nan
  | negInf, negInf => nan
  | posInf, _ => posInf
  | negInf, _ => negInf
  | fin _, posInf => negInf
  | fin _, negInf => posInf

/-- The product `a * b`. -/
def mul (rnd : ℚ → Double) : Double → Double → Double
  | fin a, fin b => rnd (a * b)
  | nan, _ => nan
  | _, nan => nan
  | posInf, fin b => if b = 0 then nan else if 0 < b then posInf else negInf
  | negInf, fin b => if b = 0 then nan else if 0 < b then negInf else posInf
  | fin a, posInf => if a = 0 then nan else if 0 < a then posInf else negInf
  | fin a, negInf => if a = 0 then nan else if 0 < a then negInf else posInf
  | posInf, posInf => posInf
  | posInf, negInf => negInf
  | negInf, posInf => negInf
  | negInf, negInf => posInf

/-- The quotient `a / b`; a zero divisor is `+0.0`. -/
def div (rnd : ℚ → Double) : Double → Double → Double
  | fin a, fin b =>
    if b = 0 then (if a = 0 then nan else if 0 < a then posInf else negInf)
    else rnd (a / b)
  | nan, _ => nan
  | _, nan => nan
  | fin _, posInf => fin 0
  | fin _, negInf => fin 0
  | posInf, fin b => if 0 ≤ b then posInf else negInf
  | negInf, fin b => if 0 ≤ b then negInf else posInf
  | posInf, posInf => nan
  | posInf, negInf => nan
  | negInf, posInf => nan
  | negInf, negInf => nan

/-- The comparison `a <= b`; false when either side is NaN. -/
def le : Double → Double → Bool
  | fin a, fin b => decide (a ≤ b)
  | nan, _ => false
  | _, nan => false
  | negInf, _ => true
  | _, posInf => true
  | posInf, _ => false
  | fin _, negInf => false

/-- The comparison `a < b`; false when either side is NaN. -/
def lt : Double → Double → Bool
  | fin a, fin b => decide (a < b)
  | nan, _ => false
  | _, nan => false
  | posInf, _ => false
  | _, negInf => false
  | negInf, _ => true
  | fin _, posInf => true

/-- The comparison `a >= b`. -/
def ge (a b : Double) : Bool := le b a

end Double

/-- A rounding function that keeps zero and the order: what the order of the
aligned timestamps rests on. -/
def RoundingMonotone (rnd : ℚ → Double) : Prop :=
  rnd 0 = Double.fin 0 ∧ ∀ p q : ℚ, p ≤ q → Double.le (rnd p) (rnd q) = true

/-- An operation on doubles that propagates NaN and keeps the order of the
arguments for which its result is not NaN. -/
def NanMonotone (F : Double → Double) : Prop :=
  F Double.nan = Double.nan ∧
  ∀ a b : Double, Double.le a b = true → F a ≠ Double.nan → F b ≠ Double.nan →
    Double.le (F a) (F b) = true

/-! ## Profiler results -/

/-- The modulus of `UINT64` arithmetic. -/
def UINT64_MODULUS : Nat := 2 ^ 64

/-- Identity of one timed command (`ProfilerMeasurementId`). -/
structure ProfilerMeasurementId where
  sampleId : Nat
  frame : Nat
  funcId : FuncId
  pWrappedCmdBuf : Nat
  fillId : Nat
  deriving DecidableEq

/-- Mirrors `ProfilerMeasurementInfo`. -/
structure ProfilerMeasurementInfo where
  idInfo : ProfilerMeasurementId
  measurementNum : Nat
  deriving DecidableEq

/-- The hardware timestamp triple (`rawClocks`); `end_` is the field `end`. -/
structure RawClocks where
  preStart : Nat
  start : Nat
  end_ : Nat
  deriving DecidableEq

/-- Mirrors `alignedMillisecondTimestamps`; `end_` is the field `end`. -/
structure AlignedMillisecondTimestamps where
  start : Double
  end_ : Double
  deriving DecidableEq

/-- Mirrors `ProfilerTimestampResult`. -/
structure ProfilerTimestampResult where
  rawClocks : RawClocks
  alignedMillisecondTimestamps : AlignedMillisecondTimestamps
  deriving DecidableEq

/-- Mirrors `ProfilerResult`. -/
structure ProfilerResult where
  measurementInfo : ProfilerMeasurementInfo
  timestampResult : ProfilerTimestampResult
  deriving DecidableEq

/-- `VktFrameProfilerLayer::ValidateProfilerResult` (the two `Log` calls have no
effect on the returned value). -/
def ValidateProfilerResult (result : ProfilerResult) : Bool :=
  let validResult := true
  -- Verify that the raw clock timestamps are non-zero.
  let validResult :=
    if result.timestampResult.rawClocks.preStart = 0 ∨
       result.timestampResult.rawClocks.start = 0 ∨
       result.timestampResult.rawClocks.end_ = 0 then false else validResult
  -- Verify that start < end.
  let validResult :=
    if result.timestampResult.rawClocks.preStart > result.timestampResult.rawClocks.start ∨
       result.timestampResult.rawClocks.preStart > result.timestampResult.rawClocks.end_ ∨
       result.timestampResult.rawClocks.start > result.timestampResult.rawClocks.end_
    then false else validResult
  validResult

/-- A result with the given sample id and raw clocks, everything else zero. -/
def mkResult (sampleId preStart start end_ : Nat) : ProfilerResult :=
  { measurementInfo :=
      { idInfo := { sampleId := sampleId, frame := 0, funcId := FuncId.vkCmdDraw,
                    pWrappedCmdBuf := 0, fillId := 0 },
        measurementNum := 0 },
    timestampResult :=
      { rawClocks := { preStart := preStart, start := start, end_ := end_ },
        alignedMillisecondTimestamps := { start := Double.fin 0, end_ := Double.fin 0 } } }

/-! ## Alignment with the CPU timeline -/

/-- Mirrors `CalibrationTimestampPair`.  `cpuFrequency` is the `QuadPart` of a
`LARGE_INTEGER` (signed), the CPU timestamp is assigned from a `QuadPart`, the
GPU timestamp and the queue frequency are `UINT64`. -/
structure CalibrationTimestampPair where
  cpuFrequency : ℤ
  mBeforeExecutionCPUTimestamp : ℤ
  mBeforeExecutionGPUTimestamp : Nat
  mQueueFrequency : Nat
  deriving DecidableEq

/-- `VktFrameProfilerLayer::AlignProfilerResultWithCPUTimeline`: the returned
flag and the result as the function leaves it (`ioResult` is a reference).
`inFrameStartTime` is the `QuadPart` of the `GPS_TIMESTAMP`. -/
def AlignProfilerResultWithCPUTimeline (rnd : ℚ → Double) (ioResult : ProfilerResult)
    (pTimestamps : Option CalibrationTimestampPair) (inFrameStartTime : ℤ) :
    Bool × ProfilerResult :=
  let bAlignmentResult := false
  match pTimestamps with
  | none => (bAlignmentResult, ioResult)
  | some ts =>
    let cpuClockFrequency := Double.ofInt rnd ts.cpuFrequency
    let cpuStartMillisecond :=
      Double.div rnd
        (Double.mul rnd (Double.ofInt rnd ts.mBeforeExecutionCPUTimestamp) (Double.fin 1000))
        cpuClockFrequency
    let gpuMillisecondAtBeforeExecution :=
      Double.div rnd
        (Double.mul rnd (Double.ofInt rnd ts.mBeforeExecutionGPUTimestamp) (Double.fin 1000))
        (Double.ofInt rnd ts.mQueueFrequency)
    -- Extract the raw clock cycles from the profiler result, and convert them into GPU Milliseconds.
    let gpuMillisecondAtResultStart :=
      Double.div rnd
        (Double.mul rnd (Double.ofInt rnd ioResult.timestampResult.rawClocks.start)
          (Double.fin 1000))
        (Double.ofInt rnd ts.mQueueFrequency)
    let gpuMillisecondAtResultEnd :=
      Double.div rnd
        (Double.mul rnd (Double.ofInt rnd ioResult.timestampResult.rawClocks.end_)
          (Double.fin 1000))
        (Double.ofInt rnd ts.mQueueFrequency)
    let gpuMillisecondAtDeltaStart :=
      Double.sub rnd gpuMillisecondAtResultStart gpuMillisecondAtBeforeExecution
    let gpuMillisecondAtDeltaEnd :=
      Double.sub rnd gpuMillisecondAtResultEnd gpuMillisecondAtBeforeExecution
    let alignedStart := Double.add rnd gpuMillisecondAtDeltaStart cpuStartMillisecond
    let alignedEnd := Double.add rnd gpuMillisecondAtDeltaEnd cpuStartMillisecond
    -- Take the frame start time into account
    let frameStartOffset :=
      Double.div rnd (Double.mul rnd (Double.ofInt rnd inFrameStartTime) (Double.fin 1000))
        cpuClockFrequency
    let alignedStart := Double.sub rnd alignedStart frameStartOffset
    let alignedEnd := Double.sub rnd alignedEnd frameStartOffset
    -- Verify that the timestamps are larger than zero.
    if Double.ge alignedStart (Double.fin 0) && Double.ge alignedEnd (Double.fin 0) then
      (true,
        { ioResult with
          timestampResult :=
            { ioResult.timestampResult with
              alignedMillisecondTimestamps := { start := alignedStart, end_ := alignedEnd } } })
    else (bAlignmentResult, ioResult)

/-- The frame-relative CPU-timeline millisecond that
`AlignProfilerResultWithCPUTimeline` computes for the raw GPU clock `clock`
(`alignedStart` for `rawClocks.start`, `alignedEnd` for `rawClocks.end`): the
same operations in the same order. -/
def alignedMillisecond (rnd : ℚ → Double) (ts : CalibrationTimestampPair)
    (inFrameStartTime : ℤ) (clock : Nat) : Double :=
  Double.sub rnd
    (Double.add rnd
      (Double.sub rnd
        (Double.div rnd (Double.mul rnd (Double.ofInt rnd clock) (Double.fin 1000))
          (Double.ofInt rnd ts.mQueueFrequency))
        (Double.div rnd
          (Double.mul rnd (Double.ofInt rnd ts.mBeforeExecutionGPUTimestamp) (Double.fin 1000))
          (Double.ofInt rnd ts.mQueueFrequency)))
      (Double.div rnd
        (Double.mul rnd (Double.ofInt rnd ts.mBeforeExecutionCPUTimestamp) (Double.fin 1000))
        (Double.ofInt rnd ts.cpuFrequency)))
    (Double.div rnd (Double.mul rnd (Double.ofInt rnd inFrameStartTime) (Double.fin 1000))
      (Double.ofInt rnd ts.cpuFrequency))

/-- `VktFrameProfilerLayer::CopyProfilerResult`: both members are copied. -/
def CopyProfilerResult (pDst pSrc : ProfilerResult) : ProfilerResult :=
  { pDst with measurementInfo := pSrc.measurementInfo, timestampResult := pSrc.timestampResult }

/-! ## The layer -/

/-- The sample map of one `(thread, queue)`: sample id to stored result. -/
abbrev SampleIdToProfilerResultMap := List (Nat × ProfilerResult)

/-- Queue (address of the wrapped queue) to the sample map it owns. -/
abbrev QueueWrapperToProfilingResultsMap := List (Nat × SampleIdToProfilerResultMap)

/-- Thread id to the queue map of that thread. -/
abbrev ProfilerResultsMap := List (Nat × QueueWrapperToProfilingResultsMap)

/-- A traced API call: the entry object (its address) and the sample id it is
tagged with. -/
structure VktAPIEntry where
  address : Nat
  m_sampleId : Nat
  deriving DecidableEq

/-- Sample id to the API entry tagged with it. -/
abbrev SampleIdToAPIEntryMap := List (Nat × VktAPIEntry)

/-- Thread id to the entries stored from that thread. -/
abbrev ThreadSafeSampleIdToAPIEntryMap := List (Nat × SampleIdToAPIEntryMap)

/-- One thread's in-flight measurement (`SampleInfo`). -/
structure SampleInfo where
  mSampleId : Nat
  mbBeginSampleSuccessful : Bool
  deriving DecidableEq

/-- The state of a `VktFrameProfilerLayer`: its own members and the members of
`ModernAPIFrameProfilerLayer` that `PreCall` and `PostCall` reach. -/
structure VktFrameProfilerLayer where
  mEntriesWithProfilingResults : ProfilerResultsMap
  mSampleIdToEntry : ThreadSafeSampleIdToAPIEntryMap
  m_profiledFuncs : List (FuncId × Bool)
  mSampleInfos : List (Nat × SampleInfo)
  mSampleIndex : Nat
  deriving DecidableEq

/-- The sample map owned by `(threadId, queue)`, empty when there is none. -/
def resultMapOf (layer : VktFrameProfilerLayer) (threadId queue : Nat) :
    SampleIdToProfilerResultMap :=
  ((mapFind ((mapFind layer.mEntriesWithProfilingResults threadId).getD []) queue).getD [])

/-- Whether the sample map of `(threadId, queue)` holds a result under `sampleId`. -/
def hasResult (layer : VktFrameProfilerLayer) (threadId queue sampleId : Nat) : Bool :=
  (mapFind (resultMapOf layer threadId queue) sampleId).isSome

/-- `VktFrameProfilerLayer::FindOrCreateProfilerResultsMap`: the layer afterwards
and the map the returned pointer refers to (`none` for `nullptr`). -/
def FindOrCreateProfilerResultsMap (layer : VktFrameProfilerLayer) (pWrappedQueue : Nat)
    (inThreadId : Nat) : VktFrameProfilerLayer × Option SampleIdToProfilerResultMap :=
  if mapCount layer.mEntriesWithProfilingResults inThreadId = 0 then
    -- make the new map data for this thread
    let queueMap : QueueWrapperToProfilingResultsMap := []
    let pResultMap : SampleIdToProfilerResultMap := []
    let queueMap := mapInsert queueMap pWrappedQueue pResultMap
    ({ layer with
        mEntriesWithProfilingResults :=
          mapSet layer.mEntriesWithProfilingResults inThreadId queueMap },
      some pResultMap)
  else
    let queueMap := (mapFind layer.mEntriesWithProfilingResults inThreadId).getD []
    match mapFind queueMap pWrappedQueue with
    | some resultMap => (layer, some resultMap)
    | none =>
      let pResultMap : SampleIdToProfilerResultMap := []
      let queueMap := mapInsert queueMap pWrappedQueue pResultMap
      ({ layer with
          mEntriesWithProfilingResults :=
            mapSet layer.mEntriesWithProfilingResults inThreadId queueMap },
        some pResultMap)

/-- The contents of a freshly allocated `ProfilerResult`. -/
def newProfilerResult : ProfilerResult := mkResult 0 0 0 0

/-- One iteration of the loop of `VerifyAlignAndStoreResults`: the sample map
and `results[resultIndex]` as the iteration leaves them. -/
def verifyAlignAndStoreOne (MANUAL_TIMESTAMP_CALIBRATION : Bool) (rnd : ℚ → Double)
    (pTimestampPair : Option CalibrationTimestampPair) (frameStartTime : ℤ)
    (pResultMap : SampleIdToProfilerResultMap) (currentResult : ProfilerResult) :
    SampleIdToProfilerResultMap × ProfilerResult :=
  let sampleId := currentResult.measurementInfo.idInfo.sampleId
  -- Verify that the timestamps retrieved from the profiler appear to be valid.
  if ValidateProfilerResult currentResult = true then
    let aligned :=
      if MANUAL_TIMESTAMP_CALIBRATION then
        AlignProfilerResultWithCPUTimeline rnd currentResult pTimestampPair frameStartTime
      else (true, currentResult)
    let bAlignedSuccessfully := aligned.1
    let currentResult := aligned.2
    -- Make zero-duration case equal to 1 clock cycle
    let currentResult :=
      if currentResult.timestampResult.rawClocks.start =
          currentResult.timestampResult.rawClocks.end_ then
        { currentResult with
          timestampResult :=
            { currentResult.timestampResult with
              rawClocks :=
                { currentResult.timestampResult.rawClocks with
                  end_ := (currentResult.timestampResult.rawClocks.end_ + 1) % UINT64_MODULUS } } }
      else currentResult
    if bAlignedSuccessfully then
      -- Store the final adjusted profiler results if they're valid.
      let pNewResult := CopyProfilerResult newProfilerResult currentResult
      (mapSet pResultMap sampleId pNewResult, currentResult)
    else (pResultMap, currentResult)
  else (pResultMap, currentResult)

/-- The loop of `VerifyAlignAndStoreResults` over `results`, in index order. -/
def verifyAlignAndStoreLoop (MANUAL_TIMESTAMP_CALIBRATION : Bool) (rnd : ℚ → Double)
    (pTimestampPair : Option CalibrationTimestampPair) (frameStartTime : ℤ) :
    SampleIdToProfilerResultMap → List ProfilerResult →
      SampleIdToProfilerResultMap × List ProfilerResult
  | pResultMap, [] => (pResultMap, [])
  | pResultMap, currentResult :: rest =>
    let step := verifyAlignAndStoreOne MANUAL_TIMESTAMP_CALIBRATION rnd pTimestampPair
      frameStartTime pResultMap currentResult
    let tail := verifyAlignAndStoreLoop MANUAL_TIMESTAMP_CALIBRATION rnd pTimestampPair
      frameStartTime step.1 rest
    (tail.1, step.2 :: tail.2)

/-- Writes `resultMap` into the slot of `(threadId, queue)`: the effect on the
layer of the stores made through the pointer to that sample map. -/
def setResultMap (layer : VktFrameProfilerLayer) (threadId queue : Nat)
    (resultMap : SampleIdToProfilerResultMap) : VktFrameProfilerLayer :=
  { layer with
    mEntriesWithProfilingResults :=
      mapSet layer.mEntriesWithProfilingResults threadId
        (mapSet ((mapFind layer.mEntriesWithProfilingResults threadId).getD []) queue
          resultMap) }

/-- `VktFrameProfilerLayer::VerifyAlignAndStoreResults`: the layer afterwards and
the `results` vector as the call leaves it.  `MANUAL_TIMESTAMP_CALIBRATION` is
the build-time switch of `vktDefines.h`. -/
def VerifyAlignAndStoreResults (MANUAL_TIMESTAMP_CALIBRATION : Bool) (rnd : ℚ → Double)
    (layer : VktFrameProfilerLayer) (pQueue : Nat) (results : List ProfilerResult)
    (pTimestampPair : Option CalibrationTimestampPair) (threadID : Nat)
    (frameStartTime : ℤ) : VktFrameProfilerLayer × List ProfilerResult :=
  let found := FindOrCreateProfilerResultsMap layer pQueue threadID
  match found.2 with
  | some pResultMap =>
    let done := verifyAlignAndStoreLoop MANUAL_TIMESTAMP_CALIBRATION rnd pTimestampPair
      frameStartTime pResultMap results
    (setResultMap found.1 threadID pQueue done.1, done.2)
  | none => (found.1, results)

/-! ## The entry store -/

/-- `VktFrameProfilerLayer::StoreProfilerResult`; `threadId` is what
`osGetCurrentThreadId()` returns. -/
def StoreProfilerResult (layer : VktFrameProfilerLayer) (threadId : Nat)
    (pEntry : VktAPIEntry) : VktFrameProfilerLayer :=
  match mapFind layer.mSampleIdToEntry threadId with
  | none =>
    -- create a new entry
    let newMap : SampleIdToAPIEntryMap := []
    let newMap := mapSet newMap pEntry.m_sampleId pEntry
    { layer with mSampleIdToEntry := mapSet layer.mSampleIdToEntry threadId newMap }
  | some mapEntry =>
    { layer with
      mSampleIdToEntry :=
        mapSet layer.mSampleIdToEntry threadId (mapSet mapEntry pEntry.m_sampleId pEntry) }

/-- The loop of `FindInvocationBySampleId` over the per-thread maps. -/
def findInvocationLoop (inSampleId : Nat) :
    ThreadSafeSampleIdToAPIEntryMap → Option VktAPIEntry
  | [] => none
  | (_, entryMap) :: rest =>
    match mapFind entryMap inSampleId with
    | some apiEntry => some apiEntry
    | none => findInvocationLoop inSampleId rest

/-- `VktFrameProfilerLayer::FindInvocationBySampleId` (`none` for `nullptr`). -/
def FindInvocationBySampleId (layer : VktFrameProfilerLayer) (inSampleId : Nat) :
    Option VktAPIEntry :=
  findInvocationLoop inSampleId layer.mSampleIdToEntry

/-- The results that the loops of `ClearProfilingResults` pass to `SAFE_DELETE`:
every result of every sample map of every thread, in iteration order. -/
def deletedByClear (layer : VktFrameProfilerLayer) : List ProfilerResult :=
  (layer.mEntriesWithProfilingResults.map
    (fun threadEntry =>
      (threadEntry.2.map
        (fun queueEntry => queueEntry.2.map (fun resultEntry => resultEntry.2))).flatten)).flatten

/-- `VktFrameProfilerLayer::ClearProfilingResults`: the loops delete the stored
results (`deletedByClear`) and the sample maps and clear a local copy of each
queue map, which changes none of the layer's maps; then both maps are cleared. -/
def ClearProfilingResults (layer : VktFrameProfilerLayer) : VktFrameProfilerLayer :=
  { layer with mEntriesWithProfilingResults := [], mSampleIdToEntry := [] }

/-! ## PreCall and PostCall -/

/-- The result codes of the command-buffer profiler. -/
inductive ProfilerResultCode where
  | PROFILER_SUCCESS
  | PROFILER_FAIL (code : Nat)
  deriving DecidableEq

/-- What `PreCall` and `PostCall` use of a `VktWrappedCmdBuf`: its address, the
values its accessors return and the codes its profiler answers the two
measurement requests with. -/
structure VktWrappedCmdBuf where
  address : Nat
  AppHandle : Nat
  IsProfilingEnabled : Bool
  FillCount : Nat
  BeginCmdMeasurement : ProfilerMeasurementId → ProfilerResultCode
  EndCmdMeasurement : ProfilerResultCode

/-- The messages `PreCall` and `PostCall` pass to `Log(logERROR, ...)`. -/
inductive LogMessage where
  | failedBeginCmdMeasurement (appHandle sampleId : Nat)
  | noSampleInfoForPreCall (threadId : Nat)
  | failedEndCmdMeasurement (appHandle sampleId : Nat)
  | beginMeasurementNotSuccessful
  | noSampleInfoForPostCall (threadId : Nat)
  deriving DecidableEq

/-- The calls `PreCall` and `PostCall` make on their collaborators, in order. -/
inductive ProfilerEvent where
  | beginCmdMeasurement (cmdBuf : Nat) (measurementId : ProfilerMeasurementId)
  | endCmdMeasurement (cmdBuf : Nat)
  | logError (message : LogMessage)
  deriving DecidableEq

/-- Modelled from the spec: `ModernAPIFrameProfilerLayer::ShouldProfileFunction`
is not in the sources.  The spec has it as a pure lookup against the table that
`SetProfiledFuncs` fills; an id the table does not hold is not profiled. -/
def ShouldProfileFunction (layer : VktFrameProfilerLayer) (funcId : FuncId) : Bool :=
  (mapFind layer.m_profiledFuncs funcId).getD false

/-- Modelled from the spec: `ModernAPIFrameProfilerLayer::GetSampleInfoForThread`
is not in the sources.  The spec has it return the thread's `SampleInfo`,
creating it on first access, and never fail; a new `SampleInfo` has no sample
and `beginSucceeded` false. -/
def GetSampleInfoForThread (layer : VktFrameProfilerLayer) (threadId : Nat) :
    VktFrameProfilerLayer × Option SampleInfo :=
  match mapFind layer.mSampleInfos threadId with
  | some info => (layer, some info)
  | none =>
    let info : SampleInfo := { mSampleId := 0, mbBeginSampleSuccessful := false }
    ({ layer with mSampleInfos := mapSet layer.mSampleInfos threadId info }, some info)

/-- Modelled from the spec: `ModernAPIFrameProfilerLayer::SetNextSampleId` is not
in the sources.  The spec has it return a strictly increasing sample id, unique
in the session: the layer's counter is advanced and its new value returned.
The spec's sequencer takes the thread from `Idle` to `BeginRequested` here, and
has `beginSucceeded` stay false when the begin request then fails: the
`SampleInfo` handed in is left with `mbBeginSampleSuccessful` false.  Its
`mSampleId` is written by the success branch of `PreCall`, not here.  The result
is the layer, the `SampleInfo` as the call leaves it (`ioSampleInfo` is a
pointer) and the id returned. -/
def SetNextSampleId (layer : VktFrameProfilerLayer) (ioSampleInfo : SampleInfo) :
    VktFrameProfilerLayer × SampleInfo × Nat :=
  ({ layer with mSampleIndex := layer.mSampleIndex + 1 },
    { ioSampleInfo with mbBeginSampleSuccessful := false },
    layer.mSampleIndex + 1)

/-- Modelled from the spec: `VktUtil::ConstructMeasurementInfo` is not in the
sources.  The spec's MeasurementId is made of the function id, the sample id,
the frame number, the command buffer and the ordinal within it. -/
def ConstructMeasurementInfo (funcId : FuncId) (sampleId : Nat) (pWrappedCmdBuf : Nat)
    (frame : Nat) (fillId : Nat) : ProfilerMeasurementId :=
  { sampleId := sampleId, frame := frame, funcId := funcId,
    pWrappedCmdBuf := pWrappedCmdBuf, fillId := fillId }

/-- `VktFrameProfilerLayer::PreCall`: the layer afterwards and the calls made.
`threadId` is what `osGetCurrentThreadId()` returns, `frameCount` what
`GetFrameCount()` returns.  `pSampleInfo` points at the thread's `SampleInfo`, so
what `SetNextSampleId` and the success branch write through it is written to the
thread's slot of `mSampleInfos`. -/
def PreCall (layer : VktFrameProfilerLayer) (threadId frameCount : Nat) (funcId : FuncId)
    (pWrappedCmdBuf : VktWrappedCmdBuf) : VktFrameProfilerLayer × List ProfilerEvent :=
  if pWrappedCmdBuf.IsProfilingEnabled && ShouldProfileFunction layer funcId then
    let got := GetSampleInfoForThread layer threadId
    match got.2 with
    | some pSampleInfo =>
      let next := SetNextSampleId got.1 pSampleInfo
      let pSampleInfo := next.2.1
      let nextSampleId := next.2.2
      let measurementId := ConstructMeasurementInfo funcId nextSampleId pWrappedCmdBuf.address
        frameCount pWrappedCmdBuf.FillCount
      let beginResult := pWrappedCmdBuf.BeginCmdMeasurement measurementId
      if beginResult = ProfilerResultCode.PROFILER_SUCCESS then
        let pSampleInfo : SampleInfo :=
          { pSampleInfo with
            mSampleId := measurementId.sampleId, mbBeginSampleSuccessful := true }
        ({ next.1 with mSampleInfos := mapSet next.1.mSampleInfos threadId pSampleInfo },
          [ProfilerEvent.beginCmdMeasurement pWrappedCmdBuf.address measurementId])
      else
        ({ next.1 with mSampleInfos := mapSet next.1.mSampleInfos threadId pSampleInfo },
          [ProfilerEvent.beginCmdMeasurement pWrappedCmdBuf.address measurementId,
           ProfilerEvent.logError
             (LogMessage.failedBeginCmdMeasurement pWrappedCmdBuf.AppHandle
               measurementId.sampleId)])
    | none =>
      (got.1, [ProfilerEvent.logError (LogMessage.noSampleInfoForPreCall threadId)])
  else (layer, [])

/-- `VktFrameProfilerLayer::PostCall`: the layer afterwards, the API entry as the
call leaves it (`pNewAPIEntry` is a pointer) and the calls made. -/
def PostCall (layer : VktFrameProfilerLayer) (threadId : Nat) (pNewAPIEntry : VktAPIEntry)
    (inFuncId : FuncId) (pWrappedCmdBuf : VktWrappedCmdBuf) :
    VktFrameProfilerLayer × VktAPIEntry × List ProfilerEvent :=
  -- Wait and gather results
  if pWrappedCmdBuf.IsProfilingEnabled && ShouldProfileFunction layer inFuncId then
    let got := GetSampleInfoForThread layer threadId
    match got.2 with
    | some pSampleInfo =>
      if pSampleInfo.mbBeginSampleSuccessful = true then
        let endResult := pWrappedCmdBuf.EndCmdMeasurement
        if endResult = ProfilerResultCode.PROFILER_SUCCESS then
          let pNewAPIEntry := { pNewAPIEntry with m_sampleId := pSampleInfo.mSampleId }
          (StoreProfilerResult got.1 threadId pNewAPIEntry, pNewAPIEntry,
            [ProfilerEvent.endCmdMeasurement pWrappedCmdBuf.address])
        else
          (got.1, pNewAPIEntry,
            [ProfilerEvent.endCmdMeasurement pWrappedCmdBuf.address,
             ProfilerEvent.logError
               (LogMessage.failedEndCmdMeasurement pWrappedCmdBuf.AppHandle
                 pSampleInfo.mSampleId)])
      else
        (got.1, pNewAPIEntry,
          [ProfilerEvent.logError LogMessage.beginMeasurementNotSuccessful])
    | none =>
      (got.1, pNewAPIEntry,
        [ProfilerEvent.logError (LogMessage.noSampleInfoForPostCall threadId)])
  else (layer, pNewAPIEntry, [])

/-- `VktFrameProfilerLayer::SetProfiledFuncs`: the assignments of the source, in
order. -/
def SetProfiledFuncs (layer : VktFrameProfilerLayer) : VktFrameProfilerLayer :=
  let t := layer.m_profiledFuncs
  let t := mapSet t FuncId.vkCmdBindPipeline false
  let t := mapSet t FuncId.vkCmdSetViewport false
  let t := mapSet t FuncId.vkCmdSetScissor false
  let t := mapSet t FuncId.vkCmdSetLineWidth false
  let t := mapSet t FuncId.vkCmdSetDepthBias false
  let t := mapSet t FuncId.vkCmdSetBlendConstants false
  let t := mapSet t FuncId.vkCmdSetDepthBounds false
  let t := mapSet t FuncId.vkCmdSetStencilCompareMask false
  let t := mapSet t FuncId.vkCmdSetStencilWriteMask false
  let t := mapSet t FuncId.vkCmdSetStencilReference false
  let t := mapSet t FuncId.vkCmdBindDescriptorSets false
  let t := mapSet t FuncId.vkCmdBindIndexBuffer false
  let t := mapSet t FuncId.vkCmdBindVertexBuffers false
  let t := mapSet t FuncId.vkCmdDraw true
  let t := mapSet t FuncId.vkCmdDrawIndexed true
  let t := mapSet t FuncId.vkCmdDrawIndirect true
  let t := mapSet t FuncId.vkCmdDrawIndexedIndirect true
  let t := mapSet t FuncId.vkCmdDispatch true
  let t := mapSet t FuncId.vkCmdDispatchIndirect true
  let t := mapSet t FuncId.vkCmdCopyBuffer true
  let t := mapSet t FuncId.vkCmdCopyImage true
  let t := mapSet t FuncId.vkCmdBlitImage true
  let t := mapSet t FuncId.vkCmdCopyBufferToImage true
  let t := mapSet t FuncId.vkCmdCopyImageToBuffer true
  let t := mapSet t FuncId.vkCmdUpdateBuffer true
  let t := mapSet t FuncId.vkCmdFillBuffer true
  let t := mapSet t FuncId.vkCmdClearColorImage true
  let t := mapSet t FuncId.vkCmdClearDepthStencilImage true
  let t := mapSet t FuncId.vkCmdClearAttachments true
  let t := mapSet t FuncId.vkCmdResolveImage true
  let t := mapSet t FuncId.vkCmdPipelineBarrier true
  let t := mapSet t FuncId.vkCmdWaitEvents true
  let t := mapSet t FuncId.vkCmdSetEvent false
  let t := mapSet t FuncId.vkCmdResetEvent false
  let t := mapSet t FuncId.vkCmdBeginQuery false
  let t := mapSet t FuncId.vkCmdEndQuery false
  let t := mapSet t FuncId.vkCmdWriteTimestamp false
  let t := mapSet t FuncId.vkCmdPushConstants true
  let t := mapSet t FuncId.vkCmdResetQueryPool true
  let t := mapSet t FuncId.vkCmdCopyQueryPoolResults true
  let t := mapSet t FuncId.vkCmdBeginRenderPass true
  let t := mapSet t FuncId.vkCmdNextSubpass true
  let t := mapSet t FuncId.vkCmdEndRenderPass true
  let t := mapSet t FuncId.vkCmdExecuteCommands true
  { layer with m_profiledFuncs := t }

/-- The layer as `VktFrameProfilerLayer::VktFrameProfilerLayer()` leaves it: every
map empty, no sample id handed out, and the table of `SetProfiledFuncs`. -/
def VktFrameProfilerLayer.construct : VktFrameProfilerLayer :=
  SetProfiledFuncs
    { mEntriesWithProfilingResults := [], mSampleIdToEntry := [], m_profiledFuncs := [],
      mSampleInfos := [], mSampleIndex := 0 }

/-- The `SampleInfo` that `GetSampleInfoForThread` hands out for `threadId`. -/
def threadInfo (layer : VktFrameProfilerLayer) (threadId : Nat) : SampleInfo :=
  (mapFind layer.mSampleInfos threadId).getD { mSampleId := 0, mbBeginSampleSuccessful := false }

/-- The per-thread entry map of `threadId`, empty when there is none. -/
def entryMapOf (layer : VktFrameProfilerLayer) (threadId : Nat) : SampleIdToAPIEntryMap :=
  (mapFind layer.mSampleIdToEntry threadId).getD []

/-- The sample map registered under `(threadId, queue)`, if there is one. -/
def findResultMap (layer : VktFrameProfilerLayer) (threadId queue : Nat) :
    Option SampleIdToProfilerResultMap :=
  match mapFind layer.mEntriesWithProfilingResults threadId with
  | some queueMap => mapFind queueMap queue
  | none => none

/-! ## Sequences of store calls -/

/-- The arguments of one call of `VerifyAlignAndStoreResults`. -/
structure StoreCall where
  threadID : Nat
  pQueue : Nat
  results : List ProfilerResult
  pTimestampPair : Option CalibrationTimestampPair
  frameStartTime : ℤ

/-- The layer after the calls of `VerifyAlignAndStoreResults` in `calls`, made
one after another in list order. -/
def runStoreCalls (MANUAL_TIMESTAMP_CALIBRATION : Bool) (rnd : ℚ → Double) :
    VktFrameProfilerLayer → List StoreCall → VktFrameProfilerLayer
  | layer, [] => layer
  | layer, call :: rest =>
    runStoreCalls MANUAL_TIMESTAMP_CALIBRATION rnd
      (VerifyAlignAndStoreResults MANUAL_TIMESTAMP_CALIBRATION rnd layer call.pQueue
        call.results call.pTimestampPair call.threadID call.frameStartTime).1 rest

/-- The `(threadId, queue, sampleId)` keys of the results of one call. -/
def storeCallKeys (call : StoreCall) : List (Nat × Nat × Nat) :=
  call.results.map (fun r => (call.threadID, call.pQueue, r.measurementInfo.idInfo.sampleId))

/-- The `(threadId, queue, sampleId)` keys of the results of all calls. -/
def storeCallsKeys (calls : List StoreCall) : List (Nat × Nat × Nat) :=
  (calls.map storeCallKeys).flatten

/-- The number of results held by the sample maps of one thread. -/
def queueMapSize (queueMap : QueueWrapperToProfilingResultsMap) : Nat :=
  (queueMap.map (fun queueEntry => queueEntry.2.length)).sum

/-- The number of results held by the result store. -/
def storeSize (layer : VktFrameProfilerLayer) : Nat :=
  (layer.mEntriesWithProfilingResults.map (fun threadEntry => queueMapSize threadEntry.2)).sum

/-- The result as the zero-duration rule of `VerifyAlignAndStoreResults` leaves it. -/
def normalizeZeroDuration (currentResult : ProfilerResult) : ProfilerResult :=
  if currentResult.timestampResult.rawClocks.start =
      currentResult.timestampResult.rawClocks.end_ then
    { currentResult with
      timestampResult :=
        { currentResult.timestampResult with
          rawClocks :=
            { currentResult.timestampResult.rawClocks with
              end_ := (currentResult.timestampResult.rawClocks.end_ + 1) % UINT64_MODULUS } } }
  else currentResult

/-- The copy that `VerifyAlignAndStoreResults` stores for a result it admits. -/
def storedCopy (MANUAL_TIMESTAMP_CALIBRATION : Bool) (rnd : ℚ → Double)
    (pTimestampPair : Option CalibrationTimestampPair) (frameStartTime : ℤ)
    (currentResult : ProfilerResult) : ProfilerResult :=
  CopyProfilerResult newProfilerResult
    (normalizeZeroDuration
      (if MANUAL_TIMESTAMP_CALIBRATION then
        AlignProfilerResultWithCPUTimeline rnd currentResult pTimestampPair frameStartTime
      else (true, currentResult)).2)

/-- The result with its aligned millisecond timestamps set to the given values. -/
def setAlignedTimestamps (r : ProfilerResult) (alignedStart alignedEnd : Double) :
    ProfilerResult :=
  { r with
    timestampResult :=
      { r.timestampResult with
        alignedMillisecondTimestamps := { start := alignedStart, end_ := alignedEnd } } }

/-! ## Sample inputs -/

/-- The result of the end-to-end scenario: sample id 1, raw clocks `(100, 200, 250)`. -/
def scenarioResult : ProfilerResult := mkResult 1 100 200 250

/-- The calibration pair of the end-to-end scenario: CPU frequency `1e9`, CPU
timestamp 1000, GPU timestamp 150, queue frequency `1e6`. -/
def scenarioCalibration : CalibrationTimestampPair :=
  { cpuFrequency := 1000000000, mBeforeExecutionCPUTimestamp := 1000,
    mBeforeExecutionGPUTimestamp := 150, mQueueFrequency := 1000000 }

/-- A calibration pair taken after the sampled command: GPU timestamp 300 at a
queue frequency of `1e6`, CPU timestamp 0. -/
def lateCalibration : CalibrationTimestampPair :=
  { cpuFrequency := 1000000000, mBeforeExecutionCPUTimestamp := 0,
    mBeforeExecutionGPUTimestamp := 300, mQueueFrequency := 1000000 }

/-- A result whose raw `start` and `end` are the adjacent clocks `2 ^ 53` and
`2 ^ 53 + 1`. -/
def adjacentClocksResult : ProfilerResult :=
  mkResult 1 1 9007199254740992 9007199254740993

/-- A calibration pair taken at GPU clock 0 and CPU clock 0, with a queue
frequency of 1000 ticks a second and a CPU frequency of 1. -/
def originCalibration : CalibrationTimestampPair :=
  { cpuFrequency := 1, mBeforeExecutionCPUTimestamp := 0,
    mBeforeExecutionGPUTimestamp := 0, mQueueFrequency := 1000 }

/-- A result whose raw clocks are `(preStart, start, end) = (1, 1, 2)`. -/
def unitClocksResult : ProfilerResult := mkResult 1 1 1 2

/-- A command buffer with profiling enabled whose profiler accepts the
measurement of sample id 1 and refuses every other one; end requests succeed. -/
def oneSlotCmdBuf : VktWrappedCmdBuf :=
  { address := 64, AppHandle := 65, IsProfilingEnabled := true, FillCount := 0,
    BeginCmdMeasurement := fun measurementId =>
      if measurementId.sampleId = 1 then ProfilerResultCode.PROFILER_SUCCESS
      else ProfilerResultCode.PROFILER_FAIL 1,
    EndCmdMeasurement := ProfilerResultCode.PROFILER_SUCCESS }

/-- A new layer after one profiled `vkCmdDraw` on thread 0: `PreCall`, then
`PostCall` with the API entry at address 100. -/
def layerAfterFirstDraw : VktFrameProfilerLayer :=
  (PostCall (PreCall VktFrameProfilerLayer.construct 0 0 FuncId.vkCmdDraw oneSlotCmdBuf).1 0
    { address := 100, m_sampleId := 0 } FuncId.vkCmdDraw oneSlotCmdBuf).1

/-- Two calls that store the scenario result with the scenario calibration pair:
from thread 0 and from thread 1, both for the queue at address 1. -/
def scenarioStoreCalls : List StoreCall :=
  [{ threadID := 0, pQueue := 1, results := [scenarioResult],
     pTimestampPair := some scenarioCalibration, frameStartTime := 0 },
   { threadID := 1, pQueue := 1, results := [scenarioResult],
     pTimestampPair := some scenarioCalibration, frameStartTime := 0 }]

/-! ## Theorems -/

/-- C1: `ValidateProfilerResult` returns true exactly when the three raw clocks
are non-zero and ordered `preStart ≤ start ≤ end`; the two sample triples
`(0, 5, 10)` and `(5, 10, 3)` are rejected. -/
theorem validate_iff_nonzero_ordered :
    (∀ result : ProfilerResult,
      ValidateProfilerResult result = true ↔
        (result.timestampResult.rawClocks.preStart ≠ 0 ∧
         result.timestampResult.rawClocks.start ≠ 0 ∧
         result.timestampResult.rawClocks.end_ ≠ 0) ∧
        result.timestampResult.rawClocks.preStart ≤ result.timestampResult.rawClocks.start ∧
        result.timestampResult.rawClocks.start ≤ result.timestampResult.rawClocks.end_) ∧
    (∀ sampleId, ValidateProfilerResult (mkResult sampleId 0 5 10) = false) ∧
    (∀ sampleId, ValidateProfilerResult (mkResult sampleId 5 10 3) = false) := by
  refine ⟨?_, ?_, ?_⟩
  · intro result
    unfold ValidateProfilerResult
    constructor
    · intro h
      by_cases h0 : result.timestampResult.rawClocks.preStart = 0 ∨
          result.timestampResult.rawClocks.start = 0 ∨
          result.timestampResult.rawClocks.end_ = 0
      · simp [h0] at h
      · by_cases h1 : result.timestampResult.rawClocks.preStart >
            result.timestampResult.rawClocks.start ∨
            result.timestampResult.rawClocks.preStart > result.timestampResult.rawClocks.end_ ∨
            result.timestampResult.rawClocks.start > result.timestampResult.rawClocks.end_
        · simp [h1] at h
        · push_neg at h0 h1
          exact ⟨h0, h1.1, h1.2.2⟩
    · rintro ⟨⟨a, b, c⟩, d, e⟩
      have h0 : ¬ (result.timestampResult.rawClocks.preStart = 0 ∨
          result.timestampResult.rawClocks.start = 0 ∨
          result.timestampResult.rawClocks.end_ = 0) := by
        push_neg; exact ⟨a, b, c⟩
      have h1 : ¬ (result.timestampResult.rawClocks.preStart >
            result.timestampResult.rawClocks.start ∨
            result.timestampResult.rawClocks.preStart > result.timestampResult.rawClocks.end_ ∨
            result.timestampResult.rawClocks.start > result.timestampResult.rawClocks.end_) := by
        push_neg; exact ⟨d, le_trans d e, e⟩
      simp only [h0, h1, if_false]
  · intro sampleId; rfl
  · intro sampleId; rfl

/-! ### Maps -/

theorem mapFind_mapSet_self {K V : Type} [DecidableEq K] (m : List (K × V)) (k : K) (v : V) :
    mapFind (mapSet m k v) k = some v := by
  induction m with
  | nil => simp [mapSet, mapFind]
  | cons kv rest ih =>
    obtain ⟨k', v'⟩ := kv
    by_cases h : k' = k
    · simp [mapSet, mapFind, h]
    · simp [mapSet, mapFind, h, ih]

theorem mapSet_mapSet {K V : Type} [DecidableEq K] (m : List (K × V)) (k : K) (a b : V) :
    mapSet (mapSet m k a) k b = mapSet m k b := by
  induction m with
  | nil => simp [mapSet]
  | cons kv rest ih =>
    obtain ⟨k', v'⟩ := kv
    by_cases hk : k' = k
    · simp [mapSet, hk]
    · simp [mapSet, hk, ih]

theorem mapFind_mapSet_ne {K V : Type} [DecidableEq K] (m : List (K × V)) (k k' : K) (v : V)
    (h : k' ≠ k) : mapFind (mapSet m k v) k' = mapFind m k' := by
  induction m with
  | nil => simp [mapSet, mapFind, Ne.symm h]
  | cons kv rest ih =>
    obtain ⟨k₀, v₀⟩ := kv
    by_cases h₀ : k₀ = k
    · subst h₀
      simp [mapSet, mapFind, Ne.symm h]
    · by_cases h₁ : k₀ = k'
      · subst h₁
        simp [mapSet, mapFind, h₀]
      · simp [mapSet, mapFind, h₀, h₁, ih]

/-! ### The sample map of a `(thread, queue)` across `VerifyAlignAndStoreResults` -/

theorem findOrCreate_snd (layer : VktFrameProfilerLayer) (queue threadId : Nat) :
    (FindOrCreateProfilerResultsMap layer queue threadId).2 =
      some (resultMapOf layer threadId queue) := by
  unfold FindOrCreateProfilerResultsMap resultMapOf mapCount
  cases h : mapFind layer.mEntriesWithProfilingResults threadId with
  | none => simp [mapFind]
  | some queueMap =>
    cases h' : mapFind queueMap queue with
    | none => simp [h']
    | some resultMap => simp [h']

theorem resultMapOf_setResultMap (layer : VktFrameProfilerLayer) (threadId queue : Nat)
    (resultMap : SampleIdToProfilerResultMap) :
    resultMapOf (setResultMap layer threadId queue resultMap) threadId queue = resultMap := by
  simp [resultMapOf, setResultMap, mapFind_mapSet_self]

theorem resultMapOf_verify (cal : Bool) (rnd : ℚ → Double) (layer : VktFrameProfilerLayer)
    (queue : Nat) (results : List ProfilerResult) (pair : Option CalibrationTimestampPair)
    (threadId : Nat) (frameStart : ℤ) :
    resultMapOf (VerifyAlignAndStoreResults cal rnd layer queue results pair threadId
        frameStart).1 threadId queue =
      (verifyAlignAndStoreLoop cal rnd pair frameStart (resultMapOf layer threadId queue)
        results).1 := by
  unfold VerifyAlignAndStoreResults
  simp only [findOrCreate_snd, resultMapOf_setResultMap]

theorem verify_fst (cal : Bool) (rnd : ℚ → Double) (layer : VktFrameProfilerLayer)
    (queue : Nat) (results : List ProfilerResult) (pair : Option CalibrationTimestampPair)
    (threadId : Nat) (frameStart : ℤ) :
    (VerifyAlignAndStoreResults cal rnd layer queue results pair threadId frameStart).1 =
      setResultMap (FindOrCreateProfilerResultsMap layer queue threadId).1 threadId queue
        (verifyAlignAndStoreLoop cal rnd pair frameStart (resultMapOf layer threadId queue)
          results).1 := by
  unfold VerifyAlignAndStoreResults
  simp only [findOrCreate_snd]

theorem loop_append_fst (cal : Bool) (rnd : ℚ → Double)
    (pair : Option CalibrationTimestampPair) (frameStart : ℤ)
    (xs ys : List ProfilerResult) (m : SampleIdToProfilerResultMap) :
    (verifyAlignAndStoreLoop cal rnd pair frameStart m (xs ++ ys)).1 =
      (verifyAlignAndStoreLoop cal rnd pair frameStart
        (verifyAlignAndStoreLoop cal rnd pair frameStart m xs).1 ys).1 := by
  induction xs generalizing m with
  | nil => rfl
  | cons x rest ih =>
    show (verifyAlignAndStoreLoop cal rnd pair frameStart
        (verifyAlignAndStoreOne cal rnd pair frameStart m x).1 (rest ++ ys)).1 = _
    rw [ih]
    rfl

theorem loop_cons_fst (cal : Bool) (rnd : ℚ → Double)
    (pair : Option CalibrationTimestampPair) (frameStart : ℤ)
    (x : ProfilerResult) (ys : List ProfilerResult) (m : SampleIdToProfilerResultMap) :
    (verifyAlignAndStoreLoop cal rnd pair frameStart m (x :: ys)).1 =
      (verifyAlignAndStoreLoop cal rnd pair frameStart
        (verifyAlignAndStoreOne cal rnd pair frameStart m x).1 ys).1 := rfl

theorem one_of_invalid (cal : Bool) (rnd : ℚ → Double)
    (pair : Option CalibrationTimestampPair) (frameStart : ℤ)
    (m : SampleIdToProfilerResultMap) (r : ProfilerResult)
    (h : ValidateProfilerResult r = false) :
    verifyAlignAndStoreOne cal rnd pair frameStart m r = (m, r) := by
  simp [verifyAlignAndStoreOne, h]

/-- Dropping from the vector a result whose loop iteration leaves the sample map
as it found it does not change the layer the call produces. -/
theorem verify_drop (cal : Bool) (rnd : ℚ → Double) (layer : VktFrameProfilerLayer)
    (queue : Nat) (pre post : List ProfilerResult) (r : ProfilerResult)
    (pair : Option CalibrationTimestampPair) (threadId : Nat) (frameStart : ℤ)
    (h : ∀ m, (verifyAlignAndStoreOne cal rnd pair frameStart m r).1 = m) :
    (VerifyAlignAndStoreResults cal rnd layer queue (pre ++ r :: post) pair threadId
        frameStart).1 =
      (VerifyAlignAndStoreResults cal rnd layer queue (pre ++ post) pair threadId
        frameStart).1 := by
  simp only [verify_fst, loop_append_fst, loop_cons_fst, h]

/-- `AlignProfilerResultWithCPUTimeline` in terms of `alignedMillisecond`. -/
theorem align_some (rnd : ℚ → Double) (r : ProfilerResult) (ts : CalibrationTimestampPair)
    (frameStart : ℤ) :
    AlignProfilerResultWithCPUTimeline rnd r (some ts) frameStart =
      if Double.ge (alignedMillisecond rnd ts frameStart r.timestampResult.rawClocks.start)
            (Double.fin 0) &&
          Double.ge (alignedMillisecond rnd ts frameStart r.timestampResult.rawClocks.end_)
            (Double.fin 0) then
        (true,
          { r with
            timestampResult :=
              { r.timestampResult with
                alignedMillisecondTimestamps :=
                  { start := alignedMillisecond rnd ts frameStart
                      r.timestampResult.rawClocks.start,
                    end_ := alignedMillisecond rnd ts frameStart
                      r.timestampResult.rawClocks.end_ } } })
      else (false, r) := rfl

theorem align_none (rnd : ℚ → Double) (r : ProfilerResult) (frameStart : ℤ) :
    AlignProfilerResultWithCPUTimeline rnd r none frameStart = (false, r) := rfl

theorem ge_false_of_lt (x y : Double) (h : Double.lt x y = true) : Double.ge x y = false := by
  cases x <;> cases y <;> simp_all [Double.lt, Double.ge, Double.le]

/-! ### Stored results -/

/-- C2: the result `(preStart, start, end) = (1, 2^64 - 1, 2^64 - 1)` passes
`ValidateProfilerResult`, and `VerifyAlignAndStoreResults` stores it with
`end = 0`: the increment of the zero-duration rule wraps around, so the stored
copy has a zero raw clock and `start > end`. -/
theorem stored_result_with_zero_end :
    ValidateProfilerResult (mkResult 7 1 (2 ^ 64 - 1) (2 ^ 64 - 1)) = true ∧
    (resultMapOf
        (VerifyAlignAndStoreResults false exactRounding VktFrameProfilerLayer.construct 1
          [mkResult 7 1 (2 ^ 64 - 1) (2 ^ 64 - 1)] none 0 0).1 0 1).map
        (fun kv => (kv.1, kv.2.timestampResult.rawClocks)) =
      [(7, { preStart := 1, start := 2 ^ 64 - 1, end_ := 0 })] := by
  constructor
  · decide
  · rw [resultMapOf_verify]
    decide

/-- C3: the result `(preStart, start, end) = (2^64 - 1, 2^64 - 1, 2^64 - 1)` passes
`ValidateProfilerResult` with `start = end`, and `VerifyAlignAndStoreResults`
stores it with `end = 0`, which is not `start + 1`; the result `(1, 1, 1)` is
stored with `end = 2`. -/
theorem zero_duration_at_largest_clock :
    ValidateProfilerResult (mkResult 9 (2 ^ 64 - 1) (2 ^ 64 - 1) (2 ^ 64 - 1)) = true ∧
    (resultMapOf
        (VerifyAlignAndStoreResults false exactRounding VktFrameProfilerLayer.construct 1
          [mkResult 9 (2 ^ 64 - 1) (2 ^ 64 - 1) (2 ^ 64 - 1)] none 0 0).1 0 1).map
        (fun kv => (kv.1, kv.2.timestampResult.rawClocks)) =
      [(9, { preStart := 2 ^ 64 - 1, start := 2 ^ 64 - 1, end_ := 0 })] ∧
    (0 : Nat) ≠ (2 ^ 64 - 1) + 1 ∧
    (resultMapOf
        (VerifyAlignAndStoreResults false exactRounding VktFrameProfilerLayer.construct 1
          [mkResult 9 1 1 1] none 0 0).1 0 1).map
        (fun kv => (kv.1, kv.2.timestampResult.rawClocks)) =
      [(9, { preStart := 1, start := 1, end_ := 2 })] := by
  refine ⟨by decide, ?_, by decide, ?_⟩
  · rw [resultMapOf_verify]
    decide
  · rw [resultMapOf_verify]
    decide

/-- C4: a result that fails `ValidateProfilerResult` leaves the sample map of its
loop iteration as it was, and the layer `VerifyAlignAndStoreResults` produces is
the one it produces for the vector without that result; so is in particular
what is stored under the result's sample id. -/
theorem rejected_result_not_stored (cal : Bool) (rnd : ℚ → Double)
    (layer : VktFrameProfilerLayer) (queue : Nat) (pre post : List ProfilerResult)
    (r : ProfilerResult) (pair : Option CalibrationTimestampPair) (threadId : Nat)
    (frameStart : ℤ) (h : ValidateProfilerResult r = false) :
    (∀ m, (verifyAlignAndStoreOne cal rnd pair frameStart m r).1 = m) ∧
    (VerifyAlignAndStoreResults cal rnd layer queue (pre ++ r :: post) pair threadId
        frameStart).1 =
      (VerifyAlignAndStoreResults cal rnd layer queue (pre ++ post) pair threadId
        frameStart).1 ∧
    mapFind
        (resultMapOf
          (VerifyAlignAndStoreResults cal rnd layer queue (pre ++ r :: post) pair threadId
            frameStart).1 threadId queue)
        r.measurementInfo.idInfo.sampleId =
      mapFind
        (resultMapOf
          (VerifyAlignAndStoreResults cal rnd layer queue (pre ++ post) pair threadId
            frameStart).1 threadId queue)
        r.measurementInfo.idInfo.sampleId := by
  have h1 : ∀ m, (verifyAlignAndStoreOne cal rnd pair frameStart m r).1 = m := by
    intro m
    rw [one_of_invalid cal rnd pair frameStart m r h]
  have h2 := verify_drop cal rnd layer queue pre post r pair threadId frameStart h1
  exact ⟨h1, h2, by rw [h2]⟩

/-- Witness of C4: the rejected result `(0, 5, 10)` with sample id 2 between two
valid results, on a new layer. -/
theorem rejected_result_not_stored_witness :
    (∀ m, (verifyAlignAndStoreOne false exactRounding none 0 m (mkResult 2 0 5 10)).1 = m) ∧
    (VerifyAlignAndStoreResults false exactRounding VktFrameProfilerLayer.construct 1
        ([mkResult 1 1 2 3] ++ mkResult 2 0 5 10 :: [mkResult 3 4 5 6]) none 0 0).1 =
      (VerifyAlignAndStoreResults false exactRounding VktFrameProfilerLayer.construct 1
        ([mkResult 1 1 2 3] ++ [mkResult 3 4 5 6]) none 0 0).1 ∧
    mapFind
        (resultMapOf
          (VerifyAlignAndStoreResults false exactRounding VktFrameProfilerLayer.construct 1
            ([mkResult 1 1 2 3] ++ mkResult 2 0 5 10 :: [mkResult 3 4 5 6]) none 0 0).1 0 1)
        (mkResult 2 0 5 10).measurementInfo.idInfo.sampleId =
      mapFind
        (resultMapOf
          (VerifyAlignAndStoreResults false exactRounding VktFrameProfilerLayer.construct 1
            ([mkResult 1 1 2 3] ++ [mkResult 3 4 5 6]) none 0 0).1 0 1)
        (mkResult 2 0 5 10).measurementInfo.idInfo.sampleId :=
  rejected_result_not_stored false exactRounding VktFrameProfilerLayer.construct 1
    [mkResult 1 1 2 3] [mkResult 3 4 5 6] (mkResult 2 0 5 10) none 0 0 (by decide)

/-! ### Alignment -/

/-- In exact arithmetic and with non-zero frequencies `alignedMillisecond` is the
alignment formula. -/
theorem alignedMillisecond_exact (ts : CalibrationTimestampPair) (frameStart : ℤ)
    (clock : Nat) (hq : ts.mQueueFrequency ≠ 0) (hc : ts.cpuFrequency ≠ 0) :
    alignedMillisecond exactRounding ts frameStart clock =
      Double.fin
        (((clock : ℚ) * 1000 / (ts.mQueueFrequency : ℚ) -
            (ts.mBeforeExecutionGPUTimestamp : ℚ) * 1000 / (ts.mQueueFrequency : ℚ)) +
          (ts.mBeforeExecutionCPUTimestamp : ℚ) * 1000 / (ts.cpuFrequency : ℚ) -
          (frameStart : ℚ) * 1000 / (ts.cpuFrequency : ℚ)) := by
  have hq' : (ts.mQueueFrequency : ℚ) ≠ 0 := by exact_mod_cast hq
  have hc' : (ts.cpuFrequency : ℚ) ≠ 0 := by exact_mod_cast hc
  simp [alignedMillisecond, Double.ofInt, exactRounding, Double.mul, Double.div, Double.sub,
    Double.add, hq', hc']

/-- C5: in exact arithmetic and with non-zero clock frequencies, when
`AlignProfilerResultWithCPUTimeline` returns true the aligned timestamps it
has written are
`(clock*1000/queueFreq - calGpu*1000/queueFreq) + calCpu*1000/cpuFreq - frameStart*1000/cpuFreq`
for `clock = start` and `clock = end`, and the raw clocks and the measurement
info are unchanged. -/
theorem aligned_timestamps_exact (r : ProfilerResult) (ts : CalibrationTimestampPair)
    (frameStart : ℤ) (hq : ts.mQueueFrequency ≠ 0) (hc : ts.cpuFrequency ≠ 0)
    (h : (AlignProfilerResultWithCPUTimeline exactRounding r (some ts) frameStart).1 = true) :
    (AlignProfilerResultWithCPUTimeline exactRounding r (some ts)
        frameStart).2.timestampResult.alignedMillisecondTimestamps.start =
      Double.fin
        (((r.timestampResult.rawClocks.start : ℚ) * 1000 / (ts.mQueueFrequency : ℚ) -
            (ts.mBeforeExecutionGPUTimestamp : ℚ) * 1000 / (ts.mQueueFrequency : ℚ)) +
          (ts.mBeforeExecutionCPUTimestamp : ℚ) * 1000 / (ts.cpuFrequency : ℚ) -
          (frameStart : ℚ) * 1000 / (ts.cpuFrequency : ℚ)) ∧
    (AlignProfilerResultWithCPUTimeline exactRounding r (some ts)
        frameStart).2.timestampResult.alignedMillisecondTimestamps.end_ =
      Double.fin
        (((r.timestampResult.rawClocks.end_ : ℚ) * 1000 / (ts.mQueueFrequency : ℚ) -
            (ts.mBeforeExecutionGPUTimestamp : ℚ) * 1000 / (ts.mQueueFrequency : ℚ)) +
          (ts.mBeforeExecutionCPUTimestamp : ℚ) * 1000 / (ts.cpuFrequency : ℚ) -
          (frameStart : ℚ) * 1000 / (ts.cpuFrequency : ℚ)) ∧
    (AlignProfilerResultWithCPUTimeline exactRounding r (some ts)
        frameStart).2.timestampResult.rawClocks = r.timestampResult.rawClocks ∧
    (AlignProfilerResultWithCPUTimeline exactRounding r (some ts)
        frameStart).2.measurementInfo = r.measurementInfo := by
  rw [align_some] at h ⊢
  split at h
  · rw [if_pos (by assumption)]
    refine ⟨alignedMillisecond_exact ts frameStart _ hq hc,
      alignedMillisecond_exact ts frameStart _ hq hc, rfl, rfl⟩
  · simp at h

/-- Witness of C5: the scenario result `(100, 200, 250)` under the scenario
calibration pair and frame start 0. -/
theorem aligned_timestamps_exact_witness :
    (AlignProfilerResultWithCPUTimeline exactRounding scenarioResult (some scenarioCalibration)
        0).1 = true ∧
    (AlignProfilerResultWithCPUTimeline exactRounding scenarioResult (some scenarioCalibration)
        0).2.timestampResult.alignedMillisecondTimestamps.start =
      Double.fin
        (((scenarioResult.timestampResult.rawClocks.start : ℚ) * 1000 /
              (scenarioCalibration.mQueueFrequency : ℚ) -
            (scenarioCalibration.mBeforeExecutionGPUTimestamp : ℚ) * 1000 /
              (scenarioCalibration.mQueueFrequency : ℚ)) +
          (scenarioCalibration.mBeforeExecutionCPUTimestamp : ℚ) * 1000 /
            (scenarioCalibration.cpuFrequency : ℚ) -
          ((0 : ℤ) : ℚ) * 1000 / (scenarioCalibration.cpuFrequency : ℚ)) ∧
    (AlignProfilerResultWithCPUTimeline exactRounding scenarioResult (some scenarioCalibration)
        0).2.timestampResult.alignedMillisecondTimestamps.end_ =
      Double.fin
        (((scenarioResult.timestampResult.rawClocks.end_ : ℚ) * 1000 /
              (scenarioCalibration.mQueueFrequency : ℚ) -
            (scenarioCalibration.mBeforeExecutionGPUTimestamp : ℚ) * 1000 /
              (scenarioCalibration.mQueueFrequency : ℚ)) +
          (scenarioCalibration.mBeforeExecutionCPUTimestamp : ℚ) * 1000 /
            (scenarioCalibration.cpuFrequency : ℚ) -
          ((0 : ℤ) : ℚ) * 1000 / (scenarioCalibration.cpuFrequency : ℚ)) ∧
    (AlignProfilerResultWithCPUTimeline exactRounding scenarioResult (some scenarioCalibration)
        0).2.timestampResult.rawClocks = scenarioResult.timestampResult.rawClocks ∧
    (AlignProfilerResultWithCPUTimeline exactRounding scenarioResult (some scenarioCalibration)
        0).2.measurementInfo = scenarioResult.measurementInfo := by
  have h : (AlignProfilerResultWithCPUTimeline exactRounding scenarioResult
      (some scenarioCalibration) 0).1 = true := by
    rw [align_some, alignedMillisecond_exact _ _ _ (by decide) (by decide),
      alignedMillisecond_exact _ _ _ (by decide) (by decide)]
    simp [Double.ge, Double.le, scenarioResult, scenarioCalibration, mkResult]
    norm_num
  exact ⟨h, aligned_timestamps_exact scenarioResult scenarioCalibration 0 (by decide)
    (by decide) h⟩

/-- C6: `AlignProfilerResultWithCPUTimeline` returns false and leaves the result
as it was, aligned timestamps included, when no calibration pair is supplied
and when the `alignedStart` or the `alignedEnd` it computes is negative; with
calibration compiled in, `VerifyAlignAndStoreResults` then produces the layer it
produces for the vector without that result. -/
theorem align_fails_on_negative (rnd : ℚ → Double) (r : ProfilerResult)
    (pTimestamps : Option CalibrationTimestampPair) (frameStart : ℤ)
    (h : pTimestamps = none ∨
      ∃ ts, pTimestamps = some ts ∧
        (Double.lt (alignedMillisecond rnd ts frameStart r.timestampResult.rawClocks.start)
            (Double.fin 0) = true ∨
         Double.lt (alignedMillisecond rnd ts frameStart r.timestampResult.rawClocks.end_)
            (Double.fin 0) = true)) :
    AlignProfilerResultWithCPUTimeline rnd r pTimestamps frameStart = (false, r) ∧
    ∀ (layer : VktFrameProfilerLayer) (queue threadId : Nat) (pre post : List ProfilerResult),
      (VerifyAlignAndStoreResults true rnd layer queue (pre ++ r :: post) pTimestamps threadId
          frameStart).1 =
        (VerifyAlignAndStoreResults true rnd layer queue (pre ++ post) pTimestamps threadId
          frameStart).1 := by
  have hfail : AlignProfilerResultWithCPUTimeline rnd r pTimestamps frameStart = (false, r) := by
    rcases h with h | ⟨ts, hts, h⟩
    · subst h
      rfl
    · subst hts
      rw [align_some]
      rcases h with h | h
      · simp [ge_false_of_lt _ _ h]
      · simp [ge_false_of_lt _ _ h]
  refine ⟨hfail, ?_⟩
  intro layer queue threadId pre post
  apply verify_drop
  intro m
  unfold verifyAlignAndStoreOne
  by_cases hv : ValidateProfilerResult r = true
  · simp [hv, hfail]
  · simp [hv]

/-- Witness of C6: the scenario result `(100, 200, 250)` against a calibration
pair whose GPU timestamp 300 lies after it; `alignedStart` is `-0.1`. -/
theorem align_fails_on_negative_witness :
    Double.lt
        (alignedMillisecond exactRounding lateCalibration 0
          scenarioResult.timestampResult.rawClocks.start) (Double.fin 0) = true ∧
    AlignProfilerResultWithCPUTimeline exactRounding scenarioResult (some lateCalibration) 0 =
      (false, scenarioResult) ∧
    ∀ (layer : VktFrameProfilerLayer) (queue threadId : Nat) (pre post : List ProfilerResult),
      (VerifyAlignAndStoreResults true exactRounding layer queue (pre ++ scenarioResult :: post)
          (some lateCalibration) threadId 0).1 =
        (VerifyAlignAndStoreResults true exactRounding layer queue (pre ++ post)
          (some lateCalibration) threadId 0).1 := by
  have h : Double.lt
      (alignedMillisecond exactRounding lateCalibration 0
        scenarioResult.timestampResult.rawClocks.start) (Double.fin 0) = true := by
    rw [alignedMillisecond_exact _ _ _ (by decide) (by decide)]
    simp [Double.lt, scenarioResult, lateCalibration, mkResult]
    norm_num
  exact ⟨h, align_fails_on_negative exactRounding scenarioResult (some lateCalibration) 0
    (Or.inr ⟨lateCalibration, rfl, Or.inl h⟩)⟩

/-! ### Results and API entries -/

theorem one_mem_iff (cal : Bool) (rnd : ℚ → Double) (pair : Option CalibrationTimestampPair)
    (frameStart : ℤ) (m : SampleIdToProfilerResultMap) (x : ProfilerResult) (k : Nat) :
    (∃ r, mapFind (verifyAlignAndStoreOne cal rnd pair frameStart m x).1 k = some r) ↔
      (∃ r, mapFind m k = some r) ∨
      (x.measurementInfo.idInfo.sampleId = k ∧ ValidateProfilerResult x = true ∧
        (cal = true → (AlignProfilerResultWithCPUTimeline rnd x pair frameStart).1 = true)) := by
  unfold verifyAlignAndStoreOne
  by_cases hv : ValidateProfilerResult x = true
  · by_cases hs :
        (if cal = true then AlignProfilerResultWithCPUTimeline rnd x pair frameStart
          else (true, x)).1 = true
    · have hal : cal = true →
          (AlignProfilerResultWithCPUTimeline rnd x pair frameStart).1 = true := by
        intro hc
        simpa [hc] using hs
      simp only [hv, hs, if_true]
      by_cases hk : x.measurementInfo.idInfo.sampleId = k
      · subst hk
        rw [mapFind_mapSet_self]
        exact ⟨fun _ => Or.inr ⟨rfl, trivial, hal⟩, fun _ => ⟨_, rfl⟩⟩
      · rw [mapFind_mapSet_ne _ _ _ _ (Ne.symm hk)]
        exact ⟨Or.inl, fun h => h.elim id (fun h' => absurd h'.1 hk)⟩
    · have hal : ¬ (cal = true →
          (AlignProfilerResultWithCPUTimeline rnd x pair frameStart).1 = true) := by
        intro hc
        apply hs
        by_cases hcal : cal = true
        · simpa [hcal] using hc hcal
        · simp [hcal]
      simp only [hv, hs, if_true]
      exact ⟨Or.inl, fun h => h.elim id (fun h' => absurd h'.2.2 hal)⟩
  · simp [hv]

theorem loop_mem_iff (cal : Bool) (rnd : ℚ → Double) (pair : Option CalibrationTimestampPair)
    (frameStart : ℤ) (results : List ProfilerResult) (m : SampleIdToProfilerResultMap)
    (k : Nat) :
    (∃ r, mapFind (verifyAlignAndStoreLoop cal rnd pair frameStart m results).1 k = some r) ↔
      (∃ r, mapFind m k = some r) ∨
      ∃ x ∈ results, x.measurementInfo.idInfo.sampleId = k ∧ ValidateProfilerResult x = true ∧
        (cal = true → (AlignProfilerResultWithCPUTimeline rnd x pair frameStart).1 = true) := by
  induction results generalizing m with
  | nil => simp [verifyAlignAndStoreLoop]
  | cons x rest ih =>
    rw [loop_cons_fst, ih, one_mem_iff, or_assoc]
    simp only [List.mem_cons, exists_eq_or_imp]

theorem resultMapOf_findOrCreate (layer : VktFrameProfilerLayer) (queue threadId : Nat)
    (threadId' queue' : Nat) :
    resultMapOf (FindOrCreateProfilerResultsMap layer queue threadId).1 threadId' queue' =
      resultMapOf layer threadId' queue' := by
  unfold FindOrCreateProfilerResultsMap resultMapOf mapCount mapInsert
  cases h : mapFind layer.mEntriesWithProfilingResults threadId with
  | none =>
    by_cases ht : threadId' = threadId
    · subst ht
      by_cases hq : queue = queue'
      · simp [mapFind, mapSet, mapFind_mapSet_self, h, hq]
      · simp [mapFind, mapSet, mapFind_mapSet_self, h, hq]
    · simp [mapFind, mapSet, mapFind_mapSet_ne _ _ _ _ ht]
  | some queueMap =>
    cases h' : mapFind queueMap queue with
    | some resultMap => simp [h']
    | none =>
      by_cases ht : threadId' = threadId
      · subst ht
        by_cases hq : queue' = queue
        · subst hq
          simp [h', h, mapFind_mapSet_self]
        · simp [h', h, mapFind_mapSet_self, mapFind_mapSet_ne _ _ _ _ hq]
      · simp [h', mapFind_mapSet_ne _ _ _ _ ht]

theorem resultMapOf_setResultMap_ne (layer : VktFrameProfilerLayer) (threadId queue : Nat)
    (resultMap : SampleIdToProfilerResultMap) (threadId' queue' : Nat)
    (h : ¬ (threadId' = threadId ∧ queue' = queue)) :
    resultMapOf (setResultMap layer threadId queue resultMap) threadId' queue' =
      resultMapOf layer threadId' queue' := by
  unfold resultMapOf setResultMap
  by_cases ht : threadId' = threadId
  · subst ht
    have hq : queue' ≠ queue := fun hq => h ⟨rfl, hq⟩
    simp [mapFind_mapSet_self, mapFind_mapSet_ne _ _ _ _ hq]
  · simp [mapFind_mapSet_ne _ _ _ _ ht]

theorem resultMapOf_verify_ne (cal : Bool) (rnd : ℚ → Double) (layer : VktFrameProfilerLayer)
    (queue : Nat) (results : List ProfilerResult) (pair : Option CalibrationTimestampPair)
    (threadId : Nat) (frameStart : ℤ) (threadId' queue' : Nat)
    (h : ¬ (threadId' = threadId ∧ queue' = queue)) :
    resultMapOf (VerifyAlignAndStoreResults cal rnd layer queue results pair threadId
        frameStart).1 threadId' queue' = resultMapOf layer threadId' queue' := by
  rw [verify_fst, resultMapOf_setResultMap_ne _ _ _ _ _ _ h, resultMapOf_findOrCreate]

theorem verify_mSampleIdToEntry (cal : Bool) (rnd : ℚ → Double)
    (layer : VktFrameProfilerLayer) (queue : Nat) (results : List ProfilerResult)
    (pair : Option CalibrationTimestampPair) (threadId : Nat) (frameStart : ℤ) :
    (VerifyAlignAndStoreResults cal rnd layer queue results pair threadId
        frameStart).1.mSampleIdToEntry = layer.mSampleIdToEntry := by
  rw [verify_fst]
  show (FindOrCreateProfilerResultsMap layer queue threadId).1.mSampleIdToEntry = _
  unfold FindOrCreateProfilerResultsMap
  by_cases h : mapCount layer.mEntriesWithProfilingResults threadId = 0
  · simp [h]
  · simp only [h, if_false]
    cases mapFind ((mapFind layer.mEntriesWithProfilingResults threadId).getD []) queue <;> rfl

/-- C8, counterexample: on a new layer, `VerifyAlignAndStoreResults` stores the
valid result with sample id 7 although no `PreCall` or `PostCall` ran and no API
entry is tagged with any sample id; and after a `PreCall` and `PostCall` that
both succeeded for sample id 1 (the entry at address 100 is stored under it),
the valid result with sample id 1 is not stored when its alignment fails. -/
theorem result_stored_without_api_entry :
    (ValidateProfilerResult (mkResult 7 1 2 3) = true ∧
      hasResult
        (VerifyAlignAndStoreResults false exactRounding VktFrameProfilerLayer.construct 1
          [mkResult 7 1 2 3] none 0 0).1 0 1 7 = true ∧
      ∀ sampleId,
        FindInvocationBySampleId
          (VerifyAlignAndStoreResults false exactRounding VktFrameProfilerLayer.construct 1
            [mkResult 7 1 2 3] none 0 0).1 sampleId = none) ∧
    (FindInvocationBySampleId layerAfterFirstDraw 1 = some { address := 100, m_sampleId := 1 } ∧
      ValidateProfilerResult scenarioResult = true ∧
      ∀ threadId queue sampleId,
        hasResult
          (VerifyAlignAndStoreResults true exactRounding layerAfterFirstDraw 1 [scenarioResult]
            (some lateCalibration) 0 0).1 threadId queue sampleId = false) := by
  refine ⟨⟨by decide, ?_, ?_⟩, by decide, by decide, ?_⟩
  · unfold hasResult
    rw [resultMapOf_verify]
    decide
  · intro sampleId
    unfold FindInvocationBySampleId
    rw [verify_mSampleIdToEntry]
    rfl
  · intro threadId queue sampleId
    have hneg : Double.lt
        (alignedMillisecond exactRounding lateCalibration 0
          scenarioResult.timestampResult.rawClocks.start) (Double.fin 0) = true := by
      rw [alignedMillisecond_exact _ _ _ (by decide) (by decide)]
      simp [Double.lt, scenarioResult, lateCalibration, mkResult]
      norm_num
    have hfail : AlignProfilerResultWithCPUTimeline exactRounding scenarioResult
        (some lateCalibration) 0 = (false, scenarioResult) := by
      rw [align_some]
      simp [ge_false_of_lt _ _ hneg]
    have hempty : ∀ t q, resultMapOf layerAfterFirstDraw t q = [] := by
      intro t q
      rfl
    unfold hasResult
    by_cases h : threadId = 0 ∧ queue = 1
    · obtain ⟨rfl, rfl⟩ := h
      rw [resultMapOf_verify, hempty]
      simp [verifyAlignAndStoreLoop, verifyAlignAndStoreOne, hfail, mapFind]
    · rw [resultMapOf_verify_ne _ _ _ _ _ _ _ _ _ _ h, hempty]
      rfl

/-- C8, amended: after `VerifyAlignAndStoreResults` the sample map of the call's
`(thread, queue)` holds a result under a sample id exactly when it held one
before or the vector has a result with that sample id that passes
`ValidateProfilerResult` and, with calibration compiled in, for which
`AlignProfilerResultWithCPUTimeline` returns true; the sample maps of the other
`(thread, queue)` pairs and the API entries are as before, and the API entries
are not consulted. -/
theorem result_stored_iff (cal : Bool) (rnd : ℚ → Double) (layer : VktFrameProfilerLayer)
    (queue : Nat) (results : List ProfilerResult) (pair : Option CalibrationTimestampPair)
    (threadId : Nat) (frameStart : ℤ) (sampleId : Nat) :
    (hasResult
        (VerifyAlignAndStoreResults cal rnd layer queue results pair threadId frameStart).1
        threadId queue sampleId = true ↔
      hasResult layer threadId queue sampleId = true ∨
      ∃ x ∈ results, x.measurementInfo.idInfo.sampleId = sampleId ∧
        ValidateProfilerResult x = true ∧
        (cal = true → (AlignProfilerResultWithCPUTimeline rnd x pair frameStart).1 = true)) ∧
    (∀ threadId' queue', ¬ (threadId' = threadId ∧ queue' = queue) →
      hasResult
          (VerifyAlignAndStoreResults cal rnd layer queue results pair threadId frameStart).1
          threadId' queue' sampleId =
        hasResult layer threadId' queue' sampleId) ∧
    (VerifyAlignAndStoreResults cal rnd layer queue results pair threadId
        frameStart).1.mSampleIdToEntry = layer.mSampleIdToEntry := by
  refine ⟨?_, ?_, verify_mSampleIdToEntry cal rnd layer queue results pair threadId frameStart⟩
  · unfold hasResult
    rw [resultMapOf_verify, Option.isSome_iff_exists, Option.isSome_iff_exists]
    exact loop_mem_iff cal rnd pair frameStart results _ sampleId
  · intro threadId' queue' h
    unfold hasResult
    rw [resultMapOf_verify_ne _ _ _ _ _ _ _ _ _ _ h]

/-! ### PreCall and PostCall -/

/-- C10: `PostCall` requests `EndCmdMeasurement` only when the command buffer has
profiling enabled, the filter allows the function and the thread's
`mbBeginSampleSuccessful` is true; when that flag is false no end measurement is
requested, the API entry and the entry store are as before, and on the path
that reaches the flag the anomaly is logged. -/
theorem postcall_end_only_after_begin (layer : VktFrameProfilerLayer) (threadId : Nat)
    (pNewAPIEntry : VktAPIEntry) (inFuncId : FuncId) (pWrappedCmdBuf : VktWrappedCmdBuf) :
    ((∃ cmdBuf, ProfilerEvent.endCmdMeasurement cmdBuf ∈
          (PostCall layer threadId pNewAPIEntry inFuncId pWrappedCmdBuf).2.2) →
      pWrappedCmdBuf.IsProfilingEnabled = true ∧ ShouldProfileFunction layer inFuncId = true ∧
      ∃ info, (GetSampleInfoForThread layer threadId).2 = some info ∧
        info.mbBeginSampleSuccessful = true) ∧
    ((∀ info, (GetSampleInfoForThread layer threadId).2 = some info →
        info.mbBeginSampleSuccessful = false) →
      (∀ cmdBuf, ProfilerEvent.endCmdMeasurement cmdBuf ∉
          (PostCall layer threadId pNewAPIEntry inFuncId pWrappedCmdBuf).2.2) ∧
      (PostCall layer threadId pNewAPIEntry inFuncId pWrappedCmdBuf).2.1 = pNewAPIEntry ∧
      (PostCall layer threadId pNewAPIEntry inFuncId pWrappedCmdBuf).1.mSampleIdToEntry =
        layer.mSampleIdToEntry ∧
      (pWrappedCmdBuf.IsProfilingEnabled = true → ShouldProfileFunction layer inFuncId = true →
        (PostCall layer threadId pNewAPIEntry inFuncId pWrappedCmdBuf).2.2 =
          [ProfilerEvent.logError LogMessage.beginMeasurementNotSuccessful])) := by
  have hentries : (GetSampleInfoForThread layer threadId).1.mSampleIdToEntry =
      layer.mSampleIdToEntry := by
    unfold GetSampleInfoForThread
    cases mapFind layer.mSampleInfos threadId <;> rfl
  have hsome : ∃ info, (GetSampleInfoForThread layer threadId).2 = some info := by
    unfold GetSampleInfoForThread
    cases mapFind layer.mSampleInfos threadId <;> exact ⟨_, rfl⟩
  obtain ⟨info, hinfo⟩ := hsome
  unfold PostCall
  by_cases hgate : (pWrappedCmdBuf.IsProfilingEnabled && ShouldProfileFunction layer inFuncId) = true
  · have hgate' := hgate
    rw [Bool.and_eq_true] at hgate'
    simp only [hgate, if_true, hinfo]
    by_cases hflag : info.mbBeginSampleSuccessful = true
    · refine ⟨fun _ => ⟨hgate'.1, hgate'.2, info, rfl, hflag⟩, fun h => ?_⟩
      have := h info rfl
      rw [hflag] at this
      exact absurd this (by decide)
    · simp only [hflag, if_false]
      refine ⟨fun h => ?_, fun _ => ⟨?_, rfl, hentries, fun _ _ => rfl⟩⟩
      · obtain ⟨c, hc⟩ := h
        simp at hc
      · intro c hc
        simp at hc
  · simp only [hgate, if_false]
    refine ⟨fun h => ?_, fun _ => ⟨?_, rfl, rfl, fun h1 h2 => ?_⟩⟩
    · obtain ⟨c, hc⟩ := h
      simp at hc
    · intro c hc
      simp at hc
    · exact absurd (by rw [h1, h2]; rfl) hgate

/-! ### Rounding to the nearest integer -/

theorem roundHalfEven_intCast (n : ℤ) : roundHalfEven (n : ℚ) = n := by
  simp [roundHalfEven]

theorem floor_le_roundHalfEven (x : ℚ) : ⌊x⌋ ≤ roundHalfEven x := by
  unfold roundHalfEven
  simp only
  split_ifs <;> omega

theorem roundHalfEven_le_floor_add_one (x : ℚ) : roundHalfEven x ≤ ⌊x⌋ + 1 := by
  unfold roundHalfEven
  simp only
  split_ifs <;> omega

theorem roundHalfEven_mono {x y : ℚ} (h : x ≤ y) : roundHalfEven x ≤ roundHalfEven y := by
  have hfl : ⌊x⌋ ≤ ⌊y⌋ := Int.floor_mono h
  rcases lt_or_eq_of_le hfl with hlt | heq
  · calc roundHalfEven x ≤ ⌊x⌋ + 1 := roundHalfEven_le_floor_add_one x
      _ ≤ ⌊y⌋ := hlt
      _ ≤ roundHalfEven y := floor_le_roundHalfEven y
  · have hxy : x - ⌊x⌋ ≤ y - ⌊y⌋ := by
      rw [heq]
      linarith
    unfold roundHalfEven
    simp only
    rw [heq] at hxy ⊢
    split_ifs <;> first | omega | (exfalso; linarith)

theorem le_roundHalfEven {n : ℤ} {x : ℚ} (h : (n : ℚ) ≤ x) : n ≤ roundHalfEven x := by
  have := roundHalfEven_mono h
  rwa [roundHalfEven_intCast] at this

theorem roundHalfEven_le {n : ℤ} {x : ℚ} (h : x ≤ (n : ℚ)) : roundHalfEven x ≤ n := by
  have := roundHalfEven_mono h
  rwa [roundHalfEven_intCast] at this

/-! ### Rounding to binary64 -/

theorem two_zpow_pos (e : ℤ) : (0 : ℚ) < 2 ^ e := zpow_pos (by norm_num) e

theorem two_zpow_le {m n : ℤ} (h : m ≤ n) : (2 : ℚ) ^ m ≤ 2 ^ n :=
  zpow_le_zpow_right₀ (by norm_num) h

theorem ulpExponent_mono {a b : ℚ} (ha : 0 < a) (h : a ≤ b) : ulpExponent a ≤ ulpExponent b := by
  unfold ulpExponent
  have := Int.log_mono_right (b := 2) ha h
  omega

theorem lt_zpow_ulpExponent (a : ℚ) : a < 2 ^ (ulpExponent a + 53) := by
  have h1 : a < (2 : ℚ) ^ (Int.log 2 a + 1) := by
    have := Int.lt_zpow_succ_log_self (b := 2) (by norm_num) a
    simpa using this
  have h2 : (2 : ℚ) ^ (Int.log 2 a + 1) ≤ 2 ^ (ulpExponent a + 53) := by
    apply two_zpow_le
    unfold ulpExponent
    omega
  exact lt_of_lt_of_le h1 h2

theorem zpow_ulpExponent_le {a : ℚ} (ha : 0 < a) (h : -1074 < ulpExponent a) :
    (2 : ℚ) ^ (ulpExponent a + 52) ≤ a := by
  have h1 : (2 : ℚ) ^ (Int.log 2 a) ≤ a := by
    have := Int.zpow_log_le_self (b := 2) (by norm_num) ha
    simpa using this
  have h2 : ulpExponent a + 52 = Int.log 2 a := by
    unfold ulpExponent at h ⊢
    omega
  rw [h2]
  exact h1

theorem roundToUlp_nonneg {q : ℚ} (h : 0 ≤ q) : 0 ≤ roundToUlp q := by
  unfold roundToUlp
  simp only
  have h0 : ((0 : ℤ) : ℚ) ≤ q / 2 ^ ulpExponent |q| := by
    simpa using div_nonneg h (le_of_lt (two_zpow_pos _))
  have := le_roundHalfEven h0
  have h1 : (0 : ℚ) ≤ (roundHalfEven (q / 2 ^ ulpExponent |q|) : ℚ) := by exact_mod_cast this
  exact mul_nonneg h1 (le_of_lt (two_zpow_pos _))

theorem roundToUlp_nonpos {q : ℚ} (h : q ≤ 0) : roundToUlp q ≤ 0 := by
  unfold roundToUlp
  simp only
  have h0 : q / 2 ^ ulpExponent |q| ≤ ((0 : ℤ) : ℚ) := by
    simpa using div_nonpos_of_nonpos_of_nonneg h (le_of_lt (two_zpow_pos _))
  have := roundHalfEven_le h0
  have h1 : (roundHalfEven (q / 2 ^ ulpExponent |q|) : ℚ) ≤ 0 := by exact_mod_cast this
  exact mul_nonpos_of_nonpos_of_nonneg h1 (le_of_lt (two_zpow_pos _))

/-- With a common exponent the rounding is monotone. -/
theorem roundAt_mono (e : ℤ) {x y : ℚ} (h : x ≤ y) :
    (roundHalfEven (x / 2 ^ e) : ℚ) * 2 ^ e ≤ (roundHalfEven (y / 2 ^ e) : ℚ) * 2 ^ e := by
  have h1 : x / 2 ^ e ≤ y / 2 ^ e := div_le_div_of_nonneg_right h (le_of_lt (two_zpow_pos e))
  have h2 : (roundHalfEven (x / 2 ^ e) : ℚ) ≤ (roundHalfEven (y / 2 ^ e) : ℚ) := by
    exact_mod_cast roundHalfEven_mono h1
  exact mul_le_mul_of_nonneg_right h2 (le_of_lt (two_zpow_pos e))

/-- A magnitude below `2 ^ (e + 53)` rounds at exponent `e` to at most that. -/
theorem roundAt_le (e : ℤ) {x : ℚ} (h : x ≤ 2 ^ (e + 53)) :
    (roundHalfEven (x / 2 ^ e) : ℚ) * 2 ^ e ≤ 2 ^ (e + 53) := by
  have h1 : x / 2 ^ e ≤ (((2 : ℤ) ^ (53 : ℕ) : ℤ) : ℚ) := by
    rw [div_le_iff₀ (two_zpow_pos e)]
    have : (2 : ℚ) ^ (e + 53) = (((2 : ℤ) ^ (53 : ℕ) : ℤ) : ℚ) * 2 ^ e := by
      rw [zpow_add₀ (by norm_num : (2 : ℚ) ≠ 0), mul_comm]
      norm_num
    rw [← this]
    exact h
  have h2 := roundHalfEven_le h1
  have h3 : (roundHalfEven (x / 2 ^ e) : ℚ) ≤ (((2 : ℤ) ^ (53 : ℕ) : ℤ) : ℚ) := by
    exact_mod_cast h2
  calc (roundHalfEven (x / 2 ^ e) : ℚ) * 2 ^ e
      ≤ (((2 : ℤ) ^ (53 : ℕ) : ℤ) : ℚ) * 2 ^ e :=
        mul_le_mul_of_nonneg_right h3 (le_of_lt (two_zpow_pos e))
    _ = 2 ^ (e + 53) := by
        rw [zpow_add₀ (by norm_num : (2 : ℚ) ≠ 0), mul_comm]
        norm_num

/-- A magnitude of at least `2 ^ (e + 52)` rounds at exponent `e` to at least that. -/
theorem le_roundAt (e : ℤ) {x : ℚ} (h : 2 ^ (e + 52) ≤ x) :
    (2 : ℚ) ^ (e + 52) ≤ (roundHalfEven (x / 2 ^ e) : ℚ) * 2 ^ e := by
  have h1 : (((2 : ℤ) ^ (52 : ℕ) : ℤ) : ℚ) ≤ x / 2 ^ e := by
    rw [le_div_iff₀ (two_zpow_pos e)]
    have : (2 : ℚ) ^ (e + 52) = (((2 : ℤ) ^ (52 : ℕ) : ℤ) : ℚ) * 2 ^ e := by
      rw [zpow_add₀ (by norm_num : (2 : ℚ) ≠ 0), mul_comm]
      norm_num
    rw [← this]
    exact h
  have h2 := le_roundHalfEven h1
  have h3 : (((2 : ℤ) ^ (52 : ℕ) : ℤ) : ℚ) ≤ (roundHalfEven (x / 2 ^ e) : ℚ) := by
    exact_mod_cast h2
  calc (2 : ℚ) ^ (e + 52) = (((2 : ℤ) ^ (52 : ℕ) : ℤ) : ℚ) * 2 ^ e := by
        rw [zpow_add₀ (by norm_num : (2 : ℚ) ≠ 0), mul_comm]
        norm_num
    _ ≤ (roundHalfEven (x / 2 ^ e) : ℚ) * 2 ^ e :=
        mul_le_mul_of_nonneg_right h3 (le_of_lt (two_zpow_pos e))

theorem roundToUlp_mono_pos {p q : ℚ} (hp : 0 < p) (h : p ≤ q) :
    roundToUlp p ≤ roundToUlp q := by
  have hq : 0 < q := lt_of_lt_of_le hp h
  have he : ulpExponent |p| ≤ ulpExponent |q| := by
    rw [abs_of_pos hp, abs_of_pos hq]
    exact ulpExponent_mono hp h
  unfold roundToUlp
  simp only
  rcases lt_or_eq_of_le he with hlt | heq
  · have h1 : (roundHalfEven (p / 2 ^ ulpExponent |p|) : ℚ) * 2 ^ ulpExponent |p| ≤
        2 ^ (ulpExponent |p| + 53) := by
      apply roundAt_le
      have := lt_zpow_ulpExponent |p|
      rw [abs_of_pos hp] at this ⊢
      exact le_of_lt this
    have h2 : (2 : ℚ) ^ (ulpExponent |q| + 52) ≤
        (roundHalfEven (q / 2 ^ ulpExponent |q|) : ℚ) * 2 ^ ulpExponent |q| := by
      apply le_roundAt
      have hlow : -1074 < ulpExponent |q| := by
        have : -1074 ≤ ulpExponent |p| := by
          unfold ulpExponent
          omega
        omega
      have := zpow_ulpExponent_le (abs_pos.mpr (ne_of_gt hq)) hlow
      rwa [abs_of_pos hq] at this ⊢
    have h3 : (2 : ℚ) ^ (ulpExponent |p| + 53) ≤ 2 ^ (ulpExponent |q| + 52) :=
      two_zpow_le (by omega)
    exact le_trans h1 (le_trans h3 h2)
  · rw [heq]
    exact roundAt_mono _ h

theorem neg_le_roundAt (e : ℤ) {x : ℚ} (h : -(2 : ℚ) ^ (e + 53) ≤ x) :
    -(2 : ℚ) ^ (e + 53) ≤ (roundHalfEven (x / 2 ^ e) : ℚ) * 2 ^ e := by
  have hpow : (2 : ℚ) ^ (e + 53) = (((2 : ℤ) ^ (53 : ℕ) : ℤ) : ℚ) * 2 ^ e := by
    rw [zpow_add₀ (by norm_num : (2 : ℚ) ≠ 0), mul_comm]
    norm_num
  have h1 : ((-(2 : ℤ) ^ (53 : ℕ) : ℤ) : ℚ) ≤ x / 2 ^ e := by
    rw [le_div_iff₀ (two_zpow_pos e)]
    have : ((-(2 : ℤ) ^ (53 : ℕ) : ℤ) : ℚ) * 2 ^ e = -(2 : ℚ) ^ (e + 53) := by
      rw [hpow]
      push_cast
      ring
    rw [this]
    exact h
  have h2 := le_roundHalfEven h1
  have h3 : ((-(2 : ℤ) ^ (53 : ℕ) : ℤ) : ℚ) ≤ (roundHalfEven (x / 2 ^ e) : ℚ) := by
    exact_mod_cast h2
  calc -(2 : ℚ) ^ (e + 53) = ((-(2 : ℤ) ^ (53 : ℕ) : ℤ) : ℚ) * 2 ^ e := by
        rw [hpow]
        push_cast
        ring
    _ ≤ (roundHalfEven (x / 2 ^ e) : ℚ) * 2 ^ e :=
        mul_le_mul_of_nonneg_right h3 (le_of_lt (two_zpow_pos e))

theorem roundAt_le_neg (e : ℤ) {x : ℚ} (h : x ≤ -(2 : ℚ) ^ (e + 52)) :
    (roundHalfEven (x / 2 ^ e) : ℚ) * 2 ^ e ≤ -(2 : ℚ) ^ (e + 52) := by
  have hpow : (2 : ℚ) ^ (e + 52) = (((2 : ℤ) ^ (52 : ℕ) : ℤ) : ℚ) * 2 ^ e := by
    rw [zpow_add₀ (by norm_num : (2 : ℚ) ≠ 0), mul_comm]
    norm_num
  have h1 : x / 2 ^ e ≤ ((-(2 : ℤ) ^ (52 : ℕ) : ℤ) : ℚ) := by
    rw [div_le_iff₀ (two_zpow_pos e)]
    have : ((-(2 : ℤ) ^ (52 : ℕ) : ℤ) : ℚ) * 2 ^ e = -(2 : ℚ) ^ (e + 52) := by
      rw [hpow]
      push_cast
      ring
    rw [this]
    exact h
  have h2 := roundHalfEven_le h1
  have h3 : (roundHalfEven (x / 2 ^ e) : ℚ) ≤ ((-(2 : ℤ) ^ (52 : ℕ) : ℤ) : ℚ) := by
    exact_mod_cast h2
  calc (roundHalfEven (x / 2 ^ e) : ℚ) * 2 ^ e
      ≤ ((-(2 : ℤ) ^ (52 : ℕ) : ℤ) : ℚ) * 2 ^ e :=
        mul_le_mul_of_nonneg_right h3 (le_of_lt (two_zpow_pos e))
    _ = -(2 : ℚ) ^ (e + 52) := by
        rw [hpow]
        push_cast
        ring

theorem roundToUlp_mono_neg {p q : ℚ} (hq : q < 0) (h : p ≤ q) :
    roundToUlp p ≤ roundToUlp q := by
  have hp : p < 0 := lt_of_le_of_lt h hq
  have he : ulpExponent |q| ≤ ulpExponent |p| := by
    rw [abs_of_neg hp, abs_of_neg hq]
    exact ulpExponent_mono (by linarith) (by linarith)
  unfold roundToUlp
  simp only
  rcases lt_or_eq_of_le he with hlt | heq
  · have h1 : (roundHalfEven (p / 2 ^ ulpExponent |p|) : ℚ) * 2 ^ ulpExponent |p| ≤
        -(2 : ℚ) ^ (ulpExponent |p| + 52) := by
      apply roundAt_le_neg
      have hlow : -1074 < ulpExponent |p| := by
        have : -1074 ≤ ulpExponent |q| := by
          unfold ulpExponent
          omega
        omega
      have := zpow_ulpExponent_le (abs_pos.mpr (ne_of_lt hp)) hlow
      rw [abs_of_neg hp] at this ⊢
      linarith
    have h2 : -(2 : ℚ) ^ (ulpExponent |q| + 53) ≤
        (roundHalfEven (q / 2 ^ ulpExponent |q|) : ℚ) * 2 ^ ulpExponent |q| := by
      apply neg_le_roundAt
      have := lt_zpow_ulpExponent |q|
      rw [abs_of_neg hq] at this ⊢
      linarith
    have h3 : (2 : ℚ) ^ (ulpExponent |q| + 53) ≤ 2 ^ (ulpExponent |p| + 52) :=
      two_zpow_le (by omega)
    linarith
  · rw [heq]
    exact roundAt_mono _ h

theorem roundToUlp_mono {p q : ℚ} (h : p ≤ q) : roundToUlp p ≤ roundToUlp q := by
  rcases lt_trichotomy 0 p with hp | hp | hp
  · exact roundToUlp_mono_pos hp h
  · subst hp
    exact le_trans (roundToUlp_nonpos (le_refl 0)) (roundToUlp_nonneg h)
  · rcases lt_or_le q 0 with hq | hq
    · exact roundToUlp_mono_neg hq h
    · exact le_trans (roundToUlp_nonpos (le_of_lt hp)) (roundToUlp_nonneg hq)

/-- Binary64 rounding is monotone. -/
theorem roundNearestEven_mono {p q : ℚ} (h : p ≤ q) :
    Double.le (roundNearestEven p) (roundNearestEven q) = true := by
  have hu := roundToUlp_mono h
  unfold roundNearestEven
  simp only
  by_cases hp : (2 : ℚ) ^ (1024 : ℤ) ≤ |roundToUlp p|
  · by_cases hp0 : 0 < p
    · have hq0 : 0 < q := lt_of_lt_of_le hp0 h
      have hup : 0 ≤ roundToUlp p := roundToUlp_nonneg (le_of_lt hp0)
      have huq : 0 ≤ roundToUlp q := roundToUlp_nonneg (le_of_lt hq0)
      have hq : (2 : ℚ) ^ (1024 : ℤ) ≤ |roundToUlp q| := by
        rw [abs_of_nonneg hup] at hp
        rw [abs_of_nonneg huq]
        linarith
      simp [hp, hp0, hq, hq0, Double.le]
    · simp only [hp, hp0, if_true, if_false]
      by_cases hq : (2 : ℚ) ^ (1024 : ℤ) ≤ |roundToUlp q|
      · by_cases hq0 : 0 < q <;> simp [hq, hq0, Double.le]
      · simp [hq, Double.le]
  · simp only [hp, if_false]
    by_cases hq : (2 : ℚ) ^ (1024 : ℤ) ≤ |roundToUlp q|
    · by_cases hq0 : 0 < q
      · simp [hq, hq0, Double.le]
      · exfalso
        have huq : roundToUlp q ≤ 0 := roundToUlp_nonpos (not_lt.mp hq0)
        have hup : roundToUlp p ≤ 0 := le_trans hu huq
        rw [abs_of_nonpos huq] at hq
        rw [abs_of_nonpos hup] at hp
        apply hp
        linarith
    · simp [hq, Double.le, hu]

theorem roundToUlp_of_multiple (q : ℚ) (m : ℤ) (h : q = (m : ℚ) * 2 ^ ulpExponent |q|) :
    roundToUlp q = q := by
  unfold roundToUlp
  simp only
  have h1 : q / 2 ^ ulpExponent |q| = (m : ℚ) := by
    rw [div_eq_iff (ne_of_gt (two_zpow_pos _))]
    exact h
  rw [h1, roundHalfEven_intCast]
  exact h.symm

/-- A value of binary64 rounds to itself. -/
theorem roundNearestEven_of_multiple (q : ℚ) (m : ℤ) (h : q = (m : ℚ) * 2 ^ ulpExponent |q|)
    (hlt : |q| < 2 ^ (1024 : ℤ)) : roundNearestEven q = Double.fin q := by
  unfold roundNearestEven
  simp only
  rw [roundToUlp_of_multiple q m h, if_neg (not_le.mpr hlt)]

theorem ulpExponent_nonpos_of_lt {a : ℚ} (h : a < 2 ^ (53 : ℤ)) : ulpExponent a ≤ 0 := by
  unfold ulpExponent
  rcases le_or_lt a 0 with ha | ha
  · rw [Int.log_of_right_le_zero 2 ha]
    omega
  · have : Int.log 2 a < 53 := by
      rw [← Int.lt_zpow_iff_log_lt (by norm_num) ha]
      simpa using h
    omega

/-- An integer of magnitude below `2 ^ 53` is a value of binary64. -/
theorem roundNearestEven_intCast (n : ℤ) (h : |n| < 2 ^ 53) :
    roundNearestEven (n : ℚ) = Double.fin (n : ℚ) := by
  have habs : |(n : ℚ)| < 2 ^ (53 : ℤ) := by
    have h1 : ((|n| : ℤ) : ℚ) < ((2 ^ 53 : ℤ) : ℚ) := by exact_mod_cast h
    rw [Int.cast_abs] at h1
    calc |(n : ℚ)| < ((2 ^ 53 : ℤ) : ℚ) := h1
      _ = 2 ^ (53 : ℤ) := by norm_num
  have he := ulpExponent_nonpos_of_lt habs
  obtain ⟨k, hk⟩ : ∃ k : ℕ, ulpExponent |(n : ℚ)| = -(k : ℤ) :=
    ⟨(-ulpExponent |(n : ℚ)|).toNat, by omega⟩
  apply roundNearestEven_of_multiple (n : ℚ) (n * 2 ^ k)
  · rw [hk, zpow_neg, zpow_natCast]
    push_cast
    field_simp
  · calc |(n : ℚ)| < 2 ^ (53 : ℤ) := habs
      _ ≤ 2 ^ (1024 : ℤ) := two_zpow_le (by norm_num)

theorem roundNearestEven_zero : roundNearestEven 0 = Double.fin 0 := by
  simpa using roundNearestEven_intCast 0 (by norm_num)


/-! ### Order of the operations on doubles -/

theorem exactRounding_monotone : RoundingMonotone exactRounding :=
  ⟨rfl, fun p q h => by simp [exactRounding, Double.le, h]⟩

theorem roundNearestEven_monotone : RoundingMonotone roundNearestEven :=
  ⟨roundNearestEven_zero, fun _ _ h => roundNearestEven_mono h⟩

theorem le_fin_fin (a b : ℚ) : Double.le (Double.fin a) (Double.fin b) = decide (a ≤ b) := rfl

theorem le_nan_left (b : Double) : Double.le Double.nan b = false := by cases b <;> rfl

theorem le_nan_right (a : Double) : Double.le a Double.nan = false := by cases a <;> rfl

theorem le_posInf_fin (b : ℚ) : Double.le Double.posInf (Double.fin b) = false := rfl

theorem le_posInf_negInf : Double.le Double.posInf Double.negInf = false := rfl

theorem le_fin_negInf (a : ℚ) : Double.le (Double.fin a) Double.negInf = false := rfl

theorem le_posInf {a : Double} (h : a ≠ Double.nan) : Double.le a Double.posInf = true := by
  cases a <;> simp_all [Double.le]

theorem negInf_le {a : Double} (h : a ≠ Double.nan) : Double.le Double.negInf a = true := by
  cases a <;> simp_all [Double.le]

theorem le_self {a : Double} (h : a ≠ Double.nan) : Double.le a a = true := by
  cases a <;> simp_all [Double.le]

theorem RoundingMonotone.ne_nan {rnd : ℚ → Double} (h : RoundingMonotone rnd) (q : ℚ) :
    rnd q ≠ Double.nan := by
  intro hq
  have := h.2 q q (le_refl q)
  rw [hq] at this
  simp [Double.le] at this

theorem nanMonotone_comp {F G : Double → Double} (hF : NanMonotone F) (hG : NanMonotone G) :
    NanMonotone (fun a => G (F a)) := by
  refine ⟨by simp [hF.1, hG.1], ?_⟩
  intro a b hab ha hb
  have ha' : F a ≠ Double.nan := fun h => ha (by simp [h, hG.1])
  have hb' : F b ≠ Double.nan := fun h => hb (by simp [h, hG.1])
  exact hG.2 _ _ (hF.2 a b hab ha' hb') ha hb

theorem nanMonotone_mul_thousand {rnd : ℚ → Double} (h : RoundingMonotone rnd) :
    NanMonotone (fun a => Double.mul rnd a (Double.fin 1000)) := by
  refine ⟨rfl, ?_⟩
  intro a b hab ha hb
  cases a <;> cases b <;>
    simp_all [le_fin_fin, le_nan_left, le_nan_right, le_posInf_fin, le_posInf_negInf,
      le_fin_negInf, Double.mul]
  all_goals first
    | exact h.2 _ _ (by linarith)
    | exact le_posInf (h.ne_nan _)
    | exact negInf_le (h.ne_nan _)

theorem nanMonotone_div {rnd : ℚ → Double} (h : RoundingMonotone rnd) (d : Double)
    (hd : Double.le (Double.fin 0) d = true) :
    NanMonotone (fun a => Double.div rnd a d) := by
  refine ⟨by cases d <;> rfl, ?_⟩
  intro a b hab ha hb
  cases d with
  | nan => simp [Double.le] at hd
  | negInf => simp [Double.le] at hd
  | posInf =>
    cases a <;> cases b <;>
      simp_all [le_fin_fin, le_nan_left, le_nan_right, le_posInf_fin, le_posInf_negInf,
        le_fin_negInf, Double.div]
  | fin v =>
    have hv : 0 ≤ v := by simpa [Double.le] using hd
    rcases eq_or_lt_of_le hv with hv0 | hvpos
    · subst hv0
      cases a with
      | nan => simp [Double.le] at hab
      | negInf => cases b <;> simp_all [Double.le, Double.div]
      | posInf => cases b <;> simp_all [Double.le, Double.div]
      | fin x =>
        cases b with
        | nan => simp [Double.le] at hab
        | negInf => simp [Double.le] at hab
        | posInf => simp_all [Double.le, Double.div]; split_ifs <;> simp_all
        | fin y =>
          have hxy : x ≤ y := by simpa [Double.le] using hab
          simp only [Double.div, if_true] at ha hb ⊢
          by_cases hx : x = 0
          · simp [hx] at ha
          · by_cases hy : y = 0
            · simp [hy] at hb
            · simp only [hx, hy, if_false]
              by_cases hx0 : 0 < x
              · have hy0 : 0 < y := lt_of_lt_of_le hx0 hxy
                simp [hx0, hy0, Double.le]
              · simp only [hx0, if_false]
                by_cases hy0 : 0 < y <;> simp [hy0, Double.le]
    · have hne : v ≠ 0 := ne_of_gt hvpos
      cases a <;> cases b <;>
        simp_all [le_fin_fin, le_nan_left, le_nan_right, le_posInf_fin, le_posInf_negInf,
          le_fin_negInf, Double.div, le_of_lt hvpos]
      all_goals first
        | exact h.2 _ _ (div_le_div_of_nonneg_right hab (le_of_lt hvpos))
        | exact le_posInf (h.ne_nan _)
        | exact negInf_le (h.ne_nan _)

theorem nanMonotone_sub {rnd : ℚ → Double} (h : RoundingMonotone rnd) (g : Double) :
    NanMonotone (fun a => Double.sub rnd a g) := by
  refine ⟨by cases g <;> rfl, ?_⟩
  intro a b hab ha hb
  cases g <;> cases a <;> cases b <;>
    simp_all [le_fin_fin, le_nan_left, le_nan_right, le_posInf_fin, le_posInf_negInf,
      le_fin_negInf, Double.sub]
  all_goals first
    | exact h.2 _ _ (by linarith)
    | exact le_posInf (h.ne_nan _)
    | exact negInf_le (h.ne_nan _)
    | rfl

theorem nanMonotone_add {rnd : ℚ → Double} (h : RoundingMonotone rnd) (c : Double) :
    NanMonotone (fun a => Double.add rnd a c) := by
  refine ⟨by cases c <;> rfl, ?_⟩
  intro a b hab ha hb
  cases c <;> cases a <;> cases b <;>
    simp_all [le_fin_fin, le_nan_left, le_nan_right, le_posInf_fin, le_posInf_negInf,
      le_fin_negInf, Double.add]
  all_goals first
    | exact h.2 _ _ (by linarith)
    | exact le_posInf (h.ne_nan _)
    | exact negInf_le (h.ne_nan _)
    | rfl

/-! ### Order of the aligned timestamps -/

theorem alignedMillisecond_mono {rnd : ℚ → Double} (h : RoundingMonotone rnd)
    (ts : CalibrationTimestampPair) (frameStart : ℤ) {c₁ c₂ : Nat} (hc : c₁ ≤ c₂)
    (h₁ : alignedMillisecond rnd ts frameStart c₁ ≠ Double.nan)
    (h₂ : alignedMillisecond rnd ts frameStart c₂ ≠ Double.nan) :
    Double.le (alignedMillisecond rnd ts frameStart c₁)
      (alignedMillisecond rnd ts frameStart c₂) = true := by
  have hd : Double.le (Double.fin 0) (Double.ofInt rnd ts.mQueueFrequency) = true := by
    have := h.2 0 ((ts.mQueueFrequency : ℤ) : ℚ) (by positivity)
    rwa [h.1] at this
  have hF := nanMonotone_comp
    (nanMonotone_comp
      (nanMonotone_comp
        (nanMonotone_comp (nanMonotone_mul_thousand h) (nanMonotone_div h _ hd))
        (nanMonotone_sub h
          (Double.div rnd
            (Double.mul rnd (Double.ofInt rnd ts.mBeforeExecutionGPUTimestamp) (Double.fin 1000))
            (Double.ofInt rnd ts.mQueueFrequency))))
      (nanMonotone_add h
        (Double.div rnd
          (Double.mul rnd (Double.ofInt rnd ts.mBeforeExecutionCPUTimestamp) (Double.fin 1000))
          (Double.ofInt rnd ts.cpuFrequency))))
    (nanMonotone_sub h
      (Double.div rnd (Double.mul rnd (Double.ofInt rnd frameStart) (Double.fin 1000))
        (Double.ofInt rnd ts.cpuFrequency)))
  have hcast : Double.le (Double.ofInt rnd c₁) (Double.ofInt rnd c₂) = true :=
    h.2 _ _ (by exact_mod_cast hc)
  exact hF.2 _ _ hcast h₁ h₂

theorem ne_nan_of_ge {a b : Double} (h : Double.ge a b = true) : a ≠ Double.nan := by
  intro ha
  subst ha
  simp [Double.ge, le_nan_right] at h

theorem ulpExponent_eq {a : ℚ} {k : ℤ} (hk : -1022 ≤ k) (h₁ : (2 : ℚ) ^ k ≤ a)
    (h₂ : a < (2 : ℚ) ^ (k + 1)) : ulpExponent a = k - 52 := by
  have ha : 0 < a := lt_of_lt_of_le (two_zpow_pos k) h₁
  have hlog : Int.log 2 a = k := by
    apply le_antisymm
    · have : Int.log 2 a < k + 1 := by
        rw [← Int.lt_zpow_iff_log_lt (by norm_num) ha]
        simpa using h₂
      omega
    · rw [← Int.zpow_le_iff_le_log (by norm_num) ha]
      simpa using h₁
  unfold ulpExponent
  rw [hlog]
  omega

theorem roundNearestEven_two_pow_53 :
    roundNearestEven 9007199254740992 = Double.fin 9007199254740992 := by
  have he : ulpExponent |(9007199254740992 : ℚ)| = 1 := by
    rw [abs_of_pos (by norm_num)]
    have := ulpExponent_eq (a := 9007199254740992) (k := 53) (by norm_num) (by norm_num)
      (by norm_num)
    simpa using this
  apply roundNearestEven_of_multiple _ 4503599627370496
  · rw [he]
    norm_num
  · rw [abs_of_pos (by norm_num)]
    calc (9007199254740992 : ℚ) < 2 ^ (54 : ℤ) := by norm_num
      _ ≤ 2 ^ (1024 : ℤ) := two_zpow_le (by norm_num)

theorem roundNearestEven_two_pow_53_thousand :
    roundNearestEven 9007199254740992000 = Double.fin 9007199254740992000 := by
  have he : ulpExponent |(9007199254740992000 : ℚ)| = 10 := by
    rw [abs_of_pos (by norm_num)]
    have := ulpExponent_eq (a := 9007199254740992000) (k := 62) (by norm_num) (by norm_num)
      (by norm_num)
    simpa using this
  apply roundNearestEven_of_multiple _ 8796093022208000
  · rw [he]
    norm_num
  · rw [abs_of_pos (by norm_num)]
    calc (9007199254740992000 : ℚ) < 2 ^ (63 : ℤ) := by norm_num
      _ ≤ 2 ^ (1024 : ℤ) := two_zpow_le (by norm_num)

/-- The conversion of `2 ^ 53 + 1` to binary64 is a tie, rounded to the even
neighbour `2 ^ 53`. -/
theorem roundNearestEven_two_pow_53_add_one :
    roundNearestEven 9007199254740993 = Double.fin 9007199254740992 := by
  have he : ulpExponent |(9007199254740993 : ℚ)| = 1 := by
    rw [abs_of_pos (by norm_num)]
    have := ulpExponent_eq (a := 9007199254740993) (k := 53) (by norm_num) (by norm_num)
      (by norm_num)
    simpa using this
  have hfloor : ⌊(9007199254740993 : ℚ) / 2 ^ (1 : ℤ)⌋ = 4503599627370496 := by
    rw [Int.floor_eq_iff]
    constructor <;> norm_num
  have hround : roundHalfEven ((9007199254740993 : ℚ) / 2 ^ (1 : ℤ)) = 4503599627370496 := by
    unfold roundHalfEven
    simp only [hfloor]
    norm_num
  have hulp : roundToUlp 9007199254740993 = 9007199254740992 := by
    unfold roundToUlp
    simp only [he, hround]
    norm_num
  unfold roundNearestEven
  simp only [hulp]
  rw [if_neg]
  rw [not_le, abs_of_pos (by norm_num)]
  calc (9007199254740992 : ℚ) < 2 ^ (54 : ℤ) := by norm_num
    _ ≤ 2 ^ (1024 : ℤ) := two_zpow_le (by norm_num)

theorem roundNearestEven_one : roundNearestEven 1 = Double.fin 1 := by
  simpa using roundNearestEven_intCast 1 (by norm_num)

theorem roundNearestEven_thousand : roundNearestEven 1000 = Double.fin 1000 := by
  simpa using roundNearestEven_intCast 1000 (by norm_num)

theorem roundNearestEven_two : roundNearestEven 2 = Double.fin 2 := by
  simpa using roundNearestEven_intCast 2 (by norm_num)

theorem roundNearestEven_two_thousand : roundNearestEven 2000 = Double.fin 2000 := by
  simpa using roundNearestEven_intCast 2000 (by norm_num)

theorem add_fin (rnd : ℚ → Double) (a b : ℚ) :
    Double.add rnd (Double.fin a) (Double.fin b) = rnd (a + b) := rfl

theorem sub_fin (rnd : ℚ → Double) (a b : ℚ) :
    Double.sub rnd (Double.fin a) (Double.fin b) = rnd (a - b) := rfl

theorem mul_fin (rnd : ℚ → Double) (a b : ℚ) :
    Double.mul rnd (Double.fin a) (Double.fin b) = rnd (a * b) := rfl

theorem div_fin (rnd : ℚ → Double) (a : ℚ) {b : ℚ} (hb : b ≠ 0) :
    Double.div rnd (Double.fin a) (Double.fin b) = rnd (a / b) := by
  simp [Double.div, hb]

theorem alignedMillisecond_adjacent_start :
    alignedMillisecond roundNearestEven originCalibration 0 9007199254740992 =
      Double.fin 9007199254740992 := by
  norm_num [alignedMillisecond, originCalibration, Double.ofInt, mul_fin, div_fin, sub_fin,
    add_fin, roundNearestEven_zero, roundNearestEven_one, roundNearestEven_thousand,
    roundNearestEven_two_pow_53, roundNearestEven_two_pow_53_thousand]

theorem alignedMillisecond_adjacent_end :
    alignedMillisecond roundNearestEven originCalibration 0 9007199254740993 =
      Double.fin 9007199254740992 := by
  norm_num [alignedMillisecond, originCalibration, Double.ofInt, mul_fin, div_fin, sub_fin,
    add_fin, roundNearestEven_zero, roundNearestEven_one, roundNearestEven_thousand,
    roundNearestEven_two_pow_53, roundNearestEven_two_pow_53_thousand,
    roundNearestEven_two_pow_53_add_one]

/-- C7, counterexample: in binary64 arithmetic the result with raw clocks
`start = 2 ^ 53 < end = 2 ^ 53 + 1` aligns successfully against the calibration
pair at the origin (queue frequency 1000, CPU frequency 1) and frame start 0,
and the aligned timestamps written are both `2 ^ 53`: `alignedStart < alignedEnd`
is false. -/
theorem aligned_timestamps_equal_after_rounding :
    adjacentClocksResult.timestampResult.rawClocks.start <
      adjacentClocksResult.timestampResult.rawClocks.end_ ∧
    (AlignProfilerResultWithCPUTimeline roundNearestEven adjacentClocksResult
        (some originCalibration) 0).1 = true ∧
    (AlignProfilerResultWithCPUTimeline roundNearestEven adjacentClocksResult
        (some originCalibration) 0).2.timestampResult.alignedMillisecondTimestamps =
      { start := Double.fin 9007199254740992, end_ := Double.fin 9007199254740992 } ∧
    Double.lt
        (AlignProfilerResultWithCPUTimeline roundNearestEven adjacentClocksResult
          (some originCalibration) 0).2.timestampResult.alignedMillisecondTimestamps.start
        (AlignProfilerResultWithCPUTimeline roundNearestEven adjacentClocksResult
          (some originCalibration) 0).2.timestampResult.alignedMillisecondTimestamps.end_ =
      false := by
  have hs : adjacentClocksResult.timestampResult.rawClocks.start = 9007199254740992 := rfl
  have he : adjacentClocksResult.timestampResult.rawClocks.end_ = 9007199254740993 := rfl
  have halign : AlignProfilerResultWithCPUTimeline roundNearestEven adjacentClocksResult
      (some originCalibration) 0 =
      (true,
        { adjacentClocksResult with
          timestampResult :=
            { adjacentClocksResult.timestampResult with
              alignedMillisecondTimestamps :=
                { start := Double.fin 9007199254740992,
                  end_ := Double.fin 9007199254740992 } } }) := by
    rw [align_some, hs, he, alignedMillisecond_adjacent_start, alignedMillisecond_adjacent_end]
    simp [Double.ge, le_fin_fin]
  rw [halign]
  refine ⟨by decide, rfl, rfl, ?_⟩
  simp [Double.lt]

/-- C7, amended: for a rounding function that keeps zero and the order (binary64
rounding and exact arithmetic both do), raw `start < end` and a successful
`AlignProfilerResultWithCPUTimeline` give `alignedStart <= alignedEnd`; in
exact arithmetic with non-zero clock frequencies they give
`alignedStart < alignedEnd`. -/
theorem aligned_start_le_end (rnd : ℚ → Double) (hrnd : RoundingMonotone rnd)
    (r : ProfilerResult) (pTimestamps : Option CalibrationTimestampPair) (frameStart : ℤ)
    (hlt : r.timestampResult.rawClocks.start < r.timestampResult.rawClocks.end_)
    (h : (AlignProfilerResultWithCPUTimeline rnd r pTimestamps frameStart).1 = true) :
    Double.le
        (AlignProfilerResultWithCPUTimeline rnd r pTimestamps
          frameStart).2.timestampResult.alignedMillisecondTimestamps.start
        (AlignProfilerResultWithCPUTimeline rnd r pTimestamps
          frameStart).2.timestampResult.alignedMillisecondTimestamps.end_ = true ∧
    (∀ ts, pTimestamps = some ts → ts.mQueueFrequency ≠ 0 → ts.cpuFrequency ≠ 0 →
      (AlignProfilerResultWithCPUTimeline exactRounding r pTimestamps frameStart).1 = true →
      Double.lt
          (AlignProfilerResultWithCPUTimeline exactRounding r pTimestamps
            frameStart).2.timestampResult.alignedMillisecondTimestamps.start
          (AlignProfilerResultWithCPUTimeline exactRounding r pTimestamps
            frameStart).2.timestampResult.alignedMillisecondTimestamps.end_ = true) := by
  constructor
  · cases pTimestamps with
    | none => simp [align_none] at h
    | some ts =>
      rw [align_some] at h ⊢
      split at h
      · rename_i hge
        rw [if_pos hge]
        rw [Bool.and_eq_true] at hge
        exact alignedMillisecond_mono hrnd ts frameStart (le_of_lt hlt)
          (ne_nan_of_ge hge.1) (ne_nan_of_ge hge.2)
      · simp at h
  · intro ts hts hq hc hex
    subst hts
    rw [align_some] at hex ⊢
    split at hex
    · rename_i hge
      rw [if_pos hge]
      simp only [alignedMillisecond_exact ts frameStart _ hq hc, Double.lt, decide_eq_true_eq]
      have hq' : (0 : ℚ) < (ts.mQueueFrequency : ℚ) := by
        exact_mod_cast Nat.pos_of_ne_zero hq
      have hclk : (r.timestampResult.rawClocks.start : ℚ) <
          (r.timestampResult.rawClocks.end_ : ℚ) := by exact_mod_cast hlt
      have hdiv : (r.timestampResult.rawClocks.start : ℚ) * 1000 / (ts.mQueueFrequency : ℚ) <
          (r.timestampResult.rawClocks.end_ : ℚ) * 1000 / (ts.mQueueFrequency : ℚ) := by
        apply div_lt_div_of_pos_right _ hq'
        linarith
      linarith
    · simp at hex

theorem alignedMillisecond_unit_start :
    alignedMillisecond roundNearestEven originCalibration 0 1 = Double.fin 1 := by
  norm_num [alignedMillisecond, originCalibration, Double.ofInt, mul_fin, div_fin, sub_fin,
    add_fin, roundNearestEven_zero, roundNearestEven_one, roundNearestEven_thousand]

theorem alignedMillisecond_unit_end :
    alignedMillisecond roundNearestEven originCalibration 0 2 = Double.fin 2 := by
  norm_num [alignedMillisecond, originCalibration, Double.ofInt, mul_fin, div_fin, sub_fin,
    add_fin, roundNearestEven_zero, roundNearestEven_one, roundNearestEven_thousand,
    roundNearestEven_two, roundNearestEven_two_thousand]

/-- Witness of C7 as amended: binary64 rounding, the result with raw clocks
`(1, 1, 2)`, the calibration pair at the origin and frame start 0. -/
theorem aligned_start_le_end_witness :
    RoundingMonotone roundNearestEven ∧
    unitClocksResult.timestampResult.rawClocks.start <
      unitClocksResult.timestampResult.rawClocks.end_ ∧
    (AlignProfilerResultWithCPUTimeline roundNearestEven unitClocksResult
        (some originCalibration) 0).1 = true ∧
    Double.le
        (AlignProfilerResultWithCPUTimeline roundNearestEven unitClocksResult
          (some originCalibration) 0).2.timestampResult.alignedMillisecondTimestamps.start
        (AlignProfilerResultWithCPUTimeline roundNearestEven unitClocksResult
          (some originCalibration) 0).2.timestampResult.alignedMillisecondTimestamps.end_ =
      true ∧
    (∀ ts, some originCalibration = some ts → ts.mQueueFrequency ≠ 0 → ts.cpuFrequency ≠ 0 →
      (AlignProfilerResultWithCPUTimeline exactRounding unitClocksResult
        (some originCalibration) 0).1 = true →
      Double.lt
          (AlignProfilerResultWithCPUTimeline exactRounding unitClocksResult
            (some originCalibration) 0).2.timestampResult.alignedMillisecondTimestamps.start
          (AlignProfilerResultWithCPUTimeline exactRounding unitClocksResult
            (some originCalibration) 0).2.timestampResult.alignedMillisecondTimestamps.end_ =
        true) := by
  have hs : unitClocksResult.timestampResult.rawClocks.start = 1 := rfl
  have he : unitClocksResult.timestampResult.rawClocks.end_ = 2 := rfl
  have hlt : unitClocksResult.timestampResult.rawClocks.start <
      unitClocksResult.timestampResult.rawClocks.end_ := by decide
  have h : (AlignProfilerResultWithCPUTimeline roundNearestEven unitClocksResult
      (some originCalibration) 0).1 = true := by
    rw [align_some, hs, he, alignedMillisecond_unit_start, alignedMillisecond_unit_end]
    simp [Double.ge, le_fin_fin]
  exact ⟨roundNearestEven_monotone, hlt, h,
    aligned_start_le_end roundNearestEven roundNearestEven_monotone unitClocksResult
      (some originCalibration) 0 hlt h⟩

/-! ### PostCall and PreCall, continued -/

theorem getSampleInfo_snd (layer : VktFrameProfilerLayer) (threadId : Nat) :
    (GetSampleInfoForThread layer threadId).2 = some (threadInfo layer threadId) := by
  unfold GetSampleInfoForThread threadInfo
  cases mapFind layer.mSampleInfos threadId <;> rfl

theorem getSampleInfo_mSampleIdToEntry (layer : VktFrameProfilerLayer) (threadId : Nat) :
    (GetSampleInfoForThread layer threadId).1.mSampleIdToEntry = layer.mSampleIdToEntry := by
  unfold GetSampleInfoForThread
  cases mapFind layer.mSampleInfos threadId <;> rfl

theorem entryMapOf_store (layer : VktFrameProfilerLayer) (threadId : Nat) (e : VktAPIEntry) :
    mapFind (entryMapOf (StoreProfilerResult layer threadId e) threadId) e.m_sampleId =
      some e := by
  unfold StoreProfilerResult entryMapOf
  cases h : mapFind layer.mSampleIdToEntry threadId with
  | none => simp [mapFind_mapSet_self, mapSet, mapFind]
  | some m => simp [mapFind_mapSet_self]

/-- C11: when profiling is enabled, the filter allows the function, the thread's
begin flag is true and the end request succeeds, `PostCall` sets the entry's
sample id to the thread's sample id and stores the entry under it in the
thread's entry map; in every other case, a failed end request among them, the
entry and the entry store are as before. -/
theorem postcall_tags_and_stores_iff (layer : VktFrameProfilerLayer) (threadId : Nat)
    (pNewAPIEntry : VktAPIEntry) (inFuncId : FuncId) (pWrappedCmdBuf : VktWrappedCmdBuf) :
    ((pWrappedCmdBuf.IsProfilingEnabled = true ∧ ShouldProfileFunction layer inFuncId = true ∧
        (threadInfo layer threadId).mbBeginSampleSuccessful = true ∧
        pWrappedCmdBuf.EndCmdMeasurement = ProfilerResultCode.PROFILER_SUCCESS) →
      (PostCall layer threadId pNewAPIEntry inFuncId pWrappedCmdBuf).2.1 =
        { pNewAPIEntry with m_sampleId := (threadInfo layer threadId).mSampleId } ∧
      (PostCall layer threadId pNewAPIEntry inFuncId pWrappedCmdBuf).1 =
        StoreProfilerResult (GetSampleInfoForThread layer threadId).1 threadId
          { pNewAPIEntry with m_sampleId := (threadInfo layer threadId).mSampleId } ∧
      mapFind
          (entryMapOf (PostCall layer threadId pNewAPIEntry inFuncId pWrappedCmdBuf).1 threadId)
          (threadInfo layer threadId).mSampleId =
        some { pNewAPIEntry with m_sampleId := (threadInfo layer threadId).mSampleId }) ∧
    (¬ (pWrappedCmdBuf.IsProfilingEnabled = true ∧ ShouldProfileFunction layer inFuncId = true ∧
        (threadInfo layer threadId).mbBeginSampleSuccessful = true ∧
        pWrappedCmdBuf.EndCmdMeasurement = ProfilerResultCode.PROFILER_SUCCESS) →
      (PostCall layer threadId pNewAPIEntry inFuncId pWrappedCmdBuf).2.1 = pNewAPIEntry ∧
      (PostCall layer threadId pNewAPIEntry inFuncId pWrappedCmdBuf).1.mSampleIdToEntry =
        layer.mSampleIdToEntry) ∧
    (pWrappedCmdBuf.EndCmdMeasurement ≠ ProfilerResultCode.PROFILER_SUCCESS →
      (PostCall layer threadId pNewAPIEntry inFuncId pWrappedCmdBuf).2.1 = pNewAPIEntry ∧
      (PostCall layer threadId pNewAPIEntry inFuncId pWrappedCmdBuf).1.mSampleIdToEntry =
        layer.mSampleIdToEntry) := by
  have hentries := getSampleInfo_mSampleIdToEntry layer threadId
  have hinfo := getSampleInfo_snd layer threadId
  have hno : ¬ (pWrappedCmdBuf.IsProfilingEnabled = true ∧
        ShouldProfileFunction layer inFuncId = true ∧
        (threadInfo layer threadId).mbBeginSampleSuccessful = true ∧
        pWrappedCmdBuf.EndCmdMeasurement = ProfilerResultCode.PROFILER_SUCCESS) →
      (PostCall layer threadId pNewAPIEntry inFuncId pWrappedCmdBuf).2.1 = pNewAPIEntry ∧
      (PostCall layer threadId pNewAPIEntry inFuncId pWrappedCmdBuf).1.mSampleIdToEntry =
        layer.mSampleIdToEntry := by
    intro hgate
    unfold PostCall
    by_cases hg : (pWrappedCmdBuf.IsProfilingEnabled &&
        ShouldProfileFunction layer inFuncId) = true
    · have hg' := hg
      rw [Bool.and_eq_true] at hg'
      rw [if_pos hg]
      simp only [hinfo]
      by_cases hflag : (threadInfo layer threadId).mbBeginSampleSuccessful = true
      · have hend : pWrappedCmdBuf.EndCmdMeasurement ≠ ProfilerResultCode.PROFILER_SUCCESS :=
          fun h => hgate ⟨hg'.1, hg'.2, hflag, h⟩
        rw [if_pos hflag, if_neg hend]
        exact ⟨rfl, hentries⟩
      · rw [if_neg hflag]
        exact ⟨rfl, hentries⟩
    · rw [if_neg hg]
      exact ⟨rfl, rfl⟩
  refine ⟨?_, hno, fun hend => hno (fun h => hend h.2.2.2)⟩
  rintro ⟨h1, h2, h3, h4⟩
  have hpost : PostCall layer threadId pNewAPIEntry inFuncId pWrappedCmdBuf =
      (StoreProfilerResult (GetSampleInfoForThread layer threadId).1 threadId
          { pNewAPIEntry with m_sampleId := (threadInfo layer threadId).mSampleId },
        { pNewAPIEntry with m_sampleId := (threadInfo layer threadId).mSampleId },
        [ProfilerEvent.endCmdMeasurement pWrappedCmdBuf.address]) := by
    unfold PostCall
    simp only [h1, h2, Bool.and_self, if_true, hinfo, h3, h4]
  rw [hpost]
  exact ⟨rfl, rfl, entryMapOf_store _ _ _⟩

/-- C12: unless the command buffer has profiling enabled and the filter allows
the function, `PreCall` returns the layer it was given and makes no call: the
sample counter, the thread's `SampleInfo` and everything else are unchanged and
`BeginCmdMeasurement` is not requested. -/
theorem precall_noop_unless_enabled (layer : VktFrameProfilerLayer) (threadId frameCount : Nat)
    (funcId : FuncId) (pWrappedCmdBuf : VktWrappedCmdBuf)
    (h : ¬ (pWrappedCmdBuf.IsProfilingEnabled = true ∧
      ShouldProfileFunction layer funcId = true)) :
    PreCall layer threadId frameCount funcId pWrappedCmdBuf = (layer, []) ∧
    (PreCall layer threadId frameCount funcId pWrappedCmdBuf).1.mSampleIndex =
      layer.mSampleIndex ∧
    threadInfo (PreCall layer threadId frameCount funcId pWrappedCmdBuf).1 threadId =
      threadInfo layer threadId ∧
    ∀ cmdBuf measurementId, ProfilerEvent.beginCmdMeasurement cmdBuf measurementId ∉
      (PreCall layer threadId frameCount funcId pWrappedCmdBuf).2 := by
  have hpre : PreCall layer threadId frameCount funcId pWrappedCmdBuf = (layer, []) := by
    unfold PreCall
    have hg : ¬ ((pWrappedCmdBuf.IsProfilingEnabled && ShouldProfileFunction layer funcId) =
        true) := by
      rw [Bool.and_eq_true]
      exact h
    rw [if_neg hg]
  rw [hpre]
  exact ⟨rfl, rfl, rfl, fun _ _ hmem => by simp at hmem⟩

/-- Witness of C12: `vkCmdBindPipeline`, which the table does not profile, on a
new layer with a command buffer that has profiling enabled. -/
theorem precall_noop_unless_enabled_witness :
    ¬ (oneSlotCmdBuf.IsProfilingEnabled = true ∧
      ShouldProfileFunction VktFrameProfilerLayer.construct FuncId.vkCmdBindPipeline = true) ∧
    (PreCall VktFrameProfilerLayer.construct 0 0 FuncId.vkCmdBindPipeline oneSlotCmdBuf =
        (VktFrameProfilerLayer.construct, []) ∧
      (PreCall VktFrameProfilerLayer.construct 0 0 FuncId.vkCmdBindPipeline
        oneSlotCmdBuf).1.mSampleIndex = VktFrameProfilerLayer.construct.mSampleIndex ∧
      threadInfo
          (PreCall VktFrameProfilerLayer.construct 0 0 FuncId.vkCmdBindPipeline oneSlotCmdBuf).1
          0 = threadInfo VktFrameProfilerLayer.construct 0 ∧
      ∀ cmdBuf measurementId, ProfilerEvent.beginCmdMeasurement cmdBuf measurementId ∉
        (PreCall VktFrameProfilerLayer.construct 0 0 FuncId.vkCmdBindPipeline
          oneSlotCmdBuf).2) :=
  ⟨by decide,
    precall_noop_unless_enabled VktFrameProfilerLayer.construct 0 0 FuncId.vkCmdBindPipeline
      oneSlotCmdBuf (by decide)⟩

theorem findInvocationLoop_mapSet (inSampleId threadId : Nat) (e : VktAPIEntry)
    (entryMap : SampleIdToAPIEntryMap) (hmap : mapFind entryMap inSampleId = some e)
    (store : ThreadSafeSampleIdToAPIEntryMap)
    (h : ∀ p ∈ store, p.1 ≠ threadId → mapFind p.2 inSampleId = none) :
    findInvocationLoop inSampleId (mapSet store threadId entryMap) = some e := by
  induction store with
  | nil => simp [mapSet, findInvocationLoop, hmap]
  | cons p rest ih =>
    obtain ⟨k, m⟩ := p
    by_cases hk : k = threadId
    · simp [mapSet, hk, findInvocationLoop, hmap]
    · have hm : mapFind m inSampleId = none := h (k, m) (List.mem_cons_self _ _) hk
      have hrest : ∀ p ∈ rest, p.1 ≠ threadId → mapFind p.2 inSampleId = none :=
        fun p hp => h p (List.mem_cons_of_mem _ hp)
      simp [mapSet, hk, findInvocationLoop, hm, ih hrest]

/-- C13, counterexample: thread 0 stores the entry at address 100 with sample id
5, then thread 1 stores the entry at address 200 with the same sample id;
`FindInvocationBySampleId 5` returns the entry of thread 0, not the one just
stored. -/
theorem find_after_store_other_thread :
    FindInvocationBySampleId
        (StoreProfilerResult
          (StoreProfilerResult VktFrameProfilerLayer.construct 0
            { address := 100, m_sampleId := 5 })
          1 { address := 200, m_sampleId := 5 }) 5 =
      some { address := 100, m_sampleId := 5 } ∧
    FindInvocationBySampleId
        (StoreProfilerResult
          (StoreProfilerResult VktFrameProfilerLayer.construct 0
            { address := 100, m_sampleId := 5 })
          1 { address := 200, m_sampleId := 5 }) 5 ≠
      some { address := 200, m_sampleId := 5 } := by
  constructor <;> decide

/-- C13, amended: when no entry map of another thread holds an entry under the
sample id of `e`, `FindInvocationBySampleId` returns `e` after
`StoreProfilerResult` has stored it from the current thread. -/
theorem find_after_store (layer : VktFrameProfilerLayer) (threadId : Nat) (e : VktAPIEntry)
    (h : ∀ p ∈ layer.mSampleIdToEntry, p.1 ≠ threadId → mapFind p.2 e.m_sampleId = none) :
    FindInvocationBySampleId (StoreProfilerResult layer threadId e) e.m_sampleId = some e := by
  unfold FindInvocationBySampleId StoreProfilerResult
  cases hfind : mapFind layer.mSampleIdToEntry threadId with
  | none =>
    exact findInvocationLoop_mapSet _ _ e _ (mapFind_mapSet_self _ _ _) _ h
  | some entryMap =>
    exact findInvocationLoop_mapSet _ _ e _ (mapFind_mapSet_self _ _ _) _ h

/-- Witness of C13 as amended: thread 0 holds the entry at address 100 under
sample id 5; thread 1 stores the entry at address 200 under sample id 6. -/
theorem find_after_store_witness :
    (∀ p ∈ (StoreProfilerResult VktFrameProfilerLayer.construct 0
        { address := 100, m_sampleId := 5 }).mSampleIdToEntry,
      p.1 ≠ 1 → mapFind p.2 ({ address := 200, m_sampleId := 6 } : VktAPIEntry).m_sampleId =
        none) ∧
    FindInvocationBySampleId
        (StoreProfilerResult
          (StoreProfilerResult VktFrameProfilerLayer.construct 0
            { address := 100, m_sampleId := 5 })
          1 { address := 200, m_sampleId := 6 })
        ({ address := 200, m_sampleId := 6 } : VktAPIEntry).m_sampleId =
      some { address := 200, m_sampleId := 6 } := by
  have h : ∀ p ∈ (StoreProfilerResult VktFrameProfilerLayer.construct 0
      { address := 100, m_sampleId := 5 }).mSampleIdToEntry,
      p.1 ≠ 1 → mapFind p.2 ({ address := 200, m_sampleId := 6 } : VktAPIEntry).m_sampleId =
        none := by decide
  exact ⟨h, find_after_store _ 1 { address := 200, m_sampleId := 6 } h⟩

theorem findInvocationLoop_eq_none (inSampleId : Nat) (store : ThreadSafeSampleIdToAPIEntryMap) :
    findInvocationLoop inSampleId store = none ↔
      ∀ p ∈ store, mapFind p.2 inSampleId = none := by
  induction store with
  | nil => simp [findInvocationLoop]
  | cons p rest ih =>
    obtain ⟨k, m⟩ := p
    cases hm : mapFind m inSampleId with
    | none => simp [findInvocationLoop, hm, ih]
    | some e => simp [findInvocationLoop, hm]

theorem findInvocationLoop_eq_some (inSampleId : Nat) (e : VktAPIEntry)
    (store : ThreadSafeSampleIdToAPIEntryMap) :
    findInvocationLoop inSampleId store = some e ↔
      ∃ pre threadId entryMap post, store = pre ++ (threadId, entryMap) :: post ∧
        (∀ p ∈ pre, mapFind p.2 inSampleId = none) ∧ mapFind entryMap inSampleId = some e := by
  induction store with
  | nil => simp [findInvocationLoop]
  | cons p rest ih =>
    obtain ⟨k, m⟩ := p
    cases hm : mapFind m inSampleId with
    | some e' =>
      simp only [findInvocationLoop, hm]
      constructor
      · intro h
        exact ⟨[], k, m, rest, rfl, by simp, by rw [hm, h]⟩
      · rintro ⟨pre, t, em, post, heq, hpre, hfound⟩
        cases pre with
        | nil =>
          simp only [List.nil_append, List.cons.injEq, Prod.mk.injEq] at heq
          obtain ⟨⟨-, rfl⟩, -⟩ := heq
          rw [← hm, hfound]
        | cons q pre' =>
          simp only [List.cons_append, List.cons.injEq] at heq
          have := hpre q (List.mem_cons_self _ _)
          rw [← heq.1] at this
          simp [hm] at this
    | none =>
      simp only [findInvocationLoop, hm]
      rw [ih]
      constructor
      · rintro ⟨pre, t, em, post, heq, hpre, hfound⟩
        refine ⟨(k, m) :: pre, t, em, post, by simp [heq], ?_, hfound⟩
        intro p hp
        rcases List.mem_cons.mp hp with rfl | hp
        · exact hm
        · exact hpre p hp
      · rintro ⟨pre, t, em, post, heq, hpre, hfound⟩
        cases pre with
        | nil =>
          simp only [List.nil_append, List.cons.injEq, Prod.mk.injEq] at heq
          obtain ⟨⟨-, rfl⟩, -⟩ := heq
          rw [hm] at hfound
          exact absurd hfound (by simp)
        | cons q pre' =>
          simp only [List.cons_append, List.cons.injEq] at heq
          exact ⟨pre', t, em, post, heq.2, fun p hp => hpre p (List.mem_cons_of_mem _ hp),
            hfound⟩

/-- C14: `FindInvocationBySampleId` returns nothing exactly when no per-thread
entry map holds the sample id, and it returns `e` exactly when `e` is what the
first per-thread map, in iteration order, that holds the id stores under it.
The function only reads the layer. -/
theorem find_invocation_first_match (layer : VktFrameProfilerLayer) (inSampleId : Nat) :
    (FindInvocationBySampleId layer inSampleId = none ↔
      ∀ p ∈ layer.mSampleIdToEntry, mapFind p.2 inSampleId = none) ∧
    (∀ e, FindInvocationBySampleId layer inSampleId = some e ↔
      ∃ pre threadId entryMap post,
        layer.mSampleIdToEntry = pre ++ (threadId, entryMap) :: post ∧
        (∀ p ∈ pre, mapFind p.2 inSampleId = none) ∧ mapFind entryMap inSampleId = some e) :=
  ⟨findInvocationLoop_eq_none inSampleId layer.mSampleIdToEntry,
    fun e => findInvocationLoop_eq_some inSampleId e layer.mSampleIdToEntry⟩

theorem mem_of_mapFind {K V : Type} [DecidableEq K] (m : List (K × V)) (k : K) (v : V)
    (h : mapFind m k = some v) : (k, v) ∈ m := by
  induction m with
  | nil => simp [mapFind] at h
  | cons kv rest ih =>
    obtain ⟨k', v'⟩ := kv
    by_cases hk : k' = k
    · subst hk
      simp only [mapFind, if_true, Option.some.injEq] at h
      subst h
      exact List.mem_cons_self _ _
    · simp only [mapFind, hk, if_false] at h
      exact List.mem_cons_of_mem _ (ih h)

/-- C15: after `ClearProfilingResults` the thread-to-queue result mapping and the
sample-id-to-entry mapping have no entry, whatever the layer held before;
`FindInvocationBySampleId` returns nothing for every sample id, also for one
stored just before, and no sample map holds a result.  Every result that was
stored is among the results the call deletes. -/
theorem clear_empties_store (layer : VktFrameProfilerLayer) :
    (ClearProfilingResults layer).mEntriesWithProfilingResults.length = 0 ∧
    (ClearProfilingResults layer).mSampleIdToEntry.length = 0 ∧
    (∀ inSampleId, FindInvocationBySampleId (ClearProfilingResults layer) inSampleId = none) ∧
    (∀ threadId (e : VktAPIEntry),
      FindInvocationBySampleId (ClearProfilingResults (StoreProfilerResult layer threadId e))
        e.m_sampleId = none) ∧
    (∀ threadId queue sampleId,
      hasResult (ClearProfilingResults layer) threadId queue sampleId = false) ∧
    (∀ threadId queue sampleId r,
      mapFind (resultMapOf layer threadId queue) sampleId = some r →
        r ∈ deletedByClear layer) := by
  refine ⟨rfl, rfl, fun _ => rfl, fun _ _ => rfl, fun _ _ _ => rfl, ?_⟩
  intro threadId queue sampleId r h
  unfold resultMapOf at h
  cases ht : mapFind layer.mEntriesWithProfilingResults threadId with
  | none => simp [ht, mapFind] at h
  | some queueMap =>
    rw [ht] at h
    simp only [Option.getD_some] at h
    cases hq : mapFind queueMap queue with
    | none => simp [hq, mapFind] at h
    | some resultMap =>
      rw [hq] at h
      simp only [Option.getD_some] at h
      have h1 := mem_of_mapFind _ _ _ ht
      have h2 := mem_of_mapFind _ _ _ hq
      have h3 := mem_of_mapFind _ _ _ h
      unfold deletedByClear
      simp only [List.mem_flatten, List.mem_map]
      refine ⟨_, ⟨(threadId, queueMap), h1, rfl⟩, ?_⟩
      simp only [List.mem_flatten, List.mem_map]
      exact ⟨_, ⟨(queue, resultMap), h2, rfl⟩, List.mem_map.mpr ⟨(sampleId, r), h3, rfl⟩⟩

/-! ### FindOrCreateProfilerResultsMap -/

theorem findOrCreate_of_found (layer : VktFrameProfilerLayer) (queue threadId : Nat)
    (m : SampleIdToProfilerResultMap) (h : findResultMap layer threadId queue = some m) :
    FindOrCreateProfilerResultsMap layer queue threadId = (layer, some m) := by
  unfold findResultMap at h
  unfold FindOrCreateProfilerResultsMap mapCount
  cases ht : mapFind layer.mEntriesWithProfilingResults threadId with
  | none => simp [ht] at h
  | some queueMap =>
    rw [ht] at h
    simp only at h
    simp [h]

theorem findResultMap_findOrCreate_self (layer : VktFrameProfilerLayer) (queue threadId : Nat) :
    findResultMap (FindOrCreateProfilerResultsMap layer queue threadId).1 threadId queue =
      (FindOrCreateProfilerResultsMap layer queue threadId).2 := by
  unfold FindOrCreateProfilerResultsMap mapCount mapInsert findResultMap
  cases ht : mapFind layer.mEntriesWithProfilingResults threadId with
  | none => simp [mapFind, mapSet, mapFind_mapSet_self]
  | some queueMap =>
    cases hq : mapFind queueMap queue with
    | none => simp [hq, ht, mapFind_mapSet_self]
    | some resultMap => simp [hq, ht]

theorem findResultMap_findOrCreate_ne (layer : VktFrameProfilerLayer) (queue threadId : Nat)
    (threadId' queue' : Nat) (h : ¬ (threadId' = threadId ∧ queue' = queue)) :
    findResultMap (FindOrCreateProfilerResultsMap layer queue threadId).1 threadId' queue' =
      findResultMap layer threadId' queue' := by
  unfold FindOrCreateProfilerResultsMap mapCount mapInsert findResultMap
  cases ht : mapFind layer.mEntriesWithProfilingResults threadId with
  | none =>
    by_cases hthread : threadId' = threadId
    · subst hthread
      have hq : queue ≠ queue' := fun hq => h ⟨rfl, hq.symm⟩
      simp [mapFind, mapSet, mapFind_mapSet_self, ht, hq]
    · simp [mapFind_mapSet_ne _ _ _ _ hthread]
  | some queueMap =>
    cases hq : mapFind queueMap queue with
    | some resultMap => simp [hq]
    | none =>
      by_cases hthread : threadId' = threadId
      · subst hthread
        have hq' : queue' ≠ queue := fun hq' => h ⟨rfl, hq'⟩
        simp [hq, ht, mapFind_mapSet_self, mapFind_mapSet_ne _ _ _ _ hq']
      · simp [hq, mapFind_mapSet_ne _ _ _ _ hthread]

/-- C16: `FindOrCreateProfilerResultsMap` never returns null.  When a sample map
is registered under `(thread, queue)` it returns that map and the layer as it
was; otherwise it returns a new empty map, registers it under `(thread, queue)`
and leaves what is registered under every other `(thread, queue)` as it was.
A second call with the same arguments changes nothing more and returns the map
the first call returned. -/
theorem find_or_create_results_map (layer : VktFrameProfilerLayer) (queue threadId : Nat) :
    (∃ m, (FindOrCreateProfilerResultsMap layer queue threadId).2 = some m) ∧
    (∀ m, findResultMap layer threadId queue = some m →
      FindOrCreateProfilerResultsMap layer queue threadId = (layer, some m)) ∧
    (findResultMap layer threadId queue = none →
      (FindOrCreateProfilerResultsMap layer queue threadId).2 = some [] ∧
      findResultMap (FindOrCreateProfilerResultsMap layer queue threadId).1 threadId queue =
        some []) ∧
    (∀ threadId' queue', ¬ (threadId' = threadId ∧ queue' = queue) →
      findResultMap (FindOrCreateProfilerResultsMap layer queue threadId).1 threadId' queue' =
        findResultMap layer threadId' queue') ∧
    FindOrCreateProfilerResultsMap (FindOrCreateProfilerResultsMap layer queue threadId).1 queue
        threadId =
      ((FindOrCreateProfilerResultsMap layer queue threadId).1,
        (FindOrCreateProfilerResultsMap layer queue threadId).2) := by
  have hsome := findOrCreate_snd layer queue threadId
  have hself := findResultMap_findOrCreate_self layer queue threadId
  refine ⟨⟨_, hsome⟩, findOrCreate_of_found layer queue threadId, ?_,
    findResultMap_findOrCreate_ne layer queue threadId, ?_⟩
  · intro hnone
    have hempty : (FindOrCreateProfilerResultsMap layer queue threadId).2 = some [] := by
      unfold findResultMap at hnone
      unfold FindOrCreateProfilerResultsMap mapCount
      cases ht : mapFind layer.mEntriesWithProfilingResults threadId with
      | none => simp
      | some queueMap =>
        rw [ht] at hnone
        simp only at hnone
        simp [hnone]
    exact ⟨hempty, by rw [hself, hempty]⟩
  · rw [hsome] at hself ⊢
    exact findOrCreate_of_found _ queue threadId _ hself

/-! ### The table of profiled functions -/

theorem mapFind_mapSet {K V : Type} [DecidableEq K] (m : List (K × V)) (k k' : K) (v : V) :
    mapFind (mapSet m k v) k' = if k = k' then some v else mapFind m k' := by
  by_cases h : k = k'
  · subst h
    simp [mapFind_mapSet_self]
  · simp [h, mapFind_mapSet_ne _ _ _ _ (Ne.symm h)]

/-- C19: whatever the table held before, after `SetProfiledFuncs` every draw,
dispatch, copy, pipeline-barrier and render-pass command of the table is
profiled and every bind and set-state command of the table is not.  The other
commands of the table: blit, update, fill, clear, resolve, wait-events,
push-constants, reset-query-pool and execute-commands are profiled; set-event,
reset-event, begin-query, end-query and write-timestamp are not.  The table the
constructor leaves is the one `SetProfiledFuncs` makes from the empty table, the
same at every construction. -/
theorem profiled_funcs_table (layer : VktFrameProfilerLayer) :
    (∀ funcId ∈
      [FuncId.vkCmdDraw, FuncId.vkCmdDrawIndexed, FuncId.vkCmdDrawIndirect,
       FuncId.vkCmdDrawIndexedIndirect, FuncId.vkCmdDispatch, FuncId.vkCmdDispatchIndirect,
       FuncId.vkCmdCopyBuffer, FuncId.vkCmdCopyImage, FuncId.vkCmdCopyBufferToImage,
       FuncId.vkCmdCopyImageToBuffer, FuncId.vkCmdCopyQueryPoolResults,
       FuncId.vkCmdPipelineBarrier, FuncId.vkCmdBeginRenderPass, FuncId.vkCmdNextSubpass,
       FuncId.vkCmdEndRenderPass],
      ShouldProfileFunction (SetProfiledFuncs layer) funcId = true) ∧
    (∀ funcId ∈
      [FuncId.vkCmdBindPipeline, FuncId.vkCmdSetViewport, FuncId.vkCmdSetScissor,
       FuncId.vkCmdSetLineWidth, FuncId.vkCmdSetDepthBias, FuncId.vkCmdSetBlendConstants,
       FuncId.vkCmdSetDepthBounds, FuncId.vkCmdSetStencilCompareMask,
       FuncId.vkCmdSetStencilWriteMask, FuncId.vkCmdSetStencilReference,
       FuncId.vkCmdBindDescriptorSets, FuncId.vkCmdBindIndexBuffer,
       FuncId.vkCmdBindVertexBuffers],
      ShouldProfileFunction (SetProfiledFuncs layer) funcId = false) ∧
    (∀ funcId ∈
      [FuncId.vkCmdBlitImage, FuncId.vkCmdUpdateBuffer, FuncId.vkCmdFillBuffer,
       FuncId.vkCmdClearColorImage, FuncId.vkCmdClearDepthStencilImage,
       FuncId.vkCmdClearAttachments, FuncId.vkCmdResolveImage, FuncId.vkCmdWaitEvents,
       FuncId.vkCmdPushConstants, FuncId.vkCmdResetQueryPool, FuncId.vkCmdExecuteCommands],
      ShouldProfileFunction (SetProfiledFuncs layer) funcId = true) ∧
    (∀ funcId ∈
      [FuncId.vkCmdSetEvent, FuncId.vkCmdResetEvent, FuncId.vkCmdBeginQuery,
       FuncId.vkCmdEndQuery, FuncId.vkCmdWriteTimestamp],
      ShouldProfileFunction (SetProfiledFuncs layer) funcId = false) ∧
    (∀ layer' : VktFrameProfilerLayer, layer'.m_profiledFuncs = [] →
      (SetProfiledFuncs layer').m_profiledFuncs =
        VktFrameProfilerLayer.construct.m_profiledFuncs) := by
  refine ⟨?_, ?_, ?_, ?_, ?_⟩
  · intro funcId hmem
    simp only [List.mem_cons, List.mem_singleton, List.not_mem_nil, or_false] at hmem
    rcases hmem with h | h | h | h | h | h | h | h | h | h | h | h | h | h | h <;> subst h <;>
      simp [ShouldProfileFunction, SetProfiledFuncs, mapFind_mapSet]
  · intro funcId hmem
    simp only [List.mem_cons, List.mem_singleton, List.not_mem_nil, or_false] at hmem
    rcases hmem with h | h | h | h | h | h | h | h | h | h | h | h | h <;> subst h <;>
      simp [ShouldProfileFunction, SetProfiledFuncs, mapFind_mapSet]
  · intro funcId hmem
    simp only [List.mem_cons, List.mem_singleton, List.not_mem_nil, or_false] at hmem
    rcases hmem with h | h | h | h | h | h | h | h | h | h | h <;> subst h <;>
      simp [ShouldProfileFunction, SetProfiledFuncs, mapFind_mapSet]
  · intro funcId hmem
    simp only [List.mem_cons, List.mem_singleton, List.not_mem_nil, or_false] at hmem
    rcases hmem with h | h | h | h | h <;> subst h <;>
      simp [ShouldProfileFunction, SetProfiledFuncs, mapFind_mapSet]
  · intro layer' hempty
    unfold VktFrameProfilerLayer.construct SetProfiledFuncs
    simp only [hempty]

/-! ### Sequences of store calls -/

theorem mapSet_of_mapFind {K V : Type} [DecidableEq K] (m : List (K × V)) (k : K) (v : V)
    (h : mapFind m k = some v) : mapSet m k v = m := by
  induction m with
  | nil => simp [mapFind] at h
  | cons kv rest ih =>
    obtain ⟨k', v'⟩ := kv
    by_cases hk : k' = k
    · subst hk
      simp only [mapFind, if_true, Option.some.injEq] at h
      simp [mapSet, h]
    · simp only [mapFind, hk, if_false] at h
      simp [mapSet, hk, ih h]

/-- The weight of a map changes under `mapSet` by the weight of the new value
less the weight of the value it replaces. -/
theorem weight_mapSet {K V : Type} [DecidableEq K] (f : V → Nat) (d : V) (hd : f d = 0)
    (m : List (K × V)) (k : K) (v : V) :
    ((mapSet m k v).map (fun kv => f kv.2)).sum + f ((mapFind m k).getD d) =
      (m.map (fun kv => f kv.2)).sum + f v := by
  induction m with
  | nil => simp [mapSet, mapFind, hd]
  | cons kv rest ih =>
    obtain ⟨k', v'⟩ := kv
    by_cases hk : k' = k
    · simp [mapSet, mapFind, hk]
      omega
    · simp only [mapSet, mapFind, hk, if_false, List.map_cons, List.sum_cons]
      omega

theorem length_mapSet_of_none {K V : Type} [DecidableEq K] (m : List (K × V)) (k : K) (v : V)
    (h : mapFind m k = none) : (mapSet m k v).length = m.length + 1 := by
  induction m with
  | nil => simp [mapSet]
  | cons kv rest ih =>
    obtain ⟨k', v'⟩ := kv
    by_cases hk : k' = k
    · simp [mapFind, hk] at h
    · simp only [mapFind, hk, if_false] at h
      simp [mapSet, hk, ih h]

theorem findOrCreate_fst (layer : VktFrameProfilerLayer) (queue threadId : Nat) :
    (FindOrCreateProfilerResultsMap layer queue threadId).1 =
      setResultMap layer threadId queue (resultMapOf layer threadId queue) := by
  unfold FindOrCreateProfilerResultsMap setResultMap resultMapOf mapCount mapInsert
  cases ht : mapFind layer.mEntriesWithProfilingResults threadId with
  | none => simp [mapFind, mapSet]
  | some queueMap =>
    cases hq : mapFind queueMap queue with
    | none => simp [hq, mapFind]
    | some resultMap =>
      simp only [hq, Option.getD_some]
      rw [mapSet_of_mapFind _ _ _ hq, mapSet_of_mapFind _ _ _ ht]
      simp

theorem setResultMap_setResultMap (layer : VktFrameProfilerLayer) (threadId queue : Nat)
    (a b : SampleIdToProfilerResultMap) :
    setResultMap (setResultMap layer threadId queue a) threadId queue b =
      setResultMap layer threadId queue b := by
  unfold setResultMap
  simp [mapFind_mapSet_self, mapSet_mapSet]

theorem verify_fst_eq (cal : Bool) (rnd : ℚ → Double) (layer : VktFrameProfilerLayer)
    (queue : Nat) (results : List ProfilerResult) (pair : Option CalibrationTimestampPair)
    (threadId : Nat) (frameStart : ℤ) :
    (VerifyAlignAndStoreResults cal rnd layer queue results pair threadId frameStart).1 =
      setResultMap layer threadId queue
        (verifyAlignAndStoreLoop cal rnd pair frameStart (resultMapOf layer threadId queue)
          results).1 := by
  rw [verify_fst, findOrCreate_fst, setResultMap_setResultMap]

theorem storeSize_setResultMap (layer : VktFrameProfilerLayer) (threadId queue : Nat)
    (m : SampleIdToProfilerResultMap) :
    storeSize (setResultMap layer threadId queue m) +
        (resultMapOf layer threadId queue).length =
      storeSize layer + m.length := by
  unfold storeSize setResultMap resultMapOf
  have h1 := weight_mapSet (K := Nat) queueMapSize [] rfl layer.mEntriesWithProfilingResults
    threadId
    (mapSet ((mapFind layer.mEntriesWithProfilingResults threadId).getD []) queue m)
  have h2 := weight_mapSet (K := Nat) (fun r : SampleIdToProfilerResultMap => r.length) [] rfl
    ((mapFind layer.mEntriesWithProfilingResults threadId).getD []) queue m
  simp only [queueMapSize] at h1 h2 ⊢
  omega

theorem one_of_storable (cal : Bool) (rnd : ℚ → Double)
    (pair : Option CalibrationTimestampPair) (frameStart : ℤ)
    (m : SampleIdToProfilerResultMap) (r : ProfilerResult)
    (hv : ValidateProfilerResult r = true)
    (ha : cal = true → (AlignProfilerResultWithCPUTimeline rnd r pair frameStart).1 = true) :
    (verifyAlignAndStoreOne cal rnd pair frameStart m r).1 =
      mapSet m r.measurementInfo.idInfo.sampleId (storedCopy cal rnd pair frameStart r) := by
  unfold verifyAlignAndStoreOne storedCopy normalizeZeroDuration
  cases cal with
  | false => simp [hv]
  | true => simp [hv, ha rfl]

theorem one_fst_cases (cal : Bool) (rnd : ℚ → Double)
    (pair : Option CalibrationTimestampPair) (frameStart : ℤ)
    (m : SampleIdToProfilerResultMap) (x : ProfilerResult) :
    (verifyAlignAndStoreOne cal rnd pair frameStart m x).1 = m ∨
      ∃ v, (verifyAlignAndStoreOne cal rnd pair frameStart m x).1 =
        mapSet m x.measurementInfo.idInfo.sampleId v := by
  unfold verifyAlignAndStoreOne
  by_cases hv : ValidateProfilerResult x = true
  · by_cases hs :
        (if cal = true then AlignProfilerResultWithCPUTimeline rnd x pair frameStart
          else (true, x)).1 = true
    · right
      simp only [hv, hs, if_true]
      exact ⟨_, rfl⟩
    · left
      simp only [hv, hs, if_true]
      rfl
  · left
    simp [hv]

theorem loop_find_of_not_mem (cal : Bool) (rnd : ℚ → Double)
    (pair : Option CalibrationTimestampPair) (frameStart : ℤ) (k : Nat)
    (results : List ProfilerResult) (m : SampleIdToProfilerResultMap)
    (hk : k ∉ results.map (fun r => r.measurementInfo.idInfo.sampleId)) :
    mapFind (verifyAlignAndStoreLoop cal rnd pair frameStart m results).1 k = mapFind m k := by
  induction results generalizing m with
  | nil => rfl
  | cons x rest ih =>
    simp only [List.map_cons, List.mem_cons, not_or] at hk
    rw [loop_cons_fst, ih _ hk.2]
    rcases one_fst_cases cal rnd pair frameStart m x with h | ⟨v, h⟩
    · rw [h]
    · rw [h, mapFind_mapSet_ne _ _ _ _ hk.1]

theorem loop_find_of_mem (cal : Bool) (rnd : ℚ → Double)
    (pair : Option CalibrationTimestampPair) (frameStart : ℤ)
    (results : List ProfilerResult) (m : SampleIdToProfilerResultMap)
    (hok : ∀ r ∈ results, ValidateProfilerResult r = true ∧
      (cal = true → (AlignProfilerResultWithCPUTimeline rnd r pair frameStart).1 = true))
    (hnodup : (results.map (fun r => r.measurementInfo.idInfo.sampleId)).Nodup)
    (r : ProfilerResult) (hr : r ∈ results) :
    mapFind (verifyAlignAndStoreLoop cal rnd pair frameStart m results).1
        r.measurementInfo.idInfo.sampleId =
      some (storedCopy cal rnd pair frameStart r) := by
  induction results generalizing m with
  | nil => simp at hr
  | cons x rest ih =>
    simp only [List.map_cons, List.nodup_cons] at hnodup
    have hokrest : ∀ r ∈ rest, ValidateProfilerResult r = true ∧
        (cal = true → (AlignProfilerResultWithCPUTimeline rnd r pair frameStart).1 = true) :=
      fun r hr => hok r (List.mem_cons_of_mem _ hr)
    rw [loop_cons_fst]
    by_cases hmem : r ∈ rest
    · exact ih _ hokrest hnodup.2 hmem
    · have hrx : r = x := by
        rcases List.mem_cons.mp hr with h | h
        · exact h
        · exact absurd h hmem
      subst hrx
      rw [loop_find_of_not_mem _ _ _ _ _ _ _ hnodup.1,
        one_of_storable cal rnd pair frameStart m r (hok r hr).1 (hok r hr).2,
        mapFind_mapSet_self]

theorem loop_length (cal : Bool) (rnd : ℚ → Double)
    (pair : Option CalibrationTimestampPair) (frameStart : ℤ)
    (results : List ProfilerResult) (m : SampleIdToProfilerResultMap)
    (hok : ∀ r ∈ results, ValidateProfilerResult r = true ∧
      (cal = true → (AlignProfilerResultWithCPUTimeline rnd r pair frameStart).1 = true))
    (hnodup : (results.map (fun r => r.measurementInfo.idInfo.sampleId)).Nodup)
    (hfresh : ∀ r ∈ results, mapFind m r.measurementInfo.idInfo.sampleId = none) :
    (verifyAlignAndStoreLoop cal rnd pair frameStart m results).1.length =
      m.length + results.length := by
  induction results generalizing m with
  | nil => rfl
  | cons x rest ih =>
    simp only [List.map_cons, List.nodup_cons] at hnodup
    have hx := hok x (List.mem_cons_self _ _)
    have hstep := one_of_storable cal rnd pair frameStart m x hx.1 hx.2
    rw [loop_cons_fst, ih _ (fun r hr => hok r (List.mem_cons_of_mem _ hr)) hnodup.2, hstep,
      length_mapSet_of_none _ _ _ (hfresh x (List.mem_cons_self _ _)), List.length_cons]
    · omega
    · intro r hr
      rw [hstep]
      have hne : r.measurementInfo.idInfo.sampleId ≠ x.measurementInfo.idInfo.sampleId := by
        intro heq
        apply hnodup.1
        rw [← heq]
        exact List.mem_map.mpr ⟨r, hr, rfl⟩
      rw [mapFind_mapSet_ne _ _ _ _ hne]
      exact hfresh r (List.mem_cons_of_mem _ hr)

theorem verify_find_of_not_mem (cal : Bool) (rnd : ℚ → Double) (layer : VktFrameProfilerLayer)
    (call : StoreCall) (threadId queue k : Nat) (h : (threadId, queue, k) ∉ storeCallKeys call) :
    mapFind
        (resultMapOf
          (VerifyAlignAndStoreResults cal rnd layer call.pQueue call.results
            call.pTimestampPair call.threadID call.frameStartTime).1 threadId queue) k =
      mapFind (resultMapOf layer threadId queue) k := by
  by_cases hslot : threadId = call.threadID ∧ queue = call.pQueue
  · obtain ⟨rfl, rfl⟩ := hslot
    rw [resultMapOf_verify]
    apply loop_find_of_not_mem
    intro hmem
    apply h
    obtain ⟨r, hr, hrk⟩ := List.mem_map.mp hmem
    exact List.mem_map.mpr ⟨r, hr, by rw [hrk]⟩
  · rw [resultMapOf_verify_ne _ _ _ _ _ _ _ _ _ _ hslot]

theorem nodup_ids_of_keys (call : StoreCall) (h : (storeCallKeys call).Nodup) :
    (call.results.map (fun r => r.measurementInfo.idInfo.sampleId)).Nodup := by
  have hmap : storeCallKeys call =
      (call.results.map (fun r => r.measurementInfo.idInfo.sampleId)).map
        (fun k => (call.threadID, call.pQueue, k)) := by
    simp [storeCallKeys, List.map_map, Function.comp_def]
  rw [hmap] at h
  exact List.Nodup.of_map _ h

theorem verify_storeSize (cal : Bool) (rnd : ℚ → Double) (layer : VktFrameProfilerLayer)
    (call : StoreCall)
    (hok : ∀ r ∈ call.results, ValidateProfilerResult r = true ∧
      (cal = true →
        (AlignProfilerResultWithCPUTimeline rnd r call.pTimestampPair
          call.frameStartTime).1 = true))
    (hnodup : (storeCallKeys call).Nodup)
    (hfresh : ∀ key ∈ storeCallKeys call,
      mapFind (resultMapOf layer key.1 key.2.1) key.2.2 = none) :
    storeSize
        (VerifyAlignAndStoreResults cal rnd layer call.pQueue call.results
          call.pTimestampPair call.threadID call.frameStartTime).1 =
      storeSize layer + call.results.length := by
  have hsize := storeSize_setResultMap layer call.threadID call.pQueue
    (verifyAlignAndStoreLoop cal rnd call.pTimestampPair call.frameStartTime
      (resultMapOf layer call.threadID call.pQueue) call.results).1
  have hlen := loop_length cal rnd call.pTimestampPair call.frameStartTime call.results
    (resultMapOf layer call.threadID call.pQueue) hok (nodup_ids_of_keys call hnodup)
    (fun r hr => hfresh (call.threadID, call.pQueue, r.measurementInfo.idInfo.sampleId)
      (List.mem_map.mpr ⟨r, hr, rfl⟩))
  rw [verify_fst_eq]
  omega

/-- From a layer that holds no result under any key of the calls: the store
grows by one entry for each result, results under other keys stay, and each
result of each call is found under its key. -/
theorem runStoreCalls_spec (cal : Bool) (rnd : ℚ → Double) (calls : List StoreCall)
    (layer : VktFrameProfilerLayer)
    (hok : ∀ call ∈ calls, ∀ r ∈ call.results, ValidateProfilerResult r = true ∧
      (cal = true →
        (AlignProfilerResultWithCPUTimeline rnd r call.pTimestampPair
          call.frameStartTime).1 = true))
    (hnodup : (storeCallsKeys calls).Nodup)
    (hfresh : ∀ key ∈ storeCallsKeys calls,
      mapFind (resultMapOf layer key.1 key.2.1) key.2.2 = none) :
    storeSize (runStoreCalls cal rnd layer calls) =
        storeSize layer + (storeCallsKeys calls).length ∧
    (∀ threadId queue k, (threadId, queue, k) ∉ storeCallsKeys calls →
      mapFind (resultMapOf (runStoreCalls cal rnd layer calls) threadId queue) k =
        mapFind (resultMapOf layer threadId queue) k) ∧
    (∀ call ∈ calls, ∀ r ∈ call.results,
      mapFind (resultMapOf (runStoreCalls cal rnd layer calls) call.threadID call.pQueue)
          r.measurementInfo.idInfo.sampleId =
        some (storedCopy cal rnd call.pTimestampPair call.frameStartTime r)) := by
  induction calls generalizing layer with
  | nil =>
    refine ⟨by simp [runStoreCalls, storeCallsKeys], fun _ _ _ _ => rfl, ?_⟩
    intro call hcall
    simp at hcall
  | cons c rest ih =>
    have hkeys : storeCallsKeys (c :: rest) = storeCallKeys c ++ storeCallsKeys rest := by
      simp [storeCallsKeys]
    rw [hkeys] at hnodup hfresh
    rw [List.nodup_append] at hnodup
    obtain ⟨hnc, hnrest, hdisj⟩ := hnodup
    have hokc := hok c (List.mem_cons_self _ _)
    have hokrest : ∀ call ∈ rest, ∀ r ∈ call.results, ValidateProfilerResult r = true ∧
        (cal = true →
          (AlignProfilerResultWithCPUTimeline rnd r call.pTimestampPair
            call.frameStartTime).1 = true) :=
      fun call hcall => hok call (List.mem_cons_of_mem _ hcall)
    have hfreshc : ∀ key ∈ storeCallKeys c,
        mapFind (resultMapOf layer key.1 key.2.1) key.2.2 = none :=
      fun key hkey => hfresh key (List.mem_append_left _ hkey)
    have hfreshrest : ∀ key ∈ storeCallsKeys rest,
        mapFind
          (resultMapOf
            (VerifyAlignAndStoreResults cal rnd layer c.pQueue c.results c.pTimestampPair
              c.threadID c.frameStartTime).1 key.1 key.2.1) key.2.2 = none := by
      intro key hkey
      obtain ⟨t, q, k⟩ := key
      rw [verify_find_of_not_mem cal rnd layer c t q k (fun hmem => hdisj hmem hkey)]
      exact hfresh (t, q, k) (List.mem_append_right _ hkey)
    obtain ⟨ihsize, ihother, ihfind⟩ := ih _ hokrest hnrest hfreshrest
    have hrun : runStoreCalls cal rnd layer (c :: rest) =
        runStoreCalls cal rnd
          (VerifyAlignAndStoreResults cal rnd layer c.pQueue c.results c.pTimestampPair
            c.threadID c.frameStartTime).1 rest := rfl
    rw [hrun, hkeys]
    refine ⟨?_, ?_, ?_⟩
    · rw [ihsize, verify_storeSize cal rnd layer c hokc hnc hfreshc, List.length_append]
      simp only [storeCallKeys, List.length_map]
      omega
    · intro t q k hkey
      rw [List.mem_append, not_or] at hkey
      rw [ihother t q k hkey.2, verify_find_of_not_mem cal rnd layer c t q k hkey.1]
    · intro call hcall r hr
      by_cases hmem : (call.threadID, call.pQueue, r.measurementInfo.idInfo.sampleId) ∈
          storeCallsKeys rest
      · rcases List.mem_cons.mp hcall with hc | hc
        · subst hc
          exact absurd hmem (fun h => hdisj (List.mem_map.mpr ⟨r, hr, rfl⟩) h)
        · exact ihfind call hc r hr
      · rcases List.mem_cons.mp hcall with hc | hc
        · subst hc
          rw [ihother _ _ _ hmem, resultMapOf_verify]
          exact loop_find_of_mem cal rnd _ _ _ _ hokc (nodup_ids_of_keys _ hnc) r hr
        · exact ihfind call hc r hr

theorem align_rawClocks (rnd : ℚ → Double) (r : ProfilerResult)
    (pair : Option CalibrationTimestampPair) (frameStart : ℤ) :
    (AlignProfilerResultWithCPUTimeline rnd r pair frameStart).2.timestampResult.rawClocks =
        r.timestampResult.rawClocks ∧
      (AlignProfilerResultWithCPUTimeline rnd r pair frameStart).2.measurementInfo =
        r.measurementInfo := by
  cases pair with
  | none => exact ⟨rfl, rfl⟩
  | some ts =>
    rw [align_some]
    split <;> exact ⟨rfl, rfl⟩

theorem storedCopy_spec (cal : Bool) (rnd : ℚ → Double)
    (pair : Option CalibrationTimestampPair) (frameStart : ℤ) (r : ProfilerResult) :
    (storedCopy cal rnd pair frameStart r).measurementInfo = r.measurementInfo ∧
    (storedCopy cal rnd pair frameStart r).timestampResult.rawClocks.preStart =
      r.timestampResult.rawClocks.preStart ∧
    (storedCopy cal rnd pair frameStart r).timestampResult.rawClocks.start =
      r.timestampResult.rawClocks.start ∧
    (r.timestampResult.rawClocks.start ≠ r.timestampResult.rawClocks.end_ →
      (storedCopy cal rnd pair frameStart r).timestampResult.rawClocks.end_ =
        r.timestampResult.rawClocks.end_) ∧
    (r.timestampResult.rawClocks.start = r.timestampResult.rawClocks.end_ →
      r.timestampResult.rawClocks.end_ + 1 < UINT64_MODULUS →
      (storedCopy cal rnd pair frameStart r).timestampResult.rawClocks.end_ =
        r.timestampResult.rawClocks.end_ + 1) := by
  have hal : (if cal = true then AlignProfilerResultWithCPUTimeline rnd r pair frameStart
        else (true, r)).2.timestampResult.rawClocks = r.timestampResult.rawClocks ∧
      (if cal = true then AlignProfilerResultWithCPUTimeline rnd r pair frameStart
        else (true, r)).2.measurementInfo = r.measurementInfo := by
    cases cal with
    | false => exact ⟨rfl, rfl⟩
    | true => exact align_rawClocks rnd r pair frameStart
  unfold storedCopy CopyProfilerResult
  generalize (if cal = true then AlignProfilerResultWithCPUTimeline rnd r pair frameStart
    else (true, r)).2 = a at hal ⊢
  obtain ⟨h1, h2⟩ := hal
  unfold normalizeZeroDuration
  by_cases heq : a.timestampResult.rawClocks.start = a.timestampResult.rawClocks.end_
  · rw [if_pos heq]
    rw [h1] at heq
    refine ⟨h2, ?_, ?_, fun hne => absurd heq hne, fun _ hlt => ?_⟩
    · show a.timestampResult.rawClocks.preStart = _
      rw [h1]
    · show a.timestampResult.rawClocks.start = _
      rw [h1]
    · show (a.timestampResult.rawClocks.end_ + 1) % UINT64_MODULUS = _
      rw [h1]
      exact Nat.mod_eq_of_lt hlt
  · rw [if_neg heq]
    rw [h1] at heq
    exact ⟨h2, by rw [h1], by rw [h1], fun _ => by rw [h1], fun h => absurd h heq⟩

theorem scenario_aligns_exact :
    (AlignProfilerResultWithCPUTimeline exactRounding scenarioResult (some scenarioCalibration)
      0).1 = true := by
  rw [align_some, alignedMillisecond_exact _ _ _ (by decide) (by decide),
    alignedMillisecond_exact _ _ _ (by decide) (by decide)]
  simp [Double.ge, Double.le, scenarioResult, scenarioCalibration, mkResult]
  norm_num

/-- C17: from a layer whose result store is empty, calls of
`VerifyAlignAndStoreResults` that store valid, alignable results under pairwise
distinct `(threadId, queue, sampleId)` keys, made in any order, leave as many
entries in the store as there are results; each result is found under its key
with its measurement info and its raw clocks, `end` being one more when
`start = end` (and `end + 1` fits 64 bits). -/
theorem distinct_keys_all_recoverable (cal : Bool) (rnd : ℚ → Double)
    (layer : VktFrameProfilerLayer) (calls : List StoreCall)
    (hempty : layer.mEntriesWithProfilingResults = [])
    (hnodup : (storeCallsKeys calls).Nodup)
    (hok : ∀ call ∈ calls, ∀ r ∈ call.results, ValidateProfilerResult r = true ∧
      (cal = true →
        (AlignProfilerResultWithCPUTimeline rnd r call.pTimestampPair
          call.frameStartTime).1 = true)) :
    storeSize (runStoreCalls cal rnd layer calls) = (storeCallsKeys calls).length ∧
    ∀ call ∈ calls, ∀ r ∈ call.results, ∃ stored,
      mapFind (resultMapOf (runStoreCalls cal rnd layer calls) call.threadID call.pQueue)
          r.measurementInfo.idInfo.sampleId = some stored ∧
      stored.measurementInfo = r.measurementInfo ∧
      stored.timestampResult.rawClocks.preStart = r.timestampResult.rawClocks.preStart ∧
      stored.timestampResult.rawClocks.start = r.timestampResult.rawClocks.start ∧
      (r.timestampResult.rawClocks.start ≠ r.timestampResult.rawClocks.end_ →
        stored.timestampResult.rawClocks.end_ = r.timestampResult.rawClocks.end_) ∧
      (r.timestampResult.rawClocks.start = r.timestampResult.rawClocks.end_ →
        r.timestampResult.rawClocks.end_ + 1 < UINT64_MODULUS →
        stored.timestampResult.rawClocks.end_ = r.timestampResult.rawClocks.end_ + 1) := by
  have hfresh : ∀ key ∈ storeCallsKeys calls,
      mapFind (resultMapOf layer key.1 key.2.1) key.2.2 = none := by
    intro key _
    simp [resultMapOf, hempty, mapFind]
  have hsize0 : storeSize layer = 0 := by simp [storeSize, hempty]
  obtain ⟨hsize, -, hfind⟩ := runStoreCalls_spec cal rnd calls layer hok hnodup hfresh
  refine ⟨by rw [hsize, hsize0, Nat.zero_add], ?_⟩
  intro call hcall r hr
  exact ⟨_, hfind call hcall r hr,
    storedCopy_spec cal rnd call.pTimestampPair call.frameStartTime r⟩

/-- Witness of C17: the scenario result stored from two threads, with calibration
compiled in and exact arithmetic, on a new layer. -/
theorem distinct_keys_all_recoverable_witness :
    VktFrameProfilerLayer.construct.mEntriesWithProfilingResults = [] ∧
    (storeCallsKeys scenarioStoreCalls).Nodup ∧
    (∀ call ∈ scenarioStoreCalls, ∀ r ∈ call.results, ValidateProfilerResult r = true ∧
      (true = true →
        (AlignProfilerResultWithCPUTimeline exactRounding r call.pTimestampPair
          call.frameStartTime).1 = true)) ∧
    storeSize (runStoreCalls true exactRounding VktFrameProfilerLayer.construct
        scenarioStoreCalls) = (storeCallsKeys scenarioStoreCalls).length ∧
    ∀ call ∈ scenarioStoreCalls, ∀ r ∈ call.results, ∃ stored,
      mapFind
          (resultMapOf
            (runStoreCalls true exactRounding VktFrameProfilerLayer.construct
              scenarioStoreCalls) call.threadID call.pQueue)
          r.measurementInfo.idInfo.sampleId = some stored ∧
      stored.measurementInfo = r.measurementInfo ∧
      stored.timestampResult.rawClocks.preStart = r.timestampResult.rawClocks.preStart ∧
      stored.timestampResult.rawClocks.start = r.timestampResult.rawClocks.start ∧
      (r.timestampResult.rawClocks.start ≠ r.timestampResult.rawClocks.end_ →
        stored.timestampResult.rawClocks.end_ = r.timestampResult.rawClocks.end_) ∧
      (r.timestampResult.rawClocks.start = r.timestampResult.rawClocks.end_ →
        r.timestampResult.rawClocks.end_ + 1 < UINT64_MODULUS →
        stored.timestampResult.rawClocks.end_ = r.timestampResult.rawClocks.end_ + 1) := by
  have hnodup : (storeCallsKeys scenarioStoreCalls).Nodup := by decide
  have hok : ∀ call ∈ scenarioStoreCalls, ∀ r ∈ call.results,
      ValidateProfilerResult r = true ∧
      (true = true →
        (AlignProfilerResultWithCPUTimeline exactRounding r call.pTimestampPair
          call.frameStartTime).1 = true) := by
    intro call hcall r hr
    simp only [scenarioStoreCalls, List.mem_cons, List.mem_singleton, List.not_mem_nil,
      or_false] at hcall
    rcases hcall with rfl | rfl
    · simp only [List.mem_singleton] at hr
      subst hr
      exact ⟨by decide, fun _ => scenario_aligns_exact⟩
    · simp only [List.mem_singleton] at hr
      subst hr
      exact ⟨by decide, fun _ => scenario_aligns_exact⟩
  exact ⟨rfl, hnodup, hok,
    distinct_keys_all_recoverable true exactRounding VktFrameProfilerLayer.construct
      scenarioStoreCalls rfl hnodup hok⟩


/-! ### The end-to-end scenario -/

theorem roundHalfEven_of_close {x : ℚ} {n : ℤ} (hlo : (n : ℚ) - 1 / 2 < x)
    (hhi : x < (n : ℚ) + 1 / 2) : roundHalfEven x = n := by
  unfold roundHalfEven
  simp only
  by_cases hx : (n : ℚ) ≤ x
  · have hfloor : ⌊x⌋ = n := by
      rw [Int.floor_eq_iff]
      exact ⟨hx, by linarith⟩
    rw [hfloor, if_pos (by linarith)]
  · have hfloor : ⌊x⌋ = n - 1 := by
      rw [Int.floor_eq_iff]
      push_cast
      exact ⟨by linarith, by linarith⟩
    rw [hfloor, if_neg (by push_cast; linarith), if_pos (by push_cast; linarith)]
    ring

/-- Evaluates binary64 rounding at a positive rational: `k` is the binary
exponent of `q` and `n` the integer nearest to `q / 2 ^ (k - 52)`. -/
theorem roundNearestEven_eval {q : ℚ} {k n : ℤ} (hk : -1022 ≤ k) (h₁ : (2 : ℚ) ^ k ≤ q)
    (h₂ : q < (2 : ℚ) ^ (k + 1)) (hlo : (n : ℚ) - 1 / 2 < q / 2 ^ (k - 52))
    (hhi : q / 2 ^ (k - 52) < (n : ℚ) + 1 / 2)
    (hfin : (n : ℚ) * 2 ^ (k - 52) < 2 ^ (1024 : ℤ)) :
    roundNearestEven q = Double.fin ((n : ℚ) * 2 ^ (k - 52)) := by
  have hq : 0 < q := lt_of_lt_of_le (two_zpow_pos k) h₁
  have he : ulpExponent |q| = k - 52 := by
    rw [abs_of_pos hq]
    exact ulpExponent_eq hk h₁ h₂
  have hround : roundHalfEven (q / 2 ^ (k - 52)) = n := roundHalfEven_of_close hlo hhi
  have hulp : roundToUlp q = (n : ℚ) * 2 ^ (k - 52) := by
    unfold roundToUlp
    simp only [he, hround]
  have hnonneg : 0 ≤ (n : ℚ) * 2 ^ (k - 52) := by
    rw [← hulp]
    exact roundToUlp_nonneg (le_of_lt hq)
  unfold roundNearestEven
  simp only [hulp]
  rw [if_neg]
  rw [not_le, abs_of_nonneg hnonneg]
  exact hfin

theorem roundNearestEven_fifth :
    roundNearestEven (1 / 5) = Double.fin (3602879701896397 / 18014398509481984) := by
  have h := roundNearestEven_eval (q := 1 / 5) (k := -3) (n := 7205759403792794)
    (by norm_num) (by norm_num) (by norm_num) (by norm_num) (by norm_num) (by norm_num)
  norm_num at h
  exact h

theorem roundNearestEven_quarter :
    roundNearestEven (1 / 4) = Double.fin (1 / 4) := by
  have h := roundNearestEven_eval (q := 1 / 4) (k := -2) (n := 4503599627370496)
    (by norm_num) (by norm_num) (by norm_num) (by norm_num) (by norm_num) (by norm_num)
  norm_num at h
  exact h

theorem roundNearestEven_three_twentieths :
    roundNearestEven (3 / 20) = Double.fin (5404319552844595 / 36028797018963968) := by
  have h := roundNearestEven_eval (q := 3 / 20) (k := -3) (n := 5404319552844595)
    (by norm_num) (by norm_num) (by norm_num) (by norm_num) (by norm_num) (by norm_num)
  norm_num at h
  exact h

theorem roundNearestEven_thousandth :
    roundNearestEven (1 / 1000) = Double.fin (1152921504606847 / 1152921504606846976) := by
  have h := roundNearestEven_eval (q := 1 / 1000) (k := -10) (n := 4611686018427388)
    (by norm_num) (by norm_num) (by norm_num) (by norm_num) (by norm_num) (by norm_num)
  norm_num at h
  exact h

theorem roundNearestEven_deltaStart :
    roundNearestEven (1801439850948199 / 36028797018963968) =
      Double.fin (1801439850948199 / 36028797018963968) := by
  have h := roundNearestEven_eval (q := 1801439850948199 / 36028797018963968)
    (k := -5) (n := 7205759403792796)
    (by norm_num) (by norm_num) (by norm_num) (by norm_num) (by norm_num) (by norm_num)
  norm_num at h
  exact h

theorem roundNearestEven_deltaEnd :
    roundNearestEven (3602879701896397 / 36028797018963968) =
      Double.fin (3602879701896397 / 36028797018963968) := by
  have h := roundNearestEven_eval (q := 3602879701896397 / 36028797018963968)
    (k := -4) (n := 7205759403792794)
    (by norm_num) (by norm_num) (by norm_num) (by norm_num) (by norm_num) (by norm_num)
  norm_num at h
  exact h

theorem roundNearestEven_sumStart :
    roundNearestEven (58798996734949215 / 1152921504606846976) =
      Double.fin (1837468647967163 / 36028797018963968) := by
  have h := roundNearestEven_eval (q := 58798996734949215 / 1152921504606846976)
    (k := -5) (n := 7349874591868652)
    (by norm_num) (by norm_num) (by norm_num) (by norm_num) (by norm_num) (by norm_num)
  norm_num at h
  exact h

theorem roundNearestEven_sumEnd :
    roundNearestEven (116445071965291551 / 1152921504606846976) =
      Double.fin (3638908498915361 / 36028797018963968) := by
  have h := roundNearestEven_eval (q := 116445071965291551 / 1152921504606846976)
    (k := -4) (n := 7277816997830722)
    (by norm_num) (by norm_num) (by norm_num) (by norm_num) (by norm_num) (by norm_num)
  norm_num at h
  exact h

theorem roundNearestEven_alignedStart :
    roundNearestEven (1837468647967163 / 36028797018963968) =
      Double.fin (1837468647967163 / 36028797018963968) := by
  have h := roundNearestEven_eval (q := 1837468647967163 / 36028797018963968)
    (k := -5) (n := 7349874591868652)
    (by norm_num) (by norm_num) (by norm_num) (by norm_num) (by norm_num) (by norm_num)
  norm_num at h
  exact h

theorem roundNearestEven_alignedEnd :
    roundNearestEven (3638908498915361 / 36028797018963968) =
      Double.fin (3638908498915361 / 36028797018963968) := by
  have h := roundNearestEven_eval (q := 3638908498915361 / 36028797018963968)
    (k := -4) (n := 7277816997830722)
    (by norm_num) (by norm_num) (by norm_num) (by norm_num) (by norm_num) (by norm_num)
  norm_num at h
  exact h

theorem roundNearestEven_int_200 : roundNearestEven 200 = Double.fin 200 := by
  simpa using roundNearestEven_intCast 200 (by norm_num)

theorem roundNearestEven_int_200000 : roundNearestEven 200000 = Double.fin 200000 := by
  simpa using roundNearestEven_intCast 200000 (by norm_num)

theorem roundNearestEven_int_1000000 : roundNearestEven 1000000 = Double.fin 1000000 := by
  simpa using roundNearestEven_intCast 1000000 (by norm_num)

theorem roundNearestEven_int_250 : roundNearestEven 250 = Double.fin 250 := by
  simpa using roundNearestEven_intCast 250 (by norm_num)

theorem roundNearestEven_int_250000 : roundNearestEven 250000 = Double.fin 250000 := by
  simpa using roundNearestEven_intCast 250000 (by norm_num)

theorem roundNearestEven_int_150 : roundNearestEven 150 = Double.fin 150 := by
  simpa using roundNearestEven_intCast 150 (by norm_num)

theorem roundNearestEven_int_150000 : roundNearestEven 150000 = Double.fin 150000 := by
  simpa using roundNearestEven_intCast 150000 (by norm_num)

theorem roundNearestEven_int_1000000000 : roundNearestEven 1000000000 = Double.fin 1000000000 := by
  simpa using roundNearestEven_intCast 1000000000 (by norm_num)

theorem alignedMillisecond_scenario_start :
    alignedMillisecond roundNearestEven scenarioCalibration 0 200 =
      Double.fin (1837468647967163 / 36028797018963968) := by
  norm_num [alignedMillisecond, scenarioCalibration, Double.ofInt, mul_fin, div_fin, sub_fin,
    add_fin, roundNearestEven_zero, roundNearestEven_thousand, roundNearestEven_int_200,
    roundNearestEven_int_200000, roundNearestEven_int_1000000, roundNearestEven_int_150,
    roundNearestEven_int_150000, roundNearestEven_int_1000000000, roundNearestEven_fifth,
    roundNearestEven_three_twentieths, roundNearestEven_thousandth,
    roundNearestEven_deltaStart, roundNearestEven_sumStart, roundNearestEven_alignedStart]

theorem alignedMillisecond_scenario_end :
    alignedMillisecond roundNearestEven scenarioCalibration 0 250 =
      Double.fin (3638908498915361 / 36028797018963968) := by
  norm_num [alignedMillisecond, scenarioCalibration, Double.ofInt, mul_fin, div_fin, sub_fin,
    add_fin, roundNearestEven_zero, roundNearestEven_thousand, roundNearestEven_int_250,
    roundNearestEven_int_250000, roundNearestEven_int_1000000, roundNearestEven_int_150,
    roundNearestEven_int_150000, roundNearestEven_int_1000000000, roundNearestEven_quarter,
    roundNearestEven_three_twentieths, roundNearestEven_thousandth,
    roundNearestEven_deltaEnd, roundNearestEven_sumEnd, roundNearestEven_alignedEnd]


theorem find_after_verify_singleton (cal : Bool) (rnd : ℚ → Double)
    (layer : VktFrameProfilerLayer) (queue : Nat) (r : ProfilerResult)
    (pair : Option CalibrationTimestampPair) (threadId : Nat) (frameStart : ℤ)
    (hv : ValidateProfilerResult r = true)
    (ha : cal = true → (AlignProfilerResultWithCPUTimeline rnd r pair frameStart).1 = true) :
    mapFind
        (resultMapOf (VerifyAlignAndStoreResults cal rnd layer queue [r] pair threadId
          frameStart).1 threadId queue) r.measurementInfo.idInfo.sampleId =
      some (storedCopy cal rnd pair frameStart r) := by
  rw [resultMapOf_verify, loop_cons_fst, one_of_storable cal rnd pair frameStart _ r hv ha]
  exact mapFind_mapSet_self _ _ _

theorem scenario_align_exact :
    AlignProfilerResultWithCPUTimeline exactRounding scenarioResult (some scenarioCalibration)
        0 =
      (true,
        setAlignedTimestamps scenarioResult (Double.fin (51 / 1000)) (Double.fin (101 / 1000))) := by
  have hs : alignedMillisecond exactRounding scenarioCalibration 0
      scenarioResult.timestampResult.rawClocks.start = Double.fin (51 / 1000) := by
    rw [alignedMillisecond_exact _ _ _ (by decide) (by decide)]
    simp [scenarioResult, scenarioCalibration, mkResult]
    norm_num
  have he : alignedMillisecond exactRounding scenarioCalibration 0
      scenarioResult.timestampResult.rawClocks.end_ = Double.fin (101 / 1000) := by
    rw [alignedMillisecond_exact _ _ _ (by decide) (by decide)]
    simp [scenarioResult, scenarioCalibration, mkResult]
    norm_num
  rw [align_some, hs, he, if_pos]
  · rfl
  · simp [Double.ge, le_fin_fin]
    norm_num

theorem scenario_align_binary64 :
    AlignProfilerResultWithCPUTimeline roundNearestEven scenarioResult
        (some scenarioCalibration) 0 =
      (true,
        setAlignedTimestamps scenarioResult
          (Double.fin (1837468647967163 / 36028797018963968))
          (Double.fin (3638908498915361 / 36028797018963968))) := by
  have hs : scenarioResult.timestampResult.rawClocks.start = 200 := rfl
  have he : scenarioResult.timestampResult.rawClocks.end_ = 250 := rfl
  rw [align_some, hs, he, alignedMillisecond_scenario_start, alignedMillisecond_scenario_end,
    if_pos]
  · rfl
  · simp [Double.ge, le_fin_fin]
    norm_num

/-- C18: the scenario result (sample id 1, raw clocks `(100, 200, 250)`) passes
`ValidateProfilerResult`.  With the scenario calibration pair and frame start 0
`AlignProfilerResultWithCPUTimeline` returns true: in exact arithmetic it writes
`0.051` and `0.101`, in binary64 arithmetic two doubles within `10⁻¹⁵` of them,
and in both `0 <= alignedStart < alignedEnd`.  After
`VerifyAlignAndStoreResults` on any layer, thread and queue, the sample map of
that `(thread, queue)` holds under sample id 1 the aligned result, with raw
clocks `(100, 200, 250)`; with calibration compiled out it holds the result as
given. -/
theorem end_to_end_scenario :
    ValidateProfilerResult scenarioResult = true ∧
    (AlignProfilerResultWithCPUTimeline exactRounding scenarioResult (some scenarioCalibration)
          0 =
        (true,
          setAlignedTimestamps scenarioResult (Double.fin (51 / 1000))
            (Double.fin (101 / 1000))) ∧
      Double.le (Double.fin 0) (Double.fin (51 / 1000)) = true ∧
      Double.lt (Double.fin (51 / 1000)) (Double.fin (101 / 1000)) = true) ∧
    (AlignProfilerResultWithCPUTimeline roundNearestEven scenarioResult
          (some scenarioCalibration) 0 =
        (true,
          setAlignedTimestamps scenarioResult
            (Double.fin (1837468647967163 / 36028797018963968))
            (Double.fin (3638908498915361 / 36028797018963968))) ∧
      Double.le (Double.fin 0) (Double.fin (1837468647967163 / 36028797018963968)) = true ∧
      Double.lt (Double.fin (1837468647967163 / 36028797018963968))
        (Double.fin (3638908498915361 / 36028797018963968)) = true ∧
      |(1837468647967163 / 36028797018963968 : ℚ) - 51 / 1000| < 1 / 10 ^ 15 ∧
      |(3638908498915361 / 36028797018963968 : ℚ) - 101 / 1000| < 1 / 10 ^ 15) ∧
    (∀ (layer : VktFrameProfilerLayer) (threadId queue : Nat),
      mapFind
          (resultMapOf
            (VerifyAlignAndStoreResults true exactRounding layer queue [scenarioResult]
              (some scenarioCalibration) threadId 0).1 threadId queue) 1 =
        some
          (setAlignedTimestamps scenarioResult (Double.fin (51 / 1000))
            (Double.fin (101 / 1000))) ∧
      mapFind
          (resultMapOf
            (VerifyAlignAndStoreResults true roundNearestEven layer queue [scenarioResult]
              (some scenarioCalibration) threadId 0).1 threadId queue) 1 =
        some
          (setAlignedTimestamps scenarioResult
            (Double.fin (1837468647967163 / 36028797018963968))
            (Double.fin (3638908498915361 / 36028797018963968))) ∧
      mapFind
          (resultMapOf
            (VerifyAlignAndStoreResults false exactRounding layer queue [scenarioResult]
              (some scenarioCalibration) threadId 0).1 threadId queue) 1 =
        some scenarioResult) ∧
    (∀ alignedStart alignedEnd,
      (setAlignedTimestamps scenarioResult alignedStart alignedEnd).timestampResult.rawClocks =
        { preStart := 100, start := 200, end_ := 250 } ∧
      (setAlignedTimestamps scenarioResult alignedStart
        alignedEnd).measurementInfo.idInfo.sampleId = 1) := by
  have hv : ValidateProfilerResult scenarioResult = true := by decide
  have hid : scenarioResult.measurementInfo.idInfo.sampleId = 1 := rfl
  refine ⟨hv, ⟨scenario_align_exact, ?_, ?_⟩, ⟨scenario_align_binary64, ?_, ?_, ?_, ?_⟩, ?_,
    fun _ _ => ⟨rfl, rfl⟩⟩
  · simp [le_fin_fin]
    norm_num
  · simp [Double.lt]
    norm_num
  · simp [le_fin_fin]
    norm_num
  · simp [Double.lt]
    norm_num
  · rw [abs_lt]
    constructor <;> norm_num
  · rw [abs_lt]
    constructor <;> norm_num
  · intro layer threadId queue
    refine ⟨?_, ?_, ?_⟩
    · have h := find_after_verify_singleton true exactRounding layer queue scenarioResult
        (some scenarioCalibration) threadId 0 hv (fun _ => by rw [scenario_align_exact])
      rw [hid] at h
      rw [h]
      simp only [storedCopy, if_true, scenario_align_exact]
      rfl
    · have h := find_after_verify_singleton true roundNearestEven layer queue scenarioResult
        (some scenarioCalibration) threadId 0 hv (fun _ => by rw [scenario_align_binary64])
      rw [hid] at h
      rw [h]
      simp only [storedCopy, if_true, scenario_align_binary64]
      rfl
    · have h := find_after_verify_singleton false exactRounding layer queue scenarioResult
        (some scenarioCalibration) threadId 0 hv (fun hc => by simp at hc)
      rw [hid] at h
      rw [h]
      rfl


end Vkt
